import Mathlib

/-!
# Verification of the sunflowers scene layout generator

This file embeds `src/utils/strokeGenerator.ts` (together with the palette
constants and the `Stroke` / `RealisticShape` / `LevelData` data model) in
Lean and proves the stated properties of `generateSunflowersData`.

Modelling conventions:

* JS numbers are modelled as exact rationals `ℚ` (the spec states the
  geometric properties in real arithmetic).
* The ambient JS library functions used by the generator —
  `Math.PI`, `Math.cos`, `Math.sin`, `Math.sqrt`, `Math.random`, and
  the id conversion `Number.prototype.toString(36).substr(2, 9)` — are
  external to the repository and are abstracted into an environment
  record `Env`.  `Math.random` becomes an arbitrary stream `rand : ℕ → ℚ`
  consumed left to right in exactly the order the source evaluates its
  `Math.random()` calls.
* `Path2D` values are opaque to the generator; a brush path is fully
  determined by the six arguments of `createBrushStroke`, so the model
  stores those arguments as the path.
* Strokes carry, in addition to the five fields the source stores,
  ghost data used only to state the specification: the `minDistance`
  that was in force when the stroke was accepted and the index of the
  `Math.random()` draw its id was derived from.  The generator state
  also carries a ghost counter of candidate attempts (`addStroke`
  invocations).  Ghost data never influences control flow.
-/

/-- Palette colors from `src/constants.ts` (`enum PaletteColor`). -/
inductive PaletteColor where
  | EarthYellow
  | BrightYellow
  | OchreSienna
  | GrassGreen
  | SkyBlue
  | ErrorRed
  deriving DecidableEq, Repr

/-- The hex string value of each `PaletteColor` enum member. -/
def PaletteColor.hex : PaletteColor → String
  | .EarthYellow => "#D4A056"
  | .BrightYellow => "#FFD54F"
  | .OchreSienna => "#8D6E63"
  | .GrassGreen => "#558B2F"
  | .SkyBlue => "#81D4FA"
  | .ErrorRed => "#EF5350"

/-- `PALETTE_COLORS` from `src/constants.ts`: the five paintable colors. -/
def PALETTE_COLORS : List PaletteColor :=
  [.EarthYellow, .BrightYellow, .OchreSienna, .GrassGreen, .SkyBlue]

/-- The ambient JS environment used by the generator: `Math.PI`,
`Math.cos`, `Math.sin`, `Math.sqrt`, the `Math.random` stream (indexed by
the order of the calls), and the conversion a fresh id string is obtained
with (`.toString(36).substr(2, 9)` applied to a random draw). -/
structure Env where
  pi : ℚ
  cos : ℚ → ℚ
  sin : ℚ → ℚ
  sqrt : ℚ → ℚ
  rand : ℕ → ℚ
  uidStr : ℚ → String

/-- A 2D point. -/
structure Pt where
  x : ℚ
  y : ℚ
  deriving DecidableEq, Repr

/-- An axis-aligned bounding box, as produced by `getStrokeBounds`. -/
structure Box where
  minX : ℚ
  minY : ℚ
  maxX : ℚ
  maxY : ℚ
  deriving DecidableEq, Repr

/-- The data determining a brush path: the six arguments of
`createBrushStroke` (which fully determine the `Path2D` it builds). -/
structure BrushPath where
  x : ℚ
  y : ℚ
  length : ℚ
  angle : ℚ
  width : ℚ
  curvature : ℚ
  deriving DecidableEq, Repr

/-- `Stroke` from `src/types.ts`.  `path` holds the construction data of
the `Path2D`; `minDist` and `idIdx` are ghost fields recording the
`minDistance` in force at acceptance time and the index of the
`Math.random()` draw the id came from. -/
structure Stroke where
  id : String
  path : BrushPath
  targetColor : PaletteColor
  currentColor : Option PaletteColor
  zIndex : ℕ
  minDist : ℚ
  idIdx : ℕ
  deriving DecidableEq, Repr

/-- `ShapeType` from `src/types.ts`. -/
inductive ShapeType where
  | rect
  | circle
  | ellipse
  | path
  deriving DecidableEq, Repr

/-- A path point of a `RealisticShape` (`points` entries in
`src/types.ts`), with optional Bezier control points. -/
structure PathPt where
  x : ℚ
  y : ℚ
  cp1x : Option ℚ := none
  cp1y : Option ℚ := none
  cp2x : Option ℚ := none
  cp2y : Option ℚ := none
  deriving DecidableEq, Repr

/-- `RealisticShape` from `src/types.ts`; absent optional properties are
`none`. -/
structure RealisticShape where
  type : ShapeType
  color : String
  zIndex : ℕ
  x : Option ℚ := none
  y : Option ℚ := none
  w : Option ℚ := none
  h : Option ℚ := none
  r : Option ℚ := none
  rx : Option ℚ := none
  ry : Option ℚ := none
  rotation : Option ℚ := none
  points : Option (List PathPt) := none
  deriving DecidableEq, Repr

/-- `LevelData` from `src/types.ts`. -/
structure LevelData where
  strokes : List Stroke
  shapes : List RealisticShape
  deriving DecidableEq, Repr

/-- The mutable state threaded through `generateSunflowersData`: the
`strokes` and `shapes` arrays, the per-color accumulator maps (modelled
as total functions defaulting to `[]`, matching `map.get(c) || []`),
the `zIndexCounter`, the index of the next `Math.random()` draw, and a
ghost counter of `addStroke` invocations. -/
structure GenState where
  strokes : List Stroke
  shapes : List RealisticShape
  boundsByColor : PaletteColor → List Box
  centersByColor : PaletteColor → List Pt
  zIndexCounter : ℕ
  rng : ℕ
  attempts : ℕ

/-- The state at the start of `generateSunflowersData`. -/
def GenState.init : GenState :=
  { strokes := [], shapes := [], boundsByColor := fun _ => [],
    centersByColor := fun _ => [], zIndexCounter := 0, rng := 0, attempts := 0 }

/-- One `Math.random()` call: the next value of the stream. -/
def draw (e : Env) (s : GenState) : ℚ × GenState :=
  (e.rand s.rng, { s with rng := s.rng + 1 })

/-- `getStrokeBounds` from `src/utils/strokeGenerator.ts`.  The source
folds `min`/`max` over the six key points starting from `±Infinity`,
which is the same as the six-way `min`/`max` written out here. -/
def getStrokeBounds (e : Env) (x y length angle width curvature : ℚ) : Box :=
  let rad := angle * e.pi / 180
  let dx := e.cos rad * length
  let dy := e.sin rad * length
  let thicknessX := e.sin rad * width
  let thicknessY := -(e.cos rad) * width
  let cx := x + dx / 2 - e.sin rad * curvature
  let cy := y + dy / 2 + e.cos rad * curvature
  { minX := min x (min (x + dx) (min (x + thicknessX) (min (x + dx + thicknessX) (min cx (cx + thicknessX))))),
    minY := min y (min (y + dy) (min (y + thicknessY) (min (y + dy + thicknessY) (min cy (cy + thicknessY))))),
    maxX := max x (max (x + dx) (max (x + thicknessX) (max (x + dx + thicknessX) (max cx (cx + thicknessX))))),
    maxY := max y (max (y + dy) (max (y + thicknessY) (max (y + dy + thicknessY) (max cy (cy + thicknessY))))) }

/-- `boxesOverlap` from the source: true when the boxes intersect and
the intersection area exceeds `threshold` times the smaller box area. -/
def boxesOverlap (box1 box2 : Box) (threshold : ℚ) : Bool :=
  let intersectX := max 0 (min box1.maxX box2.maxX - max box1.minX box2.minX)
  let intersectY := max 0 (min box1.maxY box2.maxY - max box1.minY box2.minY)
  let intersectArea := intersectX * intersectY
  if intersectArea = 0 then false
  else
    let area1 := (box1.maxX - box1.minX) * (box1.maxY - box1.minY)
    let area2 := (box2.maxX - box2.minX) * (box2.maxY - box2.minY)
    let minArea := min area1 area2
    decide (intersectArea / minArea > threshold)

/-- `getStrokeCenter` from the source: the midpoint of the centerline. -/
def getStrokeCenter (e : Env) (x y length angle : ℚ) : Pt :=
  let rad := angle * e.pi / 180
  let dx := e.cos rad * length
  let dy := e.sin rad * length
  { x := x + dx / 2, y := y + dy / 2 }

/-- `distance` from the source: `Math.sqrt(dx*dx + dy*dy)`. -/
def distance (e : Env) (p1 p2 : Pt) : ℚ :=
  let dx := p1.x - p2.x
  let dy := p1.y - p2.y
  e.sqrt (dx * dx + dy * dy)

/-- `createBrushStroke` from the source.  The `Path2D` it builds is
fully determined by its six arguments, which the model keeps. -/
def createBrushStroke (x y length angle width curvature : ℚ) : BrushPath :=
  { x := x, y := y, length := length, angle := angle, width := width, curvature := curvature }

/-- The option object accepted by `addStroke`. -/
structure StrokeOptions where
  length : Option ℚ := none
  width : Option ℚ := none
  angle : Option ℚ := none
  curvature : Option ℚ := none
  minDistance : Option ℚ := none

/-- JS `options.f || g(Math.random())`: a present non-zero value wins,
otherwise (absent or `0`, both falsy) a fresh draw feeds `g`. -/
def jsOrDraw (o : Option ℚ) (g : ℚ → ℚ) (e : Env) (s : GenState) : ℚ × GenState :=
  match o with
  | some v => if v = 0 then (let p := draw e s; (g p.1, p.2)) else (v, s)
  | none => let p := draw e s; (g p.1, p.2)

/-- JS `options.angle !== undefined ? options.angle : Math.random() * 360`. -/
def jsAngle (o : Option ℚ) (e : Env) (s : GenState) : ℚ × GenState :=
  match o with
  | some v => (v, s)
  | none => let p := draw e s; (p.1 * 360, p.2)

/-- JS `options.minDistance || 15` (no draw involved). -/
def jsMinDist (o : Option ℚ) : ℚ :=
  match o with
  | some v => if v = 0 then 15 else v
  | none => 15

/-- The candidate parameters of `addStroke` after defaulting. -/
structure Resolved where
  len : ℚ
  wid : ℚ
  ang : ℚ
  curv : ℚ
  minD : ℚ

/-- The first five lines of `addStroke`: resolve `len`, `wid`, `ang`,
`curv`, `minDist`, consuming random draws exactly where the source
does (JS `||` short-circuits). -/
def resolveOpts (e : Env) (opts : StrokeOptions) (s : GenState) : Resolved × GenState :=
  let pl := jsOrDraw opts.length (fun r => 15 + r * 15) e s
  let pw := jsOrDraw opts.width (fun r => 4 + r * 3) e pl.2
  let pa := jsAngle opts.angle e pw.2
  let pc := jsOrDraw opts.curvature (fun r => (r - 0.5) * 10) e pa.2
  (⟨pl.1, pw.1, pa.1, pc.1, jsMinDist opts.minDistance⟩, pc.2)

/-- The body of `addStroke` after parameter resolution: reject on
canvas bounds (margin 5), then on minimum distance to same-color
centers, then on >30% same-color box overlap; otherwise create the
stroke, give it a fresh id and the next `zIndex`, and record its box
and center in the per-color accumulators. -/
def tryAdd (e : Env) (w h x y : ℚ) (color : PaletteColor) (p : Resolved)
    (s1 : GenState) : GenState :=
  let bounds := getStrokeBounds e x y p.len p.ang p.wid p.curv
  if bounds.minX < -5 ∨ bounds.minY < -5 ∨ bounds.maxX > w + 5 ∨ bounds.maxY > h + 5 then
    s1
  else
    let center := getStrokeCenter e x y p.len p.ang
    let sameColorCenters := s1.centersByColor color
    if sameColorCenters.any fun ec => decide (distance e center ec < p.minD) then
      s1
    else
      let sameColorBounds := s1.boundsByColor color
      if sameColorBounds.any fun eb => boxesOverlap bounds eb 0.3 then
        s1
      else
        let path := createBrushStroke x y p.len p.ang p.wid p.curv
        let pid := draw e s1
        let st : Stroke :=
          { id := e.uidStr pid.1, path := path, targetColor := color, currentColor := none,
            zIndex := s1.zIndexCounter, minDist := p.minD, idIdx := s1.rng }
        { pid.2 with
          strokes := s1.strokes ++ [st],
          zIndexCounter := s1.zIndexCounter + 1,
          boundsByColor := fun c =>
            if c = color then s1.boundsByColor c ++ [bounds] else s1.boundsByColor c,
          centersByColor := fun c =>
            if c = color then s1.centersByColor c ++ [center] else s1.centersByColor c }

/-- `addStroke` from `src/utils/strokeGenerator.ts`: resolve the
candidate parameters (consuming random draws), then run the rejection
checks and possibly append the stroke (`tryAdd`).  The `attempts` bump
is ghost instrumentation counting candidate attempts. -/
def addStroke (e : Env) (w h x y : ℚ) (color : PaletteColor) (opts : StrokeOptions)
    (s0 : GenState) : GenState :=
  let sA := { s0 with attempts := s0.attempts + 1 }
  let pr := resolveOpts e opts sA
  tryAdd e w h x y color pr.1 pr.2

/-- Append one reference shape (`shapes.push(createShape(...))`). -/
def pushShape (sh : RealisticShape) (s : GenState) : GenState :=
  { s with shapes := s.shapes ++ [sh] }

/-- The sky placement loop (`maxSkyStrokes = 18`, `maxRetries = 18 * 4`):
random position above the horizon, near-horizontal stroke, spacing 28.
The first argument after `horizonY` is the number of attempts left, the
second the number of sky strokes added so far. -/
def skyLoop (e : Env) (w h horizonY : ℚ) : ℕ → ℕ → GenState → GenState
  | 0, _, s => s
  | fuel + 1, added, s =>
    if added < 18 then
      let px := draw e s
      let x := px.1 * w
      let py := draw e px.2
      let y := py.1 * horizonY
      let beforeCount := py.2.strokes.length
      let pa := draw e py.2
      let s' := addStroke e w h x y PaletteColor.SkyBlue
        { angle := some (0 + (pa.1 - 0.5) * 15), length := some 45, width := some 14,
          minDistance := some 28 } pa.2
      skyLoop e w h horizonY fuel (if beforeCount < s'.strokes.length then added + 1 else added) s'
    else s

/-- The table placement loop (`maxTableStrokes = 12`, retries `12 * 4`):
random position below the horizon, near-horizontal stroke, spacing 32. -/
def tableLoop (e : Env) (w h horizonY : ℚ) : ℕ → ℕ → GenState → GenState
  | 0, _, s => s
  | fuel + 1, added, s =>
    if added < 12 then
      let px := draw e s
      let x := px.1 * w
      let py := draw e px.2
      let y := horizonY + py.1 * (h - horizonY)
      let beforeCount := py.2.strokes.length
      let pa := draw e py.2
      let s' := addStroke e w h x y PaletteColor.EarthYellow
        { angle := some (0 + (pa.1 - 0.5) * 5), length := some 50, width := some 16,
          minDistance := some 32 } pa.2
      tableLoop e w h horizonY fuel (if beforeCount < s'.strokes.length then added + 1 else added) s'
    else s

/-- The vase placement loop (`maxVaseStrokes = 10`, retries `10 * 4`):
random height on the vase, horizontal position within the sine-profiled
width at that height, near-vertical stroke, spacing 22. -/
def vaseLoop (e : Env) (w h vaseCenterX vaseBaseY vaseTopY vaseWidthTop vaseWidthBody : ℚ) :
    ℕ → ℕ → GenState → GenState
  | 0, _, s => s
  | fuel + 1, added, s =>
    if added < 10 then
      let pt := draw e s
      let t := pt.1
      let y := vaseBaseY - t * (vaseBaseY - vaseTopY)
      let curveT := e.sin (t * e.pi)
      let currentW := vaseWidthBody * curveT + vaseWidthTop * (1 - curveT)
      let px := draw e pt.2
      let x := vaseCenterX + (px.1 - 0.5) * 2 * currentW * 0.8
      let beforeCount := px.2.strokes.length
      let pa := draw e px.2
      let s' := addStroke e w h x y PaletteColor.GrassGreen
        { angle := some (90 + (pa.1 - 0.5) * 20), length := some 32, width := some 12,
          minDistance := some 22 } pa.2
      vaseLoop e w h vaseCenterX vaseBaseY vaseTopY vaseWidthTop vaseWidthBody fuel
        (if beforeCount < s'.strokes.length then added + 1 else added) s'
    else s

/-- The per-stem-point retry loop (`for retry = 0; retry < 3 && !strokeAdded`):
try the point itself; if rejected and `retry < 2`, immediately try once
more with a `(retry + 1) * 1.5`-scaled random offset.  The `ℕ` argument
is the number of retry iterations left (so `retry = 3 - fuel`). -/
def stemRetryLoop (e : Env) (w h cx cy : ℚ) : ℕ → GenState → GenState
  | 0, s => s
  | fuel + 1, s =>
    let beforeCount := s.strokes.length
    let pa := draw e s
    let s1 := addStroke e w h cx cy PaletteColor.GrassGreen
      { angle := some (75 + pa.1 * 25), length := some 26, width := some 10,
        minDistance := some 20 } pa.2
    if beforeCount < s1.strokes.length then s1
    else if 1 ≤ fuel then
      let offset := ((3 - fuel : ℕ) : ℚ) * 1.5
      let p1 := draw e s1
      let p2 := draw e p1.2
      let pa2 := draw e p2.2
      let s2 := addStroke e w h (cx + (p1.1 - 0.5) * offset) (cy + (p2.1 - 0.5) * offset)
        PaletteColor.GrassGreen
        { angle := some (75 + pa2.1 * 25), length := some 26, width := some 10,
          minDistance := some 20 } pa2.2
      if beforeCount < s2.strokes.length then s2 else stemRetryLoop e w h cx cy fuel s2
    else stemRetryLoop e w h cx cy fuel s1

/-- The per-petal retry loop: try the petal position; if rejected and
`retry < 2`, immediately try once more with a `(retry + 1) * 2`-scaled
random offset. -/
def petalRetryLoop (e : Env) (w h px py angleDeg len : ℚ) : ℕ → GenState → GenState
  | 0, s => s
  | fuel + 1, s =>
    let beforeCount := s.strokes.length
    let s1 := addStroke e w h px py PaletteColor.BrightYellow
      { angle := some angleDeg, length := some len, width := some 14,
        curvature := some 5, minDistance := some 14 } s
    if beforeCount < s1.strokes.length then s1
    else if 1 ≤ fuel then
      let offset := ((3 - fuel : ℕ) : ℚ) * 2
      let p1 := draw e s1
      let p2 := draw e p1.2
      let s2 := addStroke e w h (px + (p1.1 - 0.5) * offset) (py + (p2.1 - 0.5) * offset)
        PaletteColor.BrightYellow
        { angle := some angleDeg, length := some len, width := some 14,
          curvature := some 5, minDistance := some 14 } p2.2
      if beforeCount < s2.strokes.length then s2 else petalRetryLoop e w h px py angleDeg len fuel s2
    else petalRetryLoop e w h px py angleDeg len fuel s1

/-- The flower-center dot loop (`maxCenterRetries = centerDots * 6`):
random polar position within `0.35 * r` of the center, spacing 12. -/
def centerLoop (e : Env) (w h fx fy fr : ℚ) (dots : ℕ) : ℕ → ℕ → GenState → GenState
  | 0, _, s => s
  | fuel + 1, added, s =>
    if added < dots then
      let p1 := draw e s
      let r := p1.1 * (fr * 0.35)
      let p2 := draw e p1.2
      let theta := p2.1 * e.pi * 2
      let cx := fx + r * e.cos theta
      let cy := fy + r * e.sin theta
      let beforeCount := p2.2.strokes.length
      let pa := draw e p2.2
      let s' := addStroke e w h cx cy PaletteColor.OchreSienna
        { angle := some (pa.1 * 360), length := some 14, width := some 12,
          curvature := some 0, minDistance := some 12 } pa.2
      centerLoop e w h fx fy fr dots fuel
        (if beforeCount < s'.strokes.length then added + 1 else added) s'
    else s

/-- One of the three fixed flowers. -/
structure Flower where
  x : ℚ
  y : ℚ
  r : ℚ

/-- The solid sky rectangle (`createShape('rect', SkyBlue, 0, ...)`). -/
def skyShape (w horizonY : ℚ) : RealisticShape :=
  { type := ShapeType.rect, color := PaletteColor.SkyBlue.hex, zIndex := 0,
    x := some 0, y := some 0, w := some w, h := some horizonY }

/-- The solid table rectangle (`createShape('rect', EarthYellow, 1, ...)`). -/
def tableShape (w h horizonY : ℚ) : RealisticShape :=
  { type := ShapeType.rect, color := PaletteColor.EarthYellow.hex, zIndex := 1,
    x := some 0, y := some horizonY, w := some w, h := some (h - horizonY) }

/-- The vase silhouette path (`createShape('path', GrassGreen, 2, ...)`). -/
def vaseShape (vaseCenterX vaseBaseY vaseTopY vaseWidthTop vaseWidthBody vaseWidthBase : ℚ) :
    RealisticShape :=
  { type := ShapeType.path, color := PaletteColor.GrassGreen.hex, zIndex := 2,
    points := some
      [ { x := vaseCenterX - vaseWidthTop, y := vaseTopY },
        { x := vaseCenterX - vaseWidthBase, y := vaseBaseY,
          cp1x := some (vaseCenterX - vaseWidthBody),
          cp1y := some (vaseTopY + (vaseBaseY - vaseTopY) * 0.3),
          cp2x := some (vaseCenterX - vaseWidthBody),
          cp2y := some (vaseBaseY - (vaseBaseY - vaseTopY) * 0.2) },
        { x := vaseCenterX + vaseWidthBase, y := vaseBaseY },
        { x := vaseCenterX + vaseWidthTop, y := vaseTopY,
          cp1x := some (vaseCenterX + vaseWidthBody),
          cp1y := some (vaseBaseY - (vaseBaseY - vaseTopY) * 0.2),
          cp2x := some (vaseCenterX + vaseWidthBody),
          cp2y := some (vaseTopY + (vaseBaseY - vaseTopY) * 0.3) } ] }

/-- A flower's stem path (`createShape('path', GrassGreen, 3, ...)`). -/
def stemShape (vaseCenterX vaseTopY : ℚ) (f : Flower) : RealisticShape :=
  let stemOffsetX := (f.x - vaseCenterX) * 0.3
  { type := ShapeType.path, color := PaletteColor.GrassGreen.hex, zIndex := 3,
    points := some
      [ { x := f.x, y := f.y + f.r * 0.5 },
        { x := vaseCenterX + stemOffsetX, y := vaseTopY + 10,
          cp1x := some (f.x + stemOffsetX * 0.3), cp1y := some (f.y + f.r + 40),
          cp2x := some (vaseCenterX + stemOffsetX * 0.7), cp2y := some (vaseTopY - 20) } ] }

/-- A petal ellipse (`createShape('ellipse', BrightYellow, 4, ...)`). -/
def petalShape (f : Flower) (px py angleRad : ℚ) : RealisticShape :=
  { type := ShapeType.ellipse, color := PaletteColor.BrightYellow.hex, zIndex := 4,
    x := some px, y := some py, rx := some (f.r * 0.55), ry := some (f.r * 0.22),
    rotation := some angleRad }

/-- A flower-center circle (`createShape('circle', centerColor, 5, ...)`). -/
def centerShape (idx : ℕ) (f : Flower) : RealisticShape :=
  { type := ShapeType.circle, color := if idx = 2 then "#A0522D" else "#8B4513", zIndex := 5,
    x := some f.x, y := some f.y, r := some (f.r * 0.45) }

/-- The body of `flowers.forEach((flower, idx) => ...)`: stem reference
shape and stem strokes, six petal reference shapes and petal strokes,
center reference circle and center dot strokes. -/
def flowerStep (e : Env) (w h vaseCenterX vaseTopY : ℚ) (idx : ℕ) (f : Flower)
    (s : GenState) : GenState :=
  let stemOffsetX := (f.x - vaseCenterX) * 0.3
  let s := pushShape (stemShape vaseCenterX vaseTopY f) s
  let s := (List.range 3).foldl (fun s (k : ℕ) =>
    let t := (k : ℚ) / 3
    let sx := f.x
    let sy := f.y + f.r
    let ex := vaseCenterX + stemOffsetX
    let ey := vaseTopY
    let curveOffset := e.sin (t * e.pi) * (if idx % 2 = 0 then -15 else 15)
    let cx := sx + (ex - sx) * t + curveOffset
    let cy := sy + (ey - sy) * t
    stemRetryLoop e w h cx cy 3 s) s
  let s := (List.range 6).foldl (fun s (j : ℕ) =>
    let angleDeg := ((j : ℚ) / 6) * 360
    let angleRad := angleDeg * e.pi / 180
    let dist := f.r * 0.75
    let px := f.x + e.cos angleRad * dist
    let py := f.y + e.sin angleRad * dist
    let s := pushShape (petalShape f px py angleRad) s
    petalRetryLoop e w h px py angleDeg (f.r * 1.1) 3 s) s
  let s := pushShape (centerShape idx f) s
  let centerDots := if idx = 0 then 4 else 3
  centerLoop e w h f.x f.y f.r centerDots (centerDots * 6) 0 s

/-- The full run of `generateSunflowersData`, returning the final
generator state (ghost data included). -/
def genRun (e : Env) (w h : ℚ) : GenState :=
  let s := GenState.init
  let horizonY := h * 0.65
  let s := pushShape (skyShape w horizonY) s
  let s := skyLoop e w h horizonY (18 * 4) 0 s
  let s := pushShape (tableShape w h horizonY) s
  let s := tableLoop e w h horizonY (12 * 4) 0 s
  let vaseCenterX := w / 2
  let vaseBaseY := h * 0.85
  let vaseTopY := h * 0.55
  let vaseWidthTop := w * 0.15
  let vaseWidthBody := w * 0.25
  let vaseWidthBase := w * 0.18
  let s := pushShape
    (vaseShape vaseCenterX vaseBaseY vaseTopY vaseWidthTop vaseWidthBody vaseWidthBase) s
  let s := vaseLoop e w h vaseCenterX vaseBaseY vaseTopY vaseWidthTop vaseWidthBody (10 * 4) 0 s
  let flowers : List Flower :=
    [ ⟨w * 0.35, h * 0.5, 42⟩, ⟨w * 0.72, h * 0.35, 32⟩, ⟨w * 0.58, h * 0.52, 28⟩ ]
  flowers.enum.foldl (fun s p => flowerStep e w h vaseCenterX vaseTopY p.1 p.2 s) s

/-- `generateSunflowersData(width, height)`: the generator's output. -/
def generateSunflowersData (e : Env) (w h : ℚ) : LevelData :=
  let s := genRun e w h
  { strokes := s.strokes, shapes := s.shapes }

/-- The stroke's bounding box, recomputed from its six defining points
(`getStrokeBounds` applied to the stored path data). -/
def strokeBoundsOf (e : Env) (st : Stroke) : Box :=
  getStrokeBounds e st.path.x st.path.y st.path.length st.path.angle st.path.width st.path.curvature

/-- The stroke's centerline midpoint (`getStrokeCenter` on its path data). -/
def strokeCenterOf (e : Env) (st : Stroke) : Pt :=
  getStrokeCenter e st.path.x st.path.y st.path.length st.path.angle

/-- Area of the intersection of two axis-aligned boxes. -/
def interArea (b1 b2 : Box) : ℚ :=
  max 0 (min b1.maxX b2.maxX - max b1.minX b2.minX) *
    max 0 (min b1.maxY b2.maxY - max b1.minY b2.minY)

/-- Area of an axis-aligned box. -/
def boxArea (b : Box) : ℚ :=
  (b.maxX - b.minX) * (b.maxY - b.minY)

/-- Squared Euclidean distance between two points. -/
def sqDist (p1 p2 : Pt) : ℚ :=
  (p1.x - p2.x) * (p1.x - p2.x) + (p1.y - p2.y) * (p1.y - p2.y)

/-- The exact value of the IEEE-754 double `Math.PI`
(`3.141592653589793115997963...` = `884279719003555 / 2^48`). -/
def piQ : ℚ := 884279719003555 / 281474976710656

/-- Floor-based rational square root used as a concrete `Math.sqrt`:
`√(n/d) = √(n·d)/d` computed to 2⁻⁴⁰ absolute precision (and `0` on
non-positive input, where the generator never needs it). -/
def ratSqrt (q : ℚ) : ℚ :=
  if q ≤ 0 then 0
  else (Nat.sqrt (q.num.toNat * q.den * 4 ^ 40) : ℚ) / ((q.den : ℚ) * 2 ^ 40)

/-- The table-`sin` value used at `35π/72` (the 87.5° stroke angle):
`sin(87.5°) = 0.9990482215818578...`, rounded to 9 digits. -/
def sinv : ℚ := 999048222 / 1000000000

/-- The table-`cos` value used at `35π/72`:
`cos(87.5°) = 0.0436193873653362...`, rounded to 9 digits. -/
def cosv : ℚ := 43619387 / 1000000000

/-- An engineered value for one `Math.random()` draw (the vase loop's
first height parameter `t`): chosen so that the resulting vase stroke's
centerline midpoint lies exactly 21 units above the first stem
candidate's midpoint.  `tStar = 0.854231...`, inside `[0, 1)`. -/
def tStar : ℚ := (177 - 13 * sinv) / 192

/-- The table-`sin` value at `tStar * π`:
`sin(2.6836461795...) = 0.4421071051...`, rounded to 9 digits. -/
def vs : ℚ := 442107105 / 1000000000

/-- The table-`cos` value at `tStar * π`:
`cos(2.6836461795...) = -0.8969622665...`, rounded to 9 digits. -/
def cvs : ℚ := -896962267 / 1000000000

/-- An engineered value for the next `Math.random()` draw (the vase
loop's first horizontal parameter): chosen so that the vase stroke's
anchor lands exactly above the first stem candidate's midpoint
(`x = 4.2 + 13 * cosv`) on a 12-wide canvas.  `rStar = 0.169348...`,
inside `[0, 1)`. -/
def rStar : ℚ := 1 / 2 + (21 / 5 + 13 * cosv - 6) / ((8 / 5) * (9 / 5 + (6 / 5) * vs))

/-- Values of (cos, sin) at the angles (in radians, as exact rationals
built from `piQ`) that the concrete runs below evaluate them at; the
values are the true cosines and sines rounded to 9 decimal digits. -/
def trigTable : List (ℚ × ℚ × ℚ) :=
  [ (0, 1, 0),
    (piQ / 3, 1 / 2, 866025404 / 1000000000),
    (piQ / 2, 0, 1),
    (2 * piQ / 3, -1 / 2, 866025404 / 1000000000),
    (piQ, -1, 0),
    (4 * piQ / 3, -1 / 2, -866025404 / 1000000000),
    (5 * piQ / 3, 1 / 2, -866025404 / 1000000000),
    (35 * piQ / 72, cosv, sinv),
    (tStar * piQ, cvs, vs) ]

/-- Concrete `Math.cos`: table lookup. -/
def tableCos (q : ℚ) : ℚ :=
  ((trigTable.find? fun ent => ent.1 = q).map fun ent => ent.2.1).getD 0

/-- Concrete `Math.sin`: table lookup. -/
def tableSin (q : ℚ) : ℚ :=
  ((trigTable.find? fun ent => ent.1 = q).map fun ent => ent.2.2).getD 0

/-- A concrete environment: honest table trig, floor-based square root,
and a random stream that is constantly `1/2` except for the two
engineered vase-placement draws 480 and 481.  `uidStr` maps `1/2` to
`"i"` (indeed `(0.5).toString(36)` is `"0.i"`, whose `substr(2, 9)` is
`"i"`). -/
def envCE : Env :=
  { pi := piQ, cos := tableCos, sin := tableSin, sqrt := ratSqrt,
    rand := fun i => if i = 480 then tStar else if i = 481 then rStar else 1 / 2,
    uidStr := fun q => if q = 1 / 2 then "i" else "" }

/-- A concrete environment whose direction functions are the constant
Pythagorean pair `(3/5, 4/5)` (so `cos² + sin² = 1` holds exactly, as
for the true cosine and sine).  Used to exhibit runs on a 1×1 canvas,
where every candidate brush stroke overshoots the canvas whatever its
direction, so the choice of angles is immaterial. -/
def env2 : Env :=
  { pi := piQ, cos := fun _ => 3 / 5, sin := fun _ => 4 / 5, sqrt := ratSqrt,
    rand := fun _ => 1 / 2, uidStr := fun q => if q = 1 / 2 then "i" else "" }

theorem generate_strokes (e : Env) (w h : ℚ) :
    (generateSunflowersData e w h).strokes = (genRun e w h).strokes := rfl

theorem generate_shapes (e : Env) (w h : ℚ) :
    (generateSunflowersData e w h).shapes = (genRun e w h).shapes := rfl

/-! ## State-evolution lemmas -/

/-- `s'` agrees with `s` on everything except possibly a larger random
index (the relation that parameter resolution and rejected candidates
establish). -/
def SameButRng (s s' : GenState) : Prop :=
  s'.strokes = s.strokes ∧ s'.boundsByColor = s.boundsByColor ∧
    s'.centersByColor = s.centersByColor ∧ s'.zIndexCounter = s.zIndexCounter ∧
    s.rng ≤ s'.rng

theorem SameButRng.refl (s : GenState) : SameButRng s s :=
  ⟨rfl, rfl, rfl, rfl, le_refl _⟩

theorem SameButRng.trans {s1 s2 s3 : GenState} (h : SameButRng s1 s2) (h' : SameButRng s2 s3) :
    SameButRng s1 s3 := by
  obtain ⟨a, c, d, f, i⟩ := h
  obtain ⟨a', c', d', f', i'⟩ := h'
  exact ⟨a'.trans a, c'.trans c, d'.trans d, f'.trans f, i.trans i'⟩

theorem draw_sameButRng (e : Env) (s : GenState) : SameButRng s (draw e s).2 :=
  ⟨rfl, rfl, rfl, rfl, Nat.le_succ _⟩

theorem jsOrDraw_sameButRng (o : Option ℚ) (g : ℚ → ℚ) (e : Env) (s : GenState) :
    SameButRng s (jsOrDraw o g e s).2 := by
  unfold jsOrDraw
  rcases o with _ | v
  · exact draw_sameButRng e s
  · dsimp only
    split
    · exact draw_sameButRng e s
    · exact SameButRng.refl s

theorem jsAngle_sameButRng (o : Option ℚ) (e : Env) (s : GenState) :
    SameButRng s (jsAngle o e s).2 := by
  unfold jsAngle
  rcases o with _ | v
  · exact draw_sameButRng e s
  · exact SameButRng.refl s

theorem resolveOpts_sameButRng (e : Env) (o : StrokeOptions) (s : GenState) :
    SameButRng s (resolveOpts e o s).2 := by
  unfold resolveOpts
  exact ((((jsOrDraw_sameButRng o.length _ e s).trans
    (jsOrDraw_sameButRng o.width _ e _)).trans
    (jsAngle_sameButRng o.angle e _)).trans
    (jsOrDraw_sameButRng o.curvature _ e _))

theorem resolveOpts_minD (e : Env) (o : StrokeOptions) (s : GenState) :
    (resolveOpts e o s).1.minD = jsMinDist o.minDistance := rfl

/-! ## The generation invariant -/

/-- Accepted same-color strokes never overlap by more than the 30%
threshold (in the orientation `addStroke` checked: later against
earlier). -/
def OverlapOK (e : Env) (a b : Stroke) : Prop :=
  a.targetColor = b.targetColor →
    boxesOverlap (strokeBoundsOf e b) (strokeBoundsOf e a) 0.3 = false

/-- The later of two accepted same-color strokes passed its
minimum-distance check against the earlier one. -/
def SpacedOK (e : Env) (a b : Stroke) : Prop :=
  a.targetColor = b.targetColor →
    ¬ distance e (strokeCenterOf e b) (strokeCenterOf e a) < b.minDist

/-- The invariant maintained by `generateSunflowersData` over its
state: accumulator completeness, the geometric guarantees of the three
rejection checks, and the bookkeeping facts about `zIndex`, ids,
`currentColor`, `minDist` and colors. -/
structure GenInv (e : Env) (w h : ℚ) (s : GenState) : Prop where
  boundsMem : ∀ st ∈ s.strokes, strokeBoundsOf e st ∈ s.boundsByColor st.targetColor
  centersMem : ∀ st ∈ s.strokes, strokeCenterOf e st ∈ s.centersByColor st.targetColor
  noOverlap : s.strokes.Pairwise (OverlapOK e)
  spaced : s.strokes.Pairwise (SpacedOK e)
  inBounds : ∀ st ∈ s.strokes,
    -5 ≤ (strokeBoundsOf e st).minX ∧ -5 ≤ (strokeBoundsOf e st).minY ∧
      (strokeBoundsOf e st).maxX ≤ w + 5 ∧ (strokeBoundsOf e st).maxY ≤ h + 5
  zLt : ∀ st ∈ s.strokes, st.zIndex < s.zIndexCounter
  zMono : s.strokes.Pairwise fun a b => a.zIndex < b.zIndex
  idEq : ∀ st ∈ s.strokes, st.id = e.uidStr (e.rand st.idIdx)
  idLt : ∀ st ∈ s.strokes, st.idIdx < s.rng
  idMono : s.strokes.Pairwise fun a b => a.idIdx < b.idIdx
  unpainted : ∀ st ∈ s.strokes, st.currentColor = none
  mdPos : ∀ st ∈ s.strokes, 0 < st.minDist
  colorsOk : ∀ st ∈ s.strokes, st.targetColor ∈ PALETTE_COLORS

theorem GenInv.init (e : Env) (w h : ℚ) : GenInv e w h GenState.init := by
  constructor <;> simp [GenState.init]

/-- The invariant transfers along `SameButRng`. -/
theorem GenInv.ofSameButRng {e : Env} {w h : ℚ} {s s' : GenState}
    (hs : GenInv e w h s) (hr : SameButRng s s') : GenInv e w h s' := by
  obtain ⟨a, c, d, f, i⟩ := hr
  exact
    { boundsMem := by rw [a, c]; exact hs.boundsMem
      centersMem := by rw [a, d]; exact hs.centersMem
      noOverlap := by rw [a]; exact hs.noOverlap
      spaced := by rw [a]; exact hs.spaced
      inBounds := by rw [a]; exact hs.inBounds
      zLt := by rw [a, f]; exact hs.zLt
      zMono := by rw [a]; exact hs.zMono
      idEq := by rw [a]; exact hs.idEq
      idLt := by
        rw [a]
        exact fun st hst => lt_of_lt_of_le (hs.idLt st hst) i
      idMono := by rw [a]; exact hs.idMono
      unpainted := by rw [a]; exact hs.unpainted
      mdPos := by rw [a]; exact hs.mdPos
      colorsOk := by rw [a]; exact hs.colorsOk }

/-- The invariant is preserved by pushing a reference shape. -/
theorem GenInv.push_shape {e : Env} {w h : ℚ} {s : GenState} (hs : GenInv e w h s)
    (sh : RealisticShape) : GenInv e w h (pushShape sh s) :=
  hs.ofSameButRng ⟨rfl, rfl, rfl, rfl, le_refl _⟩

/-- Membership in a one-element extension. -/
theorem mem_append_singleton {α : Type} {a b : α} {l : List α} :
    a ∈ l ++ [b] ↔ a ∈ l ∨ a = b := by simp

/-- The invariant is preserved by `tryAdd` (the checked part of
`addStroke`), provided the candidate's resolved minimum distance is
positive and its color is a palette color. -/
theorem tryAdd_inv (e : Env) (w h x y : ℚ) (c : PaletteColor) (p : Resolved) (s : GenState)
    (hc : c ∈ PALETTE_COLORS) (hm : 0 < p.minD) (hs : GenInv e w h s) :
    GenInv e w h (tryAdd e w h x y c p s) := by
  simp only [tryAdd]
  split
  · exact hs
  · split
    · exact hs
    · split
      · exact hs
      · rename_i hcanvas htooclose hoverlap
        rw [not_or, not_or, not_or] at hcanvas
        obtain ⟨h1, h2, h3, h4⟩ := hcanvas
        have htc : ∀ ec ∈ s.centersByColor c,
            ¬ distance e (getStrokeCenter e x y p.len p.ang) ec < p.minD := by
          intro ec hec hlt
          exact htooclose (List.any_eq_true.mpr ⟨ec, hec, by simpa using hlt⟩)
        have hov : ∀ eb ∈ s.boundsByColor c,
            boxesOverlap (getStrokeBounds e x y p.len p.ang p.wid p.curv) eb 0.3 = false := by
          intro eb heb
          by_contra hne
          exact hoverlap (List.any_eq_true.mpr ⟨eb, heb, by
            cases hb : boxesOverlap (getStrokeBounds e x y p.len p.ang p.wid p.curv) eb 0.3
            · exact absurd hb hne
            · rfl⟩)
        refine
          { boundsMem := ?_, centersMem := ?_, noOverlap := ?_, spaced := ?_, inBounds := ?_,
            zLt := ?_, zMono := ?_, idEq := ?_, idLt := ?_, idMono := ?_, unpainted := ?_,
            mdPos := ?_, colorsOk := ?_ }
        · intro st hst
          rcases mem_append_singleton.mp hst with hold | hnew
          · have hb := hs.boundsMem st hold
            by_cases hcl : st.targetColor = c
            · rw [hcl] at hb
              simp only [hcl, if_pos rfl]
              exact List.mem_append_left _ hb
            · simp only [if_neg hcl]
              exact hb
          · subst hnew
            simp only [if_pos rfl]
            exact List.mem_append_right _ (List.mem_singleton_self _)
        · intro st hst
          rcases mem_append_singleton.mp hst with hold | hnew
          · have hb := hs.centersMem st hold
            by_cases hcl : st.targetColor = c
            · rw [hcl] at hb
              simp only [hcl, if_pos rfl]
              exact List.mem_append_left _ hb
            · simp only [if_neg hcl]
              exact hb
          · subst hnew
            simp only [if_pos rfl]
            exact List.mem_append_right _ (List.mem_singleton_self _)
        · rw [List.pairwise_append]
          refine ⟨hs.noOverlap, List.pairwise_singleton _ _, ?_⟩
          intro a ha b hb
          rw [List.mem_singleton] at hb
          subst hb
          intro hcol
          have hmem := hs.boundsMem a ha
          rw [hcol] at hmem
          exact hov _ hmem
        · rw [List.pairwise_append]
          refine ⟨hs.spaced, List.pairwise_singleton _ _, ?_⟩
          intro a ha b hb
          rw [List.mem_singleton] at hb
          subst hb
          intro hcol
          have hmem := hs.centersMem a ha
          rw [hcol] at hmem
          exact htc _ hmem
        · intro st hst
          rcases mem_append_singleton.mp hst with hold | hnew
          · exact hs.inBounds st hold
          · subst hnew
            exact ⟨le_of_not_lt h1, le_of_not_lt h2, le_of_not_lt h3, le_of_not_lt h4⟩
        · intro st hst
          rcases mem_append_singleton.mp hst with hold | hnew
          · exact Nat.lt_succ_of_lt (hs.zLt st hold)
          · subst hnew
            exact Nat.lt_succ_self _
        · rw [List.pairwise_append]
          refine ⟨hs.zMono, List.pairwise_singleton _ _, ?_⟩
          intro a ha b hb
          rw [List.mem_singleton] at hb
          subst hb
          exact hs.zLt a ha
        · intro st hst
          rcases mem_append_singleton.mp hst with hold | hnew
          · exact hs.idEq st hold
          · subst hnew
            rfl
        · intro st hst
          rcases mem_append_singleton.mp hst with hold | hnew
          · exact Nat.lt_succ_of_lt (hs.idLt st hold)
          · subst hnew
            exact Nat.lt_succ_self _
        · rw [List.pairwise_append]
          refine ⟨hs.idMono, List.pairwise_singleton _ _, ?_⟩
          intro a ha b hb
          rw [List.mem_singleton] at hb
          subst hb
          exact hs.idLt a ha
        · intro st hst
          rcases mem_append_singleton.mp hst with hold | hnew
          · exact hs.unpainted st hold
          · subst hnew
            rfl
        · intro st hst
          rcases mem_append_singleton.mp hst with hold | hnew
          · exact hs.mdPos st hold
          · subst hnew
            exact hm
        · intro st hst
          rcases mem_append_singleton.mp hst with hold | hnew
          · exact hs.colorsOk st hold
          · subst hnew
            exact hc

/-- The invariant transfers through a single draw. -/
theorem GenInv.draw {e : Env} {w h : ℚ} {s : GenState} (hs : GenInv e w h s) :
    GenInv e w h (draw e s).2 :=
  hs.ofSameButRng (draw_sameButRng e s)

/-- The invariant is preserved by `addStroke`, provided the resolved
minimum distance is positive and the color is a palette color. -/
theorem addStroke_inv (e : Env) (w h x y : ℚ) (c : PaletteColor) (o : StrokeOptions)
    (s : GenState) (hc : c ∈ PALETTE_COLORS) (hm : 0 < jsMinDist o.minDistance)
    (hs : GenInv e w h s) : GenInv e w h (addStroke e w h x y c o s) := by
  simp only [addStroke]
  have hbump : GenInv e w h { s with attempts := s.attempts + 1 } :=
    hs.ofSameButRng ⟨rfl, rfl, rfl, rfl, le_refl _⟩
  have hres := hbump.ofSameButRng
    (resolveOpts_sameButRng e o { s with attempts := s.attempts + 1 })
  refine tryAdd_inv e w h x y c _ _ hc ?_ hres
  rw [resolveOpts_minD]
  exact hm

/-- The invariant is preserved by folding any per-element step that
preserves it. -/
theorem foldl_inv {e : Env} {w h : ℚ} {α : Type} (f : GenState → α → GenState) :
    ∀ (l : List α) (s : GenState), (∀ s' a, a ∈ l → GenInv e w h s' → GenInv e w h (f s' a)) →
      GenInv e w h s → GenInv e w h (l.foldl f s)
  | [], s, _, hs => hs
  | a :: l, s, hf, hs => by
    rw [List.foldl_cons]
    exact foldl_inv f l (f s a) (fun s' b hb => hf s' b (List.mem_cons_of_mem a hb))
      (hf s a (List.mem_cons_self a l) hs)

theorem skyLoop_inv (e : Env) (w h horizonY : ℚ) :
    ∀ (fuel added : ℕ) (s : GenState), GenInv e w h s →
      GenInv e w h (skyLoop e w h horizonY fuel added s)
  | 0, _, _, hs => hs
  | fuel + 1, added, s, hs => by
    rw [skyLoop]
    split
    · exact skyLoop_inv e w h horizonY fuel _ _
        (addStroke_inv e w h _ _ _ _ _ (by decide) (by norm_num [jsMinDist])
          hs.draw.draw.draw)
    · exact hs

theorem tableLoop_inv (e : Env) (w h horizonY : ℚ) :
    ∀ (fuel added : ℕ) (s : GenState), GenInv e w h s →
      GenInv e w h (tableLoop e w h horizonY fuel added s)
  | 0, _, _, hs => hs
  | fuel + 1, added, s, hs => by
    rw [tableLoop]
    split
    · exact tableLoop_inv e w h horizonY fuel _ _
        (addStroke_inv e w h _ _ _ _ _ (by decide) (by norm_num [jsMinDist])
          hs.draw.draw.draw)
    · exact hs

theorem vaseLoop_inv (e : Env) (w h vcx vby vty vwt vwb : ℚ) :
    ∀ (fuel added : ℕ) (s : GenState), GenInv e w h s →
      GenInv e w h (vaseLoop e w h vcx vby vty vwt vwb fuel added s)
  | 0, _, _, hs => hs
  | fuel + 1, added, s, hs => by
    rw [vaseLoop]
    split
    · exact vaseLoop_inv e w h vcx vby vty vwt vwb fuel _ _
        (addStroke_inv e w h _ _ _ _ _ (by decide) (by norm_num [jsMinDist])
          hs.draw.draw.draw)
    · exact hs

theorem stemRetryLoop_inv (e : Env) (w h cx cy : ℚ) :
    ∀ (fuel : ℕ) (s : GenState), GenInv e w h s → GenInv e w h (stemRetryLoop e w h cx cy fuel s)
  | 0, _, hs => hs
  | fuel + 1, s, hs => by
    rw [stemRetryLoop]
    split
    · exact addStroke_inv e w h _ _ _ _ _ (by decide) (by norm_num [jsMinDist]) hs.draw
    · split
      · dsimp only
        split
        · exact addStroke_inv e w h _ _ _ _ _ (by decide) (by norm_num [jsMinDist])
            (((addStroke_inv e w h _ _ _ _ _ (by decide) (by norm_num [jsMinDist])
              hs.draw).draw).draw).draw
        · exact stemRetryLoop_inv e w h cx cy fuel _
            (addStroke_inv e w h _ _ _ _ _ (by decide) (by norm_num [jsMinDist])
              (((addStroke_inv e w h _ _ _ _ _ (by decide) (by norm_num [jsMinDist])
                hs.draw).draw).draw).draw)
      · exact stemRetryLoop_inv e w h cx cy fuel _
          (addStroke_inv e w h _ _ _ _ _ (by decide) (by norm_num [jsMinDist]) hs.draw)

theorem petalRetryLoop_inv (e : Env) (w h px py angleDeg len : ℚ) :
    ∀ (fuel : ℕ) (s : GenState), GenInv e w h s →
      GenInv e w h (petalRetryLoop e w h px py angleDeg len fuel s)
  | 0, _, hs => hs
  | fuel + 1, s, hs => by
    rw [petalRetryLoop]
    split
    · exact addStroke_inv e w h _ _ _ _ _ (by decide) (by norm_num [jsMinDist]) hs
    · split
      · dsimp only
        split
        · exact addStroke_inv e w h _ _ _ _ _ (by decide) (by norm_num [jsMinDist])
            ((addStroke_inv e w h _ _ _ _ _ (by decide) (by norm_num [jsMinDist]) hs).draw).draw
        · exact petalRetryLoop_inv e w h px py angleDeg len fuel _
            (addStroke_inv e w h _ _ _ _ _ (by decide) (by norm_num [jsMinDist])
              ((addStroke_inv e w h _ _ _ _ _ (by decide) (by norm_num [jsMinDist]) hs).draw).draw)
      · exact petalRetryLoop_inv e w h px py angleDeg len fuel _
          (addStroke_inv e w h _ _ _ _ _ (by decide) (by norm_num [jsMinDist]) hs)

theorem centerLoop_inv (e : Env) (w h fx fy fr : ℚ) (dots : ℕ) :
    ∀ (fuel added : ℕ) (s : GenState), GenInv e w h s →
      GenInv e w h (centerLoop e w h fx fy fr dots fuel added s)
  | 0, _, _, hs => hs
  | fuel + 1, added, s, hs => by
    rw [centerLoop]
    split
    · exact centerLoop_inv e w h fx fy fr dots fuel _ _
        (addStroke_inv e w h _ _ _ _ _ (by decide) (by norm_num [jsMinDist])
          hs.draw.draw.draw)
    · exact hs

theorem flowerStep_inv (e : Env) (w h vcx vty : ℚ) (idx : ℕ) (f : Flower) (s : GenState)
    (hs : GenInv e w h s) : GenInv e w h (flowerStep e w h vcx vty idx f s) := by
  simp only [flowerStep]
  refine centerLoop_inv e w h f.x f.y f.r _ _ _ _ (GenInv.push_shape ?_ _)
  refine foldl_inv _ _ _ (fun s' j _ hj => petalRetryLoop_inv e w h _ _ _ _ _ _
    (GenInv.push_shape hj _)) ?_
  refine foldl_inv _ _ _ (fun s' k _ hk => stemRetryLoop_inv e w h _ _ _ _ hk) ?_
  exact GenInv.push_shape hs _

/-- The invariant holds of the final state of the generator. -/
theorem genRun_inv (e : Env) (w h : ℚ) : GenInv e w h (genRun e w h) := by
  simp only [genRun]
  refine foldl_inv _ _ _ (fun s' p _ hp => flowerStep_inv e w h _ _ _ _ _ hp) ?_
  refine vaseLoop_inv e w h _ _ _ _ _ _ _ _ (GenInv.push_shape ?_ _)
  refine tableLoop_inv e w h _ _ _ _ (GenInv.push_shape ?_ _)
  refine skyLoop_inv e w h _ _ _ _ (GenInv.push_shape ?_ _)
  exact GenInv.init e w h

/-! ## Field-effect lemmas: `shapes` and `attempts` -/

theorem draw_shapes (e : Env) (s : GenState) : (draw e s).2.shapes = s.shapes := rfl

theorem draw_attempts (e : Env) (s : GenState) : (draw e s).2.attempts = s.attempts := rfl

theorem jsOrDraw_shapes (o : Option ℚ) (g : ℚ → ℚ) (e : Env) (s : GenState) :
    (jsOrDraw o g e s).2.shapes = s.shapes := by
  unfold jsOrDraw draw
  rcases o with _ | v
  · rfl
  · dsimp only
    split <;> rfl

theorem jsAngle_shapes (o : Option ℚ) (e : Env) (s : GenState) :
    (jsAngle o e s).2.shapes = s.shapes := by
  unfold jsAngle draw
  rcases o with _ | v <;> rfl

theorem resolveOpts_shapes (e : Env) (o : StrokeOptions) (s : GenState) :
    (resolveOpts e o s).2.shapes = s.shapes := by
  unfold resolveOpts
  rw [jsOrDraw_shapes, jsAngle_shapes, jsOrDraw_shapes, jsOrDraw_shapes]

theorem tryAdd_shapes (e : Env) (w h x y : ℚ) (c : PaletteColor) (p : Resolved)
    (s : GenState) : (tryAdd e w h x y c p s).shapes = s.shapes := by
  simp only [tryAdd]
  split
  · rfl
  · split
    · rfl
    · split <;> rfl

theorem addStroke_shapes (e : Env) (w h x y : ℚ) (c : PaletteColor) (o : StrokeOptions)
    (s : GenState) : (addStroke e w h x y c o s).shapes = s.shapes := by
  simp only [addStroke]
  rw [tryAdd_shapes, resolveOpts_shapes]

theorem jsOrDraw_attempts (o : Option ℚ) (g : ℚ → ℚ) (e : Env) (s : GenState) :
    (jsOrDraw o g e s).2.attempts = s.attempts := by
  unfold jsOrDraw draw
  rcases o with _ | v
  · rfl
  · dsimp only
    split <;> rfl

theorem jsAngle_attempts (o : Option ℚ) (e : Env) (s : GenState) :
    (jsAngle o e s).2.attempts = s.attempts := by
  unfold jsAngle draw
  rcases o with _ | v <;> rfl

theorem resolveOpts_attempts (e : Env) (o : StrokeOptions) (s : GenState) :
    (resolveOpts e o s).2.attempts = s.attempts := by
  unfold resolveOpts
  rw [jsOrDraw_attempts, jsAngle_attempts, jsOrDraw_attempts, jsOrDraw_attempts]

theorem tryAdd_attempts (e : Env) (w h x y : ℚ) (c : PaletteColor) (p : Resolved)
    (s : GenState) : (tryAdd e w h x y c p s).attempts = s.attempts := by
  simp only [tryAdd]
  split
  · rfl
  · split
    · rfl
    · split <;> rfl

/-- Each `addStroke` invocation counts as exactly one candidate attempt. -/
theorem addStroke_attempts (e : Env) (w h x y : ℚ) (c : PaletteColor) (o : StrokeOptions)
    (s : GenState) : (addStroke e w h x y c o s).attempts = s.attempts + 1 := by
  simp only [addStroke]
  rw [tryAdd_attempts, resolveOpts_attempts]

/-! ## Loop effect lemmas: shapes -/

theorem skyLoop_shapes (e : Env) (w h hor : ℚ) :
    ∀ (fuel added : ℕ) (s : GenState), (skyLoop e w h hor fuel added s).shapes = s.shapes
  | 0, _, _ => rfl
  | fuel + 1, added, s => by
    rw [skyLoop]
    split
    · rw [skyLoop_shapes e w h hor fuel]
      simp only [addStroke_shapes, draw_shapes]
    · rfl

theorem tableLoop_shapes (e : Env) (w h hor : ℚ) :
    ∀ (fuel added : ℕ) (s : GenState), (tableLoop e w h hor fuel added s).shapes = s.shapes
  | 0, _, _ => rfl
  | fuel + 1, added, s => by
    rw [tableLoop]
    split
    · rw [tableLoop_shapes e w h hor fuel]
      simp only [addStroke_shapes, draw_shapes]
    · rfl

theorem vaseLoop_shapes (e : Env) (w h vcx vby vty vwt vwb : ℚ) :
    ∀ (fuel added : ℕ) (s : GenState),
      (vaseLoop e w h vcx vby vty vwt vwb fuel added s).shapes = s.shapes
  | 0, _, _ => rfl
  | fuel + 1, added, s => by
    rw [vaseLoop]
    split
    · rw [vaseLoop_shapes e w h vcx vby vty vwt vwb fuel]
      simp only [addStroke_shapes, draw_shapes]
    · rfl

theorem stemRetryLoop_shapes (e : Env) (w h cx cy : ℚ) :
    ∀ (fuel : ℕ) (s : GenState), (stemRetryLoop e w h cx cy fuel s).shapes = s.shapes
  | 0, _ => rfl
  | fuel + 1, s => by
    rw [stemRetryLoop]
    split
    · simp only [addStroke_shapes, draw_shapes]
    · split
      · dsimp only
        split
        · simp only [addStroke_shapes, draw_shapes]
        · rw [stemRetryLoop_shapes e w h cx cy fuel]
          simp only [addStroke_shapes, draw_shapes]
      · rw [stemRetryLoop_shapes e w h cx cy fuel]
        simp only [addStroke_shapes, draw_shapes]

theorem petalRetryLoop_shapes (e : Env) (w h px py angleDeg len : ℚ) :
    ∀ (fuel : ℕ) (s : GenState), (petalRetryLoop e w h px py angleDeg len fuel s).shapes = s.shapes
  | 0, _ => rfl
  | fuel + 1, s => by
    rw [petalRetryLoop]
    split
    · simp only [addStroke_shapes, draw_shapes]
    · split
      · dsimp only
        split
        · simp only [addStroke_shapes, draw_shapes]
        · rw [petalRetryLoop_shapes e w h px py angleDeg len fuel]
          simp only [addStroke_shapes, draw_shapes]
      · rw [petalRetryLoop_shapes e w h px py angleDeg len fuel]
        simp only [addStroke_shapes, draw_shapes]

theorem centerLoop_shapes (e : Env) (w h fx fy fr : ℚ) (dots : ℕ) :
    ∀ (fuel added : ℕ) (s : GenState),
      (centerLoop e w h fx fy fr dots fuel added s).shapes = s.shapes
  | 0, _, _ => rfl
  | fuel + 1, added, s => by
    rw [centerLoop]
    split
    · rw [centerLoop_shapes e w h fx fy fr dots fuel]
      simp only [addStroke_shapes, draw_shapes]
    · rfl

/-! ## Loop effect lemmas: attempt counts and early stopping -/

theorem draw_strokes (e : Env) (s : GenState) : (draw e s).2.strokes = s.strokes := rfl

theorem skyLoop_attempts (e : Env) (w h hor : ℚ) :
    ∀ (fuel added : ℕ) (s : GenState),
      (skyLoop e w h hor fuel added s).attempts ≤ s.attempts + fuel
  | 0, _, _ => Nat.le_refl _
  | fuel + 1, added, s => by
    rw [skyLoop]
    split
    · refine le_trans (skyLoop_attempts e w h hor fuel _ _) ?_
      rw [addStroke_attempts]
      simp only [draw_attempts]
      omega
    · omega

theorem tableLoop_attempts (e : Env) (w h hor : ℚ) :
    ∀ (fuel added : ℕ) (s : GenState),
      (tableLoop e w h hor fuel added s).attempts ≤ s.attempts + fuel
  | 0, _, _ => Nat.le_refl _
  | fuel + 1, added, s => by
    rw [tableLoop]
    split
    · refine le_trans (tableLoop_attempts e w h hor fuel _ _) ?_
      rw [addStroke_attempts]
      simp only [draw_attempts]
      omega
    · omega

theorem vaseLoop_attempts (e : Env) (w h vcx vby vty vwt vwb : ℚ) :
    ∀ (fuel added : ℕ) (s : GenState),
      (vaseLoop e w h vcx vby vty vwt vwb fuel added s).attempts ≤ s.attempts + fuel
  | 0, _, _ => Nat.le_refl _
  | fuel + 1, added, s => by
    rw [vaseLoop]
    split
    · refine le_trans (vaseLoop_attempts e w h vcx vby vty vwt vwb fuel _ _) ?_
      rw [addStroke_attempts]
      simp only [draw_attempts]
      omega
    · omega

theorem centerLoop_attempts (e : Env) (w h fx fy fr : ℚ) (dots : ℕ) :
    ∀ (fuel added : ℕ) (s : GenState),
      (centerLoop e w h fx fy fr dots fuel added s).attempts ≤ s.attempts + fuel
  | 0, _, _ => Nat.le_refl _
  | fuel + 1, added, s => by
    rw [centerLoop]
    split
    · refine le_trans (centerLoop_attempts e w h fx fy fr dots fuel _ _) ?_
      rw [addStroke_attempts]
      simp only [draw_attempts]
      omega
    · omega

/-- A stem point performs at most two candidate attempts per retry
iteration (the primary one and, on failure, the jittered one). -/
theorem stemRetryLoop_attempts (e : Env) (w h cx cy : ℚ) :
    ∀ (fuel : ℕ) (s : GenState),
      (stemRetryLoop e w h cx cy fuel s).attempts ≤ s.attempts + 2 * fuel
  | 0, _ => Nat.le_refl _
  | fuel + 1, s => by
    rw [stemRetryLoop]
    split
    · rw [addStroke_attempts]
      simp only [draw_attempts]
      omega
    · split
      · dsimp only
        split
        · simp only [addStroke_attempts, draw_attempts]
          omega
        · refine le_trans (stemRetryLoop_attempts e w h cx cy fuel _) ?_
          simp only [addStroke_attempts, draw_attempts]
          omega
      · refine le_trans (stemRetryLoop_attempts e w h cx cy fuel _) ?_
        simp only [addStroke_attempts, draw_attempts]
        omega

theorem petalRetryLoop_attempts (e : Env) (w h px py angleDeg len : ℚ) :
    ∀ (fuel : ℕ) (s : GenState),
      (petalRetryLoop e w h px py angleDeg len fuel s).attempts ≤ s.attempts + 2 * fuel
  | 0, _ => Nat.le_refl _
  | fuel + 1, s => by
    rw [petalRetryLoop]
    split
    · rw [addStroke_attempts]
      omega
    · split
      · dsimp only
        split
        · simp only [addStroke_attempts, draw_attempts]
          omega
        · refine le_trans (petalRetryLoop_attempts e w h px py angleDeg len fuel _) ?_
          simp only [addStroke_attempts, draw_attempts]
          omega
      · refine le_trans (petalRetryLoop_attempts e w h px py angleDeg len fuel _) ?_
        simp only [addStroke_attempts, draw_attempts]
        omega

/-- The sky loop stops as soon as its target of 18 strokes is reached. -/
theorem skyLoop_stop (e : Env) (w h hor : ℚ) (fuel : ℕ) (s : GenState) :
    skyLoop e w h hor fuel 18 s = s := by
  cases fuel <;> simp [skyLoop]

/-- The table loop stops as soon as its target of 12 strokes is reached. -/
theorem tableLoop_stop (e : Env) (w h hor : ℚ) (fuel : ℕ) (s : GenState) :
    tableLoop e w h hor fuel 12 s = s := by
  cases fuel <;> simp [tableLoop]

/-- The vase loop stops as soon as its target of 10 strokes is reached. -/
theorem vaseLoop_stop (e : Env) (w h vcx vby vty vwt vwb : ℚ) (fuel : ℕ) (s : GenState) :
    vaseLoop e w h vcx vby vty vwt vwb fuel 10 s = s := by
  cases fuel <;> simp [vaseLoop]

/-- The center-dot loop stops as soon as its target is reached. -/
theorem centerLoop_stop (e : Env) (w h fx fy fr : ℚ) (dots fuel : ℕ) (s : GenState) :
    centerLoop e w h fx fy fr dots fuel dots s = s := by
  cases fuel <;> simp [centerLoop]

theorem pushShape_attempts (sh : RealisticShape) (s : GenState) :
    (pushShape sh s).attempts = s.attempts := rfl

theorem pushShape_strokes (sh : RealisticShape) (s : GenState) :
    (pushShape sh s).strokes = s.strokes := rfl

theorem foldl_attempts_le {α : Type} (f : GenState → α → GenState) (K : ℕ)
    (hf : ∀ (s : GenState) (a : α), (f s a).attempts ≤ s.attempts + K) :
    ∀ (l : List α) (s : GenState), (l.foldl f s).attempts ≤ s.attempts + K * l.length
  | [], s => by simp
  | a :: l, s => by
    rw [List.foldl_cons]
    refine le_trans (foldl_attempts_le f K hf l (f s a)) ?_
    have := hf s a
    simp only [List.length_cons]
    have hml : K * (l.length + 1) = K * l.length + K := by ring
    omega

theorem flowerStep_attempts (e : Env) (w h vcx vty : ℚ) (idx : ℕ) (f : Flower)
    (s : GenState) :
    (flowerStep e w h vcx vty idx f s).attempts ≤
      s.attempts + (3 * 6 + 6 * 6 + (if idx = 0 then 4 else 3) * 6) := by
  simp only [flowerStep]
  refine le_trans (centerLoop_attempts e w h f.x f.y f.r _ _ _ _) ?_
  rw [pushShape_attempts]
  refine le_trans (Nat.add_le_add_right (foldl_attempts_le _ 6
    (fun s' j => by
      refine le_trans (petalRetryLoop_attempts e w h _ _ _ _ 3 _) ?_
      rw [pushShape_attempts]) _ _) _) ?_
  refine le_trans (Nat.add_le_add_right (Nat.add_le_add_right (foldl_attempts_le _ 6
    (fun s' k => stemRetryLoop_attempts e w h _ _ 3 s') _ _) _) _) ?_
  rw [pushShape_attempts]
  simp only [List.length_range]
  split <;> omega

/-- The total number of candidate attempts in a full run is bounded by
the constant 394 = 72 + 48 + 40 + 3 * 78, where 78 = 18 + 36 + 24 is
the largest per-flower budget (3 stem points and 6 petals at ≤ 2
attempts per retry iteration, ≤ 3 iterations each, plus ≤ 24 center
dot attempts); the bound is independent of the canvas size and the
random stream. -/
theorem genRun_attempts (e : Env) (w h : ℚ) : (genRun e w h).attempts ≤ 394 := by
  simp only [genRun]
  refine le_trans (foldl_attempts_le _ 78
    (fun s' p => by
      refine le_trans (flowerStep_attempts e w h _ _ _ _ _) ?_
      split <;> omega) _ _) ?_
  refine le_trans (Nat.add_le_add_right (vaseLoop_attempts e w h _ _ _ _ _ _ _ _) _) ?_
  rw [pushShape_attempts]
  refine le_trans (Nat.add_le_add_right (Nat.add_le_add_right
    (tableLoop_attempts e w h _ _ _ _) _) _) ?_
  rw [pushShape_attempts]
  refine le_trans (Nat.add_le_add_right (Nat.add_le_add_right (Nat.add_le_add_right
    (skyLoop_attempts e w h _ _ _ _) _) _) _) ?_
  rw [pushShape_attempts]
  show GenState.init.attempts + 18 * 4 + 12 * 4 + 10 * 4 + 78 * (List.enum _).length ≤ 394
  simp [GenState.init, List.enum_length]

/-- The reference shapes a flower step appends have `zIndex`
3 (stem), 4 ×6 (petals), 5 (center), in this order. -/
theorem flowerStep_shapes_z (e : Env) (w h vcx vty : ℚ) (idx : ℕ) (f : Flower)
    (s : GenState) :
    (flowerStep e w h vcx vty idx f s).shapes.map (fun sh => sh.zIndex) =
      s.shapes.map (fun sh => sh.zIndex) ++ [3, 4, 4, 4, 4, 4, 4, 5] := by
  simp only [flowerStep, centerLoop_shapes]
  rw [show List.range 6 = [0, 1, 2, 3, 4, 5] from rfl, show List.range 3 = [0, 1, 2] from rfl]
  simp only [List.foldl_cons, List.foldl_nil, petalRetryLoop_shapes, stemRetryLoop_shapes,
    pushShape]
  simp [stemShape, petalShape, centerShape]

/-- The 27 reference shapes of a run have these `zIndex` values, in
list order: sky 0, table 1, vase 2, then per flower stem 3, six petals
4, center 5. -/
theorem genRun_shapes_z (e : Env) (w h : ℚ) :
    (genRun e w h).shapes.map (fun sh => sh.zIndex) =
      [0, 1, 2, 3, 4, 4, 4, 4, 4, 4, 5, 3, 4, 4, 4, 4, 4, 4, 5, 3, 4, 4, 4, 4, 4, 4, 5] := by
  simp only [genRun]
  rw [show List.enum [(⟨w * 0.35, h * 0.5, 42⟩ : Flower), ⟨w * 0.72, h * 0.35, 32⟩,
    ⟨w * 0.58, h * 0.52, 28⟩] =
    [(0, (⟨w * 0.35, h * 0.5, 42⟩ : Flower)), (1, ⟨w * 0.72, h * 0.35, 32⟩),
      (2, ⟨w * 0.58, h * 0.52, 28⟩)] from rfl]
  simp only [List.foldl_cons, List.foldl_nil, flowerStep_shapes_z, vaseLoop_shapes,
    tableLoop_shapes, skyLoop_shapes, pushShape]
  simp [skyShape, tableShape, vaseShape, GenState.init]

/-! ## The claims -/

theorem interArea_comm (b1 b2 : Box) : interArea b1 b2 = interArea b2 b1 := by
  unfold interArea
  rw [min_comm b1.maxX b2.maxX, max_comm b1.minX b2.minX, min_comm b1.maxY b2.maxY,
    max_comm b1.minY b2.minY]

/-- A pair that passed the overlap rejection has intersection-over-min-area
at most the threshold. -/
theorem overlapFrac_le {b1 b2 : Box} {t : ℚ} (ht : 0 ≤ t)
    (hov : boxesOverlap b1 b2 t = false) :
    interArea b1 b2 / min (boxArea b1) (boxArea b2) ≤ t := by
  simp only [boxesOverlap] at hov
  split at hov
  · rename_i h0
    have hz : interArea b1 b2 = 0 := h0
    rw [hz, zero_div]
    exact ht
  · have := of_decide_eq_false hov
    rw [not_lt] at this
    exact this

/-- C1.  In every generated level, any two distinct strokes with the
same target color have axis-aligned bounding boxes (recomputed by
`getStrokeBounds` from the strokes' six defining points) whose
intersection area is at most 30% of the smaller box's area. -/
theorem c1_same_color_overlap_bound (e : Env) (w h : ℚ) :
    (generateSunflowersData e w h).strokes.Pairwise fun a b =>
      a.targetColor = b.targetColor →
        interArea (strokeBoundsOf e a) (strokeBoundsOf e b) /
          min (boxArea (strokeBoundsOf e a)) (boxArea (strokeBoundsOf e b)) ≤ 3 / 10 := by
  have hp := (genRun_inv e w h).noOverlap
  refine List.Pairwise.imp ?_ hp
  intro a b hR hcol
  have hov := hR hcol
  have hle := overlapFrac_le (t := 0.3) (by norm_num) hov
  rw [interArea_comm, min_comm] at hle
  refine le_trans hle (by norm_num)

/-- C3.  Every stroke's bounding box (recomputed from its six defining
points) lies within the margin-extended canvas `[-5, w+5] × [-5, h+5]`. -/
theorem c3_bounds_containment (e : Env) (w h : ℚ) :
    (generateSunflowersData e w h).strokes.Forall fun st =>
      -5 ≤ (strokeBoundsOf e st).minX ∧ -5 ≤ (strokeBoundsOf e st).minY ∧
        (strokeBoundsOf e st).maxX ≤ w + 5 ∧ (strokeBoundsOf e st).maxY ≤ h + 5 := by
  rw [List.forall_iff_forall_mem]
  exact (genRun_inv e w h).inBounds

/-- C9.  Every stroke in a freshly generated level is unpainted:
`currentColor` is `null`. -/
theorem c9_unpainted (e : Env) (w h : ℚ) :
    (generateSunflowersData e w h).strokes.Forall fun st => st.currentColor = none := by
  rw [List.forall_iff_forall_mem]
  exact (genRun_inv e w h).unpainted

theorem sqDist_comm (p q : Pt) : sqDist p q = sqDist q p := by
  unfold sqDist
  ring

theorem sqDist_nonneg (p q : Pt) : 0 ≤ sqDist p q := by
  unfold sqDist
  have h1 := mul_self_nonneg (p.x - q.x)
  have h2 := mul_self_nonneg (p.y - q.y)
  linarith

/-- The abstract square root never overestimates: its square is at most
its argument (true of the exact square root, and of the IEEE one up to
rounding). -/
def SqrtLB (e : Env) : Prop := ∀ q : ℚ, 0 ≤ q → (e.sqrt q) ^ 2 ≤ q

/-- C2 (amended).  Any two distinct same-color strokes have centerline
midpoints at squared Euclidean distance at least the square of the
SMALLER of the two strokes' configured minimum distances — i.e. of the
minimum distance that was in force when the later of the two was
placed.  (The stronger reading — distance at least EACH stroke's
configured minimum — fails; see the counterexample.) -/
theorem c2_amended_spacing (e : Env) (w h : ℚ) (hsqrt : SqrtLB e) :
    (generateSunflowersData e w h).strokes.Pairwise fun a b =>
      a.targetColor = b.targetColor →
        (min a.minDist b.minDist) ^ 2 ≤ sqDist (strokeCenterOf e a) (strokeCenterOf e b) := by
  have hsp := (genRun_inv e w h).spaced
  have hmd := (genRun_inv e w h).mdPos
  refine List.Pairwise.imp_of_mem ?_ hsp
  intro a b ha hb hR hcol
  have hnot := hR hcol
  rw [not_lt] at hnot
  have hsq : e.sqrt (sqDist (strokeCenterOf e b) (strokeCenterOf e a)) ^ 2 ≤
      sqDist (strokeCenterOf e b) (strokeCenterOf e a) :=
    hsqrt _ (sqDist_nonneg _ _)
  have hmb : (0 : ℚ) ≤ b.minDist := le_of_lt (hmd b hb)
  have hmin : min a.minDist b.minDist ≤ b.minDist := min_le_right _ _
  have hminpos : (0 : ℚ) ≤ min a.minDist b.minDist :=
    le_min (le_of_lt (hmd a ha)) hmb
  have h1 : (min a.minDist b.minDist) ^ 2 ≤ b.minDist ^ 2 :=
    pow_le_pow_left₀ hminpos hmin 2
  have h2 : b.minDist ^ 2 ≤
      e.sqrt (sqDist (strokeCenterOf e b) (strokeCenterOf e a)) ^ 2 :=
    pow_le_pow_left₀ hmb hnot 2
  rw [sqDist_comm]
  exact le_trans h1 (le_trans h2 hsq)

/-- C4 (amended).  `zIndex` values are strictly increasing in list
order unconditionally; and whenever the id-conversion applied to the
random stream is collision-free across draw indices, all stroke ids are
pairwise distinct (each stroke's id comes from its own dedicated draw). -/
theorem c4_amended_z_and_ids (e : Env) (w h : ℚ)
    (hinj : ∀ i j : ℕ, i ≠ j → e.uidStr (e.rand i) ≠ e.uidStr (e.rand j)) :
    ((generateSunflowersData e w h).strokes.Pairwise fun a b => a.zIndex < b.zIndex) ∧
      (generateSunflowersData e w h).strokes.Pairwise fun a b => a.id ≠ b.id := by
  refine ⟨(genRun_inv e w h).zMono, ?_⟩
  have hmono := (genRun_inv e w h).idMono
  have hid := (genRun_inv e w h).idEq
  refine List.Pairwise.imp_of_mem ?_ hmono
  intro a b ha hb hlt
  rw [hid a ha, hid b hb]
  exact hinj _ _ (Nat.ne_of_lt hlt)

/-- C8.  For `generate(360, 640)`: at least 27 reference shapes, and
every stroke's target color is one of the five palette colors. -/
theorem c8_scenario_360_640 (e : Env) :
    27 ≤ (generateSunflowersData e 360 640).shapes.length ∧
      (generateSunflowersData e 360 640).strokes.Forall fun st =>
        st.targetColor ∈ PALETTE_COLORS := by
  constructor
  · have hz := congrArg List.length (genRun_shapes_z e 360 640)
    rw [List.length_map] at hz
    exact le_of_eq hz.symm
  · rw [List.forall_iff_forall_mem]
    exact (genRun_inv e 360 640).colorsOk

/-- C10.  For every input the shapes list has exactly 27 elements, all
`zIndex` values lie in `{0, ..., 5}`, the element at index 10 (the
first flower's center, `zIndex` 5) precedes the element at index 11
(the second flower's stem, `zIndex` 3), and consequently the list is
not sorted by `zIndex`: consumers must sort rather than iterate. -/
theorem c10_shapes_order (e : Env) (w h : ℚ) :
    (generateSunflowersData e w h).shapes.length = 27 ∧
      ((generateSunflowersData e w h).shapes.Forall fun sh => sh.zIndex ≤ 5) ∧
      ((generateSunflowersData e w h).shapes.map fun sh => sh.zIndex) =
        [0, 1, 2, 3, 4, 4, 4, 4, 4, 4, 5, 3, 4, 4, 4, 4, 4, 4, 5, 3, 4, 4, 4, 4, 4, 4, 5] ∧
      ((generateSunflowersData e w h).shapes.map fun sh => sh.zIndex)[10]? = some 5 ∧
      ((generateSunflowersData e w h).shapes.map fun sh => sh.zIndex)[11]? = some 3 ∧
      ¬ ((generateSunflowersData e w h).shapes.map fun sh => sh.zIndex).Sorted (· ≤ ·) := by
  have hz : ((generateSunflowersData e w h).shapes.map fun sh => sh.zIndex) =
      [0, 1, 2, 3, 4, 4, 4, 4, 4, 4, 5, 3, 4, 4, 4, 4, 4, 4, 5, 3, 4, 4, 4, 4, 4, 4, 5] :=
    genRun_shapes_z e w h
  refine ⟨?_, ?_, hz, ?_, ?_, ?_⟩
  · have hlen := congrArg List.length hz
    rw [List.length_map] at hlen
    exact hlen
  · rw [List.forall_iff_forall_mem]
    intro sh hsh
    have hm : sh.zIndex ∈ (generateSunflowersData e w h).shapes.map fun sh => sh.zIndex :=
      List.mem_map_of_mem _ hsh
    rw [hz] at hm
    simp at hm
    omega
  · rw [hz]
    decide
  · rw [hz]
    decide
  · rw [hz]
    decide

/-- C5 (amended).  The shapes list is never empty (it always has
exactly 27 elements), for every canvas size and random stream.  The
strokes list, however, CAN be empty: see the counterexample at
`width = height = 1`, where every candidate stroke overshoots the
margin-extended canvas and is rejected. -/
theorem c5_amended_shapes_nonempty (e : Env) (w h : ℚ) :
    (generateSunflowersData e w h).shapes ≠ [] := by
  intro hnil
  have hz := genRun_shapes_z e w h
  rw [show (genRun e w h).shapes = (generateSunflowersData e w h).shapes from rfl, hnil] at hz
  simp at hz

/-- C6.  Resource bounds of the generator (which is a total function by
construction: all loops are structurally bounded).  The total number of
candidate attempts is at most the constant 394, independent of canvas
size and random stream; the sky loop makes at most 72 attempts for its
target of 18, the table loop at most 48 for 12, the vase loop at most
40 for 10, each flower-center loop at most 6 times its dot target, and
each stem point or petal runs at most 3 retry iterations of at most 2
attempts each; each placement loop returns immediately once its target
count is reached (under-filling is simply the absence of further
strokes, never an error). -/
theorem c6_attempt_budgets (e : Env) (w h : ℚ) :
    (genRun e w h).attempts ≤ 394 ∧
      (∀ (hor : ℚ) (s : GenState),
        (skyLoop e w h hor (18 * 4) 0 s).attempts ≤ s.attempts + 72) ∧
      (∀ (hor : ℚ) (s : GenState),
        (tableLoop e w h hor (12 * 4) 0 s).attempts ≤ s.attempts + 48) ∧
      (∀ (vcx vby vty vwt vwb : ℚ) (s : GenState),
        (vaseLoop e w h vcx vby vty vwt vwb (10 * 4) 0 s).attempts ≤ s.attempts + 40) ∧
      (∀ (fx fy fr : ℚ) (dots : ℕ) (s : GenState),
        (centerLoop e w h fx fy fr dots (dots * 6) 0 s).attempts ≤ s.attempts + dots * 6) ∧
      (∀ (cx cy : ℚ) (s : GenState),
        (stemRetryLoop e w h cx cy 3 s).attempts ≤ s.attempts + 2 * 3) ∧
      (∀ (px py angleDeg len : ℚ) (s : GenState),
        (petalRetryLoop e w h px py angleDeg len 3 s).attempts ≤ s.attempts + 2 * 3) ∧
      (∀ (hor : ℚ) (fuel : ℕ) (s : GenState), skyLoop e w h hor fuel 18 s = s) ∧
      (∀ (hor : ℚ) (fuel : ℕ) (s : GenState), tableLoop e w h hor fuel 12 s = s) ∧
      (∀ (vcx vby vty vwt vwb : ℚ) (fuel : ℕ) (s : GenState),
        vaseLoop e w h vcx vby vty vwt vwb fuel 10 s = s) ∧
      (∀ (fx fy fr : ℚ) (dots fuel : ℕ) (s : GenState),
        centerLoop e w h fx fy fr dots fuel dots s = s) :=
  ⟨genRun_attempts e w h,
    fun hor s => skyLoop_attempts e w h hor (18 * 4) 0 s,
    fun hor s => tableLoop_attempts e w h hor (12 * 4) 0 s,
    fun vcx vby vty vwt vwb s => vaseLoop_attempts e w h vcx vby vty vwt vwb (10 * 4) 0 s,
    fun fx fy fr dots s => centerLoop_attempts e w h fx fy fr dots (dots * 6) 0 s,
    fun cx cy s => stemRetryLoop_attempts e w h cx cy 3 s,
    fun px py angleDeg len s => petalRetryLoop_attempts e w h px py angleDeg len 3 s,
    fun hor fuel s => skyLoop_stop e w h hor fuel s,
    fun hor fuel s => tableLoop_stop e w h hor fuel s,
    fun vcx vby vty vwt vwb fuel s => vaseLoop_stop e w h vcx vby vty vwt vwb fuel s,
    fun fx fy fr dots fuel s => centerLoop_stop e w h fx fy fr dots fuel s⟩

/-- The disjunction of the three rejection conditions of `addStroke`,
on already-resolved candidate parameters. -/
def candidateRejected (e : Env) (w h x y : ℚ) (color : PaletteColor) (p : Resolved)
    (s1 : GenState) : Prop :=
  ((getStrokeBounds e x y p.len p.ang p.wid p.curv).minX < -5 ∨
      (getStrokeBounds e x y p.len p.ang p.wid p.curv).minY < -5 ∨
      (getStrokeBounds e x y p.len p.ang p.wid p.curv).maxX > w + 5 ∨
      (getStrokeBounds e x y p.len p.ang p.wid p.curv).maxY > h + 5) ∨
    (∃ ec ∈ s1.centersByColor color,
      distance e (getStrokeCenter e x y p.len p.ang) ec < p.minD) ∨
    (∃ eb ∈ s1.boundsByColor color,
      boxesOverlap (getStrokeBounds e x y p.len p.ang p.wid p.curv) eb 0.3 = true)

/-- A rejected candidate leaves the state exactly as it was after
parameter resolution. -/
theorem tryAdd_rejected (e : Env) (w h x y : ℚ) (c : PaletteColor) (p : Resolved)
    (s : GenState) (hrej : candidateRejected e w h x y c p s) :
    tryAdd e w h x y c p s = s := by
  simp only [tryAdd]
  split
  · rfl
  · split
    · rfl
    · split
      · rfl
      · rename_i h1 h2 h3
        exfalso
        rcases hrej with hb | hd | ho
        · exact h1 hb
        · apply h2
          obtain ⟨ec, hec, hlt⟩ := hd
          exact List.any_eq_true.mpr ⟨ec, hec, by simpa using hlt⟩
        · apply h3
          obtain ⟨eb, heb, hov⟩ := ho
          exact List.any_eq_true.mpr ⟨eb, heb, hov⟩

/-- C7.  Whenever a candidate violates any constraint (canvas bounds,
minimum distance, or overlap), `addStroke` returns early: the result is
the post-resolution state, whose `strokes` list, per-color bounds
accumulator, and per-color centers accumulator all equal the caller's;
generation then simply continues with the next candidate.  (The
generator is a total function, so it never fails or throws.) -/
theorem c7_rejected_candidate_no_mutation (e : Env) (w h x y : ℚ) (c : PaletteColor)
    (o : StrokeOptions) (s : GenState)
    (hrej : candidateRejected e w h x y c
      (resolveOpts e o { s with attempts := s.attempts + 1 }).1
      (resolveOpts e o { s with attempts := s.attempts + 1 }).2) :
    addStroke e w h x y c o s =
        (resolveOpts e o { s with attempts := s.attempts + 1 }).2 ∧
      (addStroke e w h x y c o s).strokes = s.strokes ∧
      (addStroke e w h x y c o s).boundsByColor = s.boundsByColor ∧
      (addStroke e w h x y c o s).centersByColor = s.centersByColor := by
  have heq : addStroke e w h x y c o s =
      (resolveOpts e o { s with attempts := s.attempts + 1 }).2 := by
    simp only [addStroke]
    exact tryAdd_rejected e w h x y c _ _ hrej
  obtain ⟨hstr, hbb, hcc, _, _⟩ :=
    resolveOpts_sameButRng e o { s with attempts := s.attempts + 1 }
  exact ⟨heq, by rw [heq, hstr], by rw [heq, hbb], by rw [heq, hcc]⟩

/-! ## Concrete-run machinery -/

theorem chain_min_le_0 (p0 p1 p2 p3 p4 p5 : ℚ) :
    min p0 (min p1 (min p2 (min p3 (min p4 p5)))) ≤ p0 := min_le_left _ _

theorem chain_min_le_1 (p0 p1 p2 p3 p4 p5 : ℚ) :
    min p0 (min p1 (min p2 (min p3 (min p4 p5)))) ≤ p1 :=
  le_trans (min_le_right _ _) (min_le_left _ _)

theorem chain_min_le_2 (p0 p1 p2 p3 p4 p5 : ℚ) :
    min p0 (min p1 (min p2 (min p3 (min p4 p5)))) ≤ p2 :=
  le_trans (min_le_right _ _) (le_trans (min_le_right _ _) (min_le_left _ _))

theorem chain_min_le_3 (p0 p1 p2 p3 p4 p5 : ℚ) :
    min p0 (min p1 (min p2 (min p3 (min p4 p5)))) ≤ p3 :=
  le_trans (min_le_right _ _) (le_trans (min_le_right _ _)
    (le_trans (min_le_right _ _) (min_le_left _ _)))

theorem chain_le_max_0 (p0 p1 p2 p3 p4 p5 : ℚ) :
    p0 ≤ max p0 (max p1 (max p2 (max p3 (max p4 p5)))) := le_max_left _ _

theorem chain_le_max_1 (p0 p1 p2 p3 p4 p5 : ℚ) :
    p1 ≤ max p0 (max p1 (max p2 (max p3 (max p4 p5)))) :=
  le_trans (le_max_left _ _) (le_max_right _ _)

theorem chain_le_max_2 (p0 p1 p2 p3 p4 p5 : ℚ) :
    p2 ≤ max p0 (max p1 (max p2 (max p3 (max p4 p5)))) :=
  le_trans (le_trans (le_max_left _ _) (le_max_right _ _)) (le_max_right _ _)

theorem chain_le_max_3 (p0 p1 p2 p3 p4 p5 : ℚ) :
    p3 ≤ max p0 (max p1 (max p2 (max p3 (max p4 p5)))) :=
  le_trans (le_trans (le_trans (le_max_left _ _) (le_max_right _ _)) (le_max_right _ _))
    (le_max_right _ _)

/-- The anchor point bounds `minX` from above. -/
theorem bounds_minX_le_0 (e : Env) (x y l a u cv : ℚ) :
    (getStrokeBounds e x y l a u cv).minX ≤ x := chain_min_le_0 _ _ _ _ _ _

/-- The far endpoint bounds `minX` from above. -/
theorem bounds_minX_le_1 (e : Env) (x y l a u cv : ℚ) :
    (getStrokeBounds e x y l a u cv).minX ≤ x + e.cos (a * e.pi / 180) * l :=
  chain_min_le_1 _ _ _ _ _ _

theorem bounds_minX_le_2 (e : Env) (x y l a u cv : ℚ) :
    (getStrokeBounds e x y l a u cv).minX ≤ x + e.sin (a * e.pi / 180) * u :=
  chain_min_le_2 _ _ _ _ _ _

theorem bounds_minX_le_3 (e : Env) (x y l a u cv : ℚ) :
    (getStrokeBounds e x y l a u cv).minX ≤
      x + e.cos (a * e.pi / 180) * l + e.sin (a * e.pi / 180) * u :=
  chain_min_le_3 _ _ _ _ _ _

theorem bounds_le_maxX_0 (e : Env) (x y l a u cv : ℚ) :
    x ≤ (getStrokeBounds e x y l a u cv).maxX := chain_le_max_0 _ _ _ _ _ _

theorem bounds_le_maxX_1 (e : Env) (x y l a u cv : ℚ) :
    x + e.cos (a * e.pi / 180) * l ≤ (getStrokeBounds e x y l a u cv).maxX :=
  chain_le_max_1 _ _ _ _ _ _

theorem bounds_le_maxX_2 (e : Env) (x y l a u cv : ℚ) :
    x + e.sin (a * e.pi / 180) * u ≤ (getStrokeBounds e x y l a u cv).maxX :=
  chain_le_max_2 _ _ _ _ _ _

theorem bounds_le_maxX_3 (e : Env) (x y l a u cv : ℚ) :
    x + e.cos (a * e.pi / 180) * l + e.sin (a * e.pi / 180) * u ≤
      (getStrokeBounds e x y l a u cv).maxX :=
  chain_le_max_3 _ _ _ _ _ _

theorem bounds_minY_le_0 (e : Env) (x y l a u cv : ℚ) :
    (getStrokeBounds e x y l a u cv).minY ≤ y := chain_min_le_0 _ _ _ _ _ _

theorem bounds_minY_le_1 (e : Env) (x y l a u cv : ℚ) :
    (getStrokeBounds e x y l a u cv).minY ≤ y + e.sin (a * e.pi / 180) * l :=
  chain_min_le_1 _ _ _ _ _ _

theorem bounds_minY_le_2 (e : Env) (x y l a u cv : ℚ) :
    (getStrokeBounds e x y l a u cv).minY ≤ y + -(e.cos (a * e.pi / 180)) * u :=
  chain_min_le_2 _ _ _ _ _ _

theorem bounds_minY_le_3 (e : Env) (x y l a u cv : ℚ) :
    (getStrokeBounds e x y l a u cv).minY ≤
      y + e.sin (a * e.pi / 180) * l + -(e.cos (a * e.pi / 180)) * u :=
  chain_min_le_3 _ _ _ _ _ _

theorem bounds_le_maxY_0 (e : Env) (x y l a u cv : ℚ) :
    y ≤ (getStrokeBounds e x y l a u cv).maxY := chain_le_max_0 _ _ _ _ _ _

theorem bounds_le_maxY_1 (e : Env) (x y l a u cv : ℚ) :
    y + e.sin (a * e.pi / 180) * l ≤ (getStrokeBounds e x y l a u cv).maxY :=
  chain_le_max_1 _ _ _ _ _ _

theorem bounds_le_maxY_2 (e : Env) (x y l a u cv : ℚ) :
    y + -(e.cos (a * e.pi / 180)) * u ≤ (getStrokeBounds e x y l a u cv).maxY :=
  chain_le_max_2 _ _ _ _ _ _

theorem bounds_le_maxY_3 (e : Env) (x y l a u cv : ℚ) :
    y + e.sin (a * e.pi / 180) * l + -(e.cos (a * e.pi / 180)) * u ≤
      (getStrokeBounds e x y l a u cv).maxY :=
  chain_le_max_3 _ _ _ _ _ _

/-- The horizontal extent of a stroke's box is at least the horizontal
stroke vector plus the horizontal thickness vector, in absolute value. -/
theorem bounds_span_X (e : Env) (x y l a u cv : ℚ) :
    |e.cos (a * e.pi / 180) * l| + |e.sin (a * e.pi / 180) * u| ≤
      (getStrokeBounds e x y l a u cv).maxX - (getStrokeBounds e x y l a u cv).minX := by
  rcases abs_cases (e.cos (a * e.pi / 180) * l) with ⟨hd, hd0⟩ | ⟨hd, hd0⟩ <;>
    rcases abs_cases (e.sin (a * e.pi / 180) * u) with ⟨ht, ht0⟩ | ⟨ht, ht0⟩
  · have h1 := bounds_le_maxX_3 e x y l a u cv
    have h2 := bounds_minX_le_0 e x y l a u cv
    linarith
  · have h1 := bounds_le_maxX_1 e x y l a u cv
    have h2 := bounds_minX_le_2 e x y l a u cv
    linarith
  · have h1 := bounds_le_maxX_2 e x y l a u cv
    have h2 := bounds_minX_le_1 e x y l a u cv
    linarith
  · have h1 := bounds_le_maxX_0 e x y l a u cv
    have h2 := bounds_minX_le_3 e x y l a u cv
    linarith

/-- The vertical extent of a stroke's box is at least the vertical
stroke vector plus the vertical thickness vector, in absolute value. -/
theorem bounds_span_Y (e : Env) (x y l a u cv : ℚ) :
    |e.sin (a * e.pi / 180) * l| + |e.cos (a * e.pi / 180) * u| ≤
      (getStrokeBounds e x y l a u cv).maxY - (getStrokeBounds e x y l a u cv).minY := by
  have habs : |(-(e.cos (a * e.pi / 180))) * u| = |e.cos (a * e.pi / 180) * u| := by
    rw [neg_mul, abs_neg]
  rcases abs_cases (e.sin (a * e.pi / 180) * l) with ⟨hd, hd0⟩ | ⟨hd, hd0⟩ <;>
    rcases abs_cases ((-(e.cos (a * e.pi / 180))) * u) with ⟨ht, ht0⟩ | ⟨ht, ht0⟩
  · have h1 := bounds_le_maxY_3 e x y l a u cv
    have h2 := bounds_minY_le_0 e x y l a u cv
    rw [habs] at ht
    linarith
  · have h1 := bounds_le_maxY_1 e x y l a u cv
    have h2 := bounds_minY_le_2 e x y l a u cv
    rw [habs] at ht
    linarith
  · have h1 := bounds_le_maxY_2 e x y l a u cv
    have h2 := bounds_minY_le_1 e x y l a u cv
    rw [habs] at ht
    linarith
  · have h1 := bounds_le_maxY_0 e x y l a u cv
    have h2 := bounds_minY_le_3 e x y l a u cv
    rw [habs] at ht
    linarith

/-- The environment's direction functions satisfy the Pythagorean
identity (as the true cosine and sine do). -/
def PythagoreanEnv (e : Env) : Prop := ∀ r : ℚ, (e.cos r) ^ 2 + (e.sin r) ^ 2 = 1

/-- On a 1×1 canvas, any candidate whose resolved length is ≥ 14 and
width ≥ 10 overshoots the margin-extended canvas in some direction and
is rejected, whatever its position, angle and curvature: the box spans
at least `length + width ≥ 24 > 22` across the two axes combined, but
the canvas only allows `11 + 11`. -/
theorem pythagorean_tryAdd_reject (e : Env) (hpy : PythagoreanEnv e) (x y : ℚ)
    (c : PaletteColor) (p : Resolved) (hl : 14 ≤ p.len) (hw : 10 ≤ p.wid) (s : GenState) :
    tryAdd e 1 1 x y c p s = s := by
  apply tryAdd_rejected
  left
  by_contra hno
  push_neg at hno
  obtain ⟨h1, h2, h3, h4⟩ := hno
  have hsx := bounds_span_X e x y p.len p.ang p.wid p.curv
  have hsy := bounds_span_Y e x y p.len p.ang p.wid p.curv
  set cc := e.cos (p.ang * e.pi / 180) with hcc
  set ss := e.sin (p.ang * e.pi / 180) with hss
  have hid := hpy (p.ang * e.pi / 180)
  rw [← hcc, ← hss] at hid
  have habs1 : 1 ≤ |cc| + |ss| := by
    nlinarith [abs_nonneg cc, abs_nonneg ss, sq_abs cc, sq_abs ss,
      mul_nonneg (abs_nonneg cc) (abs_nonneg ss)]
  have hmul1 : |cc * p.len| = |cc| * p.len := by
    rw [abs_mul, abs_of_nonneg (by linarith : (0 : ℚ) ≤ p.len)]
  have hmul2 : |ss * p.wid| = |ss| * p.wid := by
    rw [abs_mul, abs_of_nonneg (by linarith : (0 : ℚ) ≤ p.wid)]
  have hmul3 : |ss * p.len| = |ss| * p.len := by
    rw [abs_mul, abs_of_nonneg (by linarith : (0 : ℚ) ≤ p.len)]
  have hmul4 : |cc * p.wid| = |cc| * p.wid := by
    rw [abs_mul, abs_of_nonneg (by linarith : (0 : ℚ) ≤ p.wid)]
  rw [hmul1, hmul2] at hsx
  rw [hmul3, hmul4] at hsy
  have hcombined : (|cc| + |ss|) * (p.len + p.wid) ≤ 22 := by nlinarith
  nlinarith [abs_nonneg cc, abs_nonneg ss]

theorem resolveOpts_len_some (e : Env) (o : StrokeOptions) (s : GenState) (l : ℚ)
    (h : o.length = some l) (hl : l ≠ 0) : (resolveOpts e o s).1.len = l := by
  unfold resolveOpts jsOrDraw
  rw [h]
  simp [hl]

theorem resolveOpts_wid_some (e : Env) (o : StrokeOptions) (s : GenState) (u : ℚ)
    (h : o.width = some u) (hu : u ≠ 0) : (resolveOpts e o s).1.wid = u := by
  unfold resolveOpts jsOrDraw
  rw [h]
  rcases o.length with _ | v <;> simp [hu]

/-- On a 1×1 canvas, any `addStroke` call whose options carry an
explicit length ≥ 14 and width ≥ 10 (as all call sites of the generator
do) leaves the strokes list unchanged, for any Pythagorean environment. -/
theorem pythagorean_addStroke_strokes (e : Env) (hpy : PythagoreanEnv e) (x y : ℚ)
    (c : PaletteColor) (o : StrokeOptions) (s : GenState) (l u : ℚ)
    (hol : o.length = some l) (hl : 14 ≤ l) (hou : o.width = some u) (hu : 10 ≤ u) :
    (addStroke e 1 1 x y c o s).strokes = s.strokes := by
  simp only [addStroke]
  rw [pythagorean_tryAdd_reject e hpy x y c _
    (by rw [resolveOpts_len_some e o _ l hol (by linarith)]; exact hl)
    (by rw [resolveOpts_wid_some e o _ u hou (by linarith)]; exact hu) _]
  exact (resolveOpts_sameButRng e o _).1

theorem py_skyLoop_strokes (e : Env) (hpy : PythagoreanEnv e) (hor : ℚ) :
    ∀ (fuel added : ℕ) (s : GenState), (skyLoop e 1 1 hor fuel added s).strokes = s.strokes
  | 0, _, _ => rfl
  | fuel + 1, added, s => by
    rw [skyLoop]
    split
    · rw [py_skyLoop_strokes e hpy hor fuel,
        pythagorean_addStroke_strokes e hpy _ _ _ _ _ 45 14 rfl (by norm_num) rfl (by norm_num)]
      rfl
    · rfl

theorem py_tableLoop_strokes (e : Env) (hpy : PythagoreanEnv e) (hor : ℚ) :
    ∀ (fuel added : ℕ) (s : GenState), (tableLoop e 1 1 hor fuel added s).strokes = s.strokes
  | 0, _, _ => rfl
  | fuel + 1, added, s => by
    rw [tableLoop]
    split
    · rw [py_tableLoop_strokes e hpy hor fuel,
        pythagorean_addStroke_strokes e hpy _ _ _ _ _ 50 16 rfl (by norm_num) rfl (by norm_num)]
      rfl
    · rfl

theorem py_vaseLoop_strokes (e : Env) (hpy : PythagoreanEnv e) (vcx vby vty vwt vwb : ℚ) :
    ∀ (fuel added : ℕ) (s : GenState),
      (vaseLoop e 1 1 vcx vby vty vwt vwb fuel added s).strokes = s.strokes
  | 0, _, _ => rfl
  | fuel + 1, added, s => by
    rw [vaseLoop]
    split
    · rw [py_vaseLoop_strokes e hpy vcx vby vty vwt vwb fuel,
        pythagorean_addStroke_strokes e hpy _ _ _ _ _ 32 12 rfl (by norm_num) rfl (by norm_num)]
      rfl
    · rfl

theorem py_stemRetryLoop_strokes (e : Env) (hpy : PythagoreanEnv e) (cx cy : ℚ) :
    ∀ (fuel : ℕ) (s : GenState), (stemRetryLoop e 1 1 cx cy fuel s).strokes = s.strokes
  | 0, _ => rfl
  | fuel + 1, s => by
    rw [stemRetryLoop]
    split
    · rw [pythagorean_addStroke_strokes e hpy _ _ _ _ _ 26 10 rfl (by norm_num) rfl (by norm_num)]
      rfl
    · split
      · dsimp only
        split
        · rw [pythagorean_addStroke_strokes e hpy _ _ _ _ _ 26 10 rfl (by norm_num) rfl
            (by norm_num), draw_strokes, draw_strokes, draw_strokes,
            pythagorean_addStroke_strokes e hpy _ _ _ _ _ 26 10 rfl (by norm_num) rfl
            (by norm_num)]
          rfl
        · rw [py_stemRetryLoop_strokes e hpy cx cy fuel,
            pythagorean_addStroke_strokes e hpy _ _ _ _ _ 26 10 rfl (by norm_num) rfl
            (by norm_num), draw_strokes, draw_strokes, draw_strokes,
            pythagorean_addStroke_strokes e hpy _ _ _ _ _ 26 10 rfl (by norm_num) rfl
            (by norm_num)]
          rfl
      · rw [py_stemRetryLoop_strokes e hpy cx cy fuel,
          pythagorean_addStroke_strokes e hpy _ _ _ _ _ 26 10 rfl (by norm_num) rfl
          (by norm_num)]
        rfl

theorem py_petalRetryLoop_strokes (e : Env) (hpy : PythagoreanEnv e) (px py angleDeg len : ℚ)
    (hlen : 14 ≤ len) :
    ∀ (fuel : ℕ) (s : GenState), (petalRetryLoop e 1 1 px py angleDeg len fuel s).strokes = s.strokes
  | 0, _ => rfl
  | fuel + 1, s => by
    rw [petalRetryLoop]
    split
    · rw [pythagorean_addStroke_strokes e hpy _ _ _ _ _ len 14 rfl hlen rfl (by norm_num)]
    · split
      · dsimp only
        split
        · rw [pythagorean_addStroke_strokes e hpy _ _ _ _ _ len 14 rfl hlen rfl (by norm_num),
            draw_strokes, draw_strokes,
            pythagorean_addStroke_strokes e hpy _ _ _ _ _ len 14 rfl hlen rfl (by norm_num)]
        · rw [py_petalRetryLoop_strokes e hpy px py angleDeg len hlen fuel,
            pythagorean_addStroke_strokes e hpy _ _ _ _ _ len 14 rfl hlen rfl (by norm_num),
            draw_strokes, draw_strokes,
            pythagorean_addStroke_strokes e hpy _ _ _ _ _ len 14 rfl hlen rfl (by norm_num)]
      · rw [py_petalRetryLoop_strokes e hpy px py angleDeg len hlen fuel,
          pythagorean_addStroke_strokes e hpy _ _ _ _ _ len 14 rfl hlen rfl (by norm_num)]

theorem py_centerLoop_strokes (e : Env) (hpy : PythagoreanEnv e) (fx fy fr : ℚ) (dots : ℕ) :
    ∀ (fuel added : ℕ) (s : GenState),
      (centerLoop e 1 1 fx fy fr dots fuel added s).strokes = s.strokes
  | 0, _, _ => rfl
  | fuel + 1, added, s => by
    rw [centerLoop]
    split
    · rw [py_centerLoop_strokes e hpy fx fy fr dots fuel,
        pythagorean_addStroke_strokes e hpy _ _ _ _ _ 14 12 rfl (by norm_num) rfl (by norm_num)]
      rfl
    · rfl

theorem py_flowerStep_strokes (e : Env) (hpy : PythagoreanEnv e) (vcx vty : ℚ) (idx : ℕ)
    (f : Flower) (hfr : 14 ≤ f.r * 1.1) (s : GenState) :
    (flowerStep e 1 1 vcx vty idx f s).strokes = s.strokes := by
  simp only [flowerStep]
  rw [py_centerLoop_strokes e hpy f.x f.y f.r _ _ _ _, pushShape_strokes]
  have hfold6 : ∀ (l : List ℕ) (s' : GenState),
      (l.foldl (fun (s : GenState) (j : ℕ) =>
        petalRetryLoop e 1 1 (f.x + e.cos (((j : ℚ) / 6) * 360 * e.pi / 180) * (f.r * 0.75))
          (f.y + e.sin (((j : ℚ) / 6) * 360 * e.pi / 180) * (f.r * 0.75)) (((j : ℚ) / 6) * 360)
          (f.r * 1.1) 3
          (pushShape (petalShape f
            (f.x + e.cos (((j : ℚ) / 6) * 360 * e.pi / 180) * (f.r * 0.75))
            (f.y + e.sin (((j : ℚ) / 6) * 360 * e.pi / 180) * (f.r * 0.75))
            (((j : ℚ) / 6) * 360 * e.pi / 180)) s)) s').strokes = s'.strokes := by
    intro l
    induction l with
    | nil => intro s'; rfl
    | cons a as ih =>
      intro s'
      rw [List.foldl_cons, ih, py_petalRetryLoop_strokes e hpy _ _ _ _ hfr 3, pushShape_strokes]
  have hfold3 : ∀ (l : List ℕ) (s' : GenState),
      (l.foldl (fun (s : GenState) (k : ℕ) =>
        stemRetryLoop e 1 1
          (f.x + (vcx + (f.x - vcx) * 0.3 - f.x) * ((k : ℚ) / 3) +
            e.sin (((k : ℚ) / 3) * e.pi) * (if idx % 2 = 0 then -15 else 15))
          (f.y + f.r + (vty - (f.y + f.r)) * ((k : ℚ) / 3)) 3 s) s').strokes = s'.strokes := by
    intro l
    induction l with
    | nil => intro s'; rfl
    | cons a as ih =>
      intro s'
      rw [List.foldl_cons, ih, py_stemRetryLoop_strokes e hpy _ _ 3]
  rw [hfold6, hfold3, pushShape_strokes]

/-- On a 1×1 canvas, a run under any Pythagorean environment accepts no
stroke at all: the strokes list of the output is empty. -/
theorem py_genRun_strokes_nil (e : Env) (hpy : PythagoreanEnv e) :
    (genRun e 1 1).strokes = [] := by
  simp only [genRun]
  rw [show List.enum [(⟨1 * 0.35, 1 * 0.5, 42⟩ : Flower), ⟨1 * 0.72, 1 * 0.35, 32⟩,
    ⟨1 * 0.58, 1 * 0.52, 28⟩] =
    [(0, (⟨1 * 0.35, 1 * 0.5, 42⟩ : Flower)), (1, ⟨1 * 0.72, 1 * 0.35, 32⟩),
      (2, ⟨1 * 0.58, 1 * 0.52, 28⟩)] from rfl]
  simp only [List.foldl_cons, List.foldl_nil]
  rw [py_flowerStep_strokes e hpy _ _ _ _ (by norm_num),
    py_flowerStep_strokes e hpy _ _ _ _ (by norm_num),
    py_flowerStep_strokes e hpy _ _ _ _ (by norm_num),
    py_vaseLoop_strokes e hpy _ _ _ _ _ _ _, pushShape_strokes,
    py_tableLoop_strokes e hpy _ _ _, pushShape_strokes,
    py_skyLoop_strokes e hpy _ _ _, pushShape_strokes]
  rfl

theorem resolveOpts_withCurv (e : Env) (l wd a cv m : ℚ) (hl : l ≠ 0) (hw : wd ≠ 0)
    (hcv : cv ≠ 0) (s : GenState) :
    resolveOpts e ⟨some l, some wd, some a, some cv, some m⟩ s =
      (⟨l, wd, a, cv, jsMinDist (some m)⟩, s) := by
  unfold resolveOpts jsOrDraw jsAngle
  simp [hl, hw, hcv]

theorem resolveOpts_noCurv (e : Env) (l wd a m : ℚ) (hl : l ≠ 0) (hw : wd ≠ 0) (s : GenState) :
    resolveOpts e ⟨some l, some wd, some a, none, some m⟩ s =
      (⟨l, wd, a, (e.rand s.rng - 0.5) * 10, jsMinDist (some m)⟩,
        { s with rng := s.rng + 1 }) := by
  unfold resolveOpts jsOrDraw jsAngle draw
  simp [hl, hw]

theorem resolveOpts_zeroCurv (e : Env) (l wd a m : ℚ) (hl : l ≠ 0) (hw : wd ≠ 0)
    (s : GenState) :
    resolveOpts e ⟨some l, some wd, some a, some 0, some m⟩ s =
      (⟨l, wd, a, (e.rand s.rng - 0.5) * 10, jsMinDist (some m)⟩,
        { s with rng := s.rng + 1 }) := by
  unfold resolveOpts jsOrDraw jsAngle draw
  simp [hl, hw]

/-- C5 counterexample.  The inputs `width = height = 1` are positive,
yet the returned strokes list is empty (every candidate stroke, being
at least 14 long and 10 wide, overshoots the 5-unit margin of a 1×1
canvas whatever its direction): "non-empty `LevelData` for any positive
`width, height`" fails as stated.  The environment used has the
constant Pythagorean direction pair `(3/5, 4/5)`; by
`py_genRun_strokes_nil` the same outcome holds for EVERY environment
whose cosine/sine satisfy `cos² + sin² = 1`, in particular for the true
ones. -/
theorem c5_counterexample_1x1 :
    ((0 : ℚ) < 1 ∧ (0 : ℚ) < 1) ∧ (generateSunflowersData env2 1 1).strokes = [] := by
  refine ⟨⟨by norm_num, by norm_num⟩, ?_⟩
  rw [generate_strokes]
  exact py_genRun_strokes_nil env2 (fun r => by norm_num [env2])

/-- Witness for the amended C2 at a concrete environment (whose square
root, the constant 0, never overestimates) and concrete canvas. -/
theorem c2_amended_spacing_witness :
    SqrtLB ⟨0, fun _ => 0, fun _ => 0, fun _ => 0, fun _ => 0, fun _ => ""⟩ ∧
      (generateSunflowersData ⟨0, fun _ => 0, fun _ => 0, fun _ => 0, fun _ => 0, fun _ => ""⟩
          360 640).strokes.Pairwise fun a b =>
        a.targetColor = b.targetColor →
          (min a.minDist b.minDist) ^ 2 ≤
            sqDist
              (strokeCenterOf ⟨0, fun _ => 0, fun _ => 0, fun _ => 0, fun _ => 0, fun _ => ""⟩ a)
              (strokeCenterOf ⟨0, fun _ => 0, fun _ => 0, fun _ => 0, fun _ => 0, fun _ => ""⟩ b) :=
  have hs : SqrtLB ⟨0, fun _ => 0, fun _ => 0, fun _ => 0, fun _ => 0, fun _ => ""⟩ :=
    fun q hq => by simpa using hq
  ⟨hs, c2_amended_spacing ⟨0, fun _ => 0, fun _ => 0, fun _ => 0, fun _ => 0, fun _ => ""⟩
    360 640 hs⟩

/-- A concrete environment whose id conversion is injective on the
stream: draw `i` is the rational `i`, and the id string of a draw `q`
is `q.num.toNat` repetitions of one character. -/
def envInj : Env :=
  { pi := 0, cos := fun _ => 0, sin := fun _ => 0, sqrt := fun _ => 0,
    rand := fun i => (i : ℚ), uidStr := fun q => String.mk (List.replicate q.num.toNat 'a') }

/-- Witness for the amended C4 at `envInj`, whose uid draws map to
pairwise distinct id strings. -/
theorem c4_amended_z_and_ids_witness :
    (∀ i j : ℕ, i ≠ j → envInj.uidStr (envInj.rand i) ≠ envInj.uidStr (envInj.rand j)) ∧
      (((generateSunflowersData envInj 360 640).strokes.Pairwise fun a b =>
          a.zIndex < b.zIndex) ∧
        (generateSunflowersData envInj 360 640).strokes.Pairwise fun a b => a.id ≠ b.id) :=
  have hinj : ∀ i j : ℕ, i ≠ j →
      envInj.uidStr (envInj.rand i) ≠ envInj.uidStr (envInj.rand j) := by
    intro i j hne heq
    apply hne
    have hdata := congrArg (fun st => st.data.length) heq
    simp only [envInj, String.data, List.length_replicate] at hdata
    have hi : ((i : ℚ)).num.toNat = i := by
      rw [Rat.num_natCast, Int.toNat_natCast]
    have hj : ((j : ℚ)).num.toNat = j := by
      rw [Rat.num_natCast, Int.toNat_natCast]
    rw [hi, hj] at hdata
    exact hdata
  ⟨hinj, c4_amended_z_and_ids envInj 360 640 hinj⟩

/-- Witness for C7: a concrete candidate (anchor far right of a 100×100
canvas) violates the canvas-bounds constraint, and `addStroke` returns
the post-resolution state with strokes and accumulators untouched. -/
theorem c7_rejected_candidate_no_mutation_witness :
    candidateRejected env2 100 100 1000000 0 PaletteColor.SkyBlue
        (resolveOpts env2 ⟨some 45, some 14, some 0, some 5, some 28⟩
          { GenState.init with attempts := GenState.init.attempts + 1 }).1
        (resolveOpts env2 ⟨some 45, some 14, some 0, some 5, some 28⟩
          { GenState.init with attempts := GenState.init.attempts + 1 }).2 ∧
      (addStroke env2 100 100 1000000 0 PaletteColor.SkyBlue
            ⟨some 45, some 14, some 0, some 5, some 28⟩ GenState.init =
          (resolveOpts env2 ⟨some 45, some 14, some 0, some 5, some 28⟩
            { GenState.init with attempts := GenState.init.attempts + 1 }).2 ∧
        (addStroke env2 100 100 1000000 0 PaletteColor.SkyBlue
            ⟨some 45, some 14, some 0, some 5, some 28⟩ GenState.init).strokes =
          GenState.init.strokes ∧
        (addStroke env2 100 100 1000000 0 PaletteColor.SkyBlue
            ⟨some 45, some 14, some 0, some 5, some 28⟩ GenState.init).boundsByColor =
          GenState.init.boundsByColor ∧
        (addStroke env2 100 100 1000000 0 PaletteColor.SkyBlue
            ⟨some 45, some 14, some 0, some 5, some 28⟩ GenState.init).centersByColor =
          GenState.init.centersByColor) := by
  have hres := resolveOpts_withCurv env2 45 14 0 5 28 (by norm_num) (by norm_num) (by norm_num)
    { GenState.init with attempts := GenState.init.attempts + 1 }
  have hrej : candidateRejected env2 100 100 1000000 0 PaletteColor.SkyBlue
      (resolveOpts env2 ⟨some 45, some 14, some 0, some 5, some 28⟩
        { GenState.init with attempts := GenState.init.attempts + 1 }).1
      (resolveOpts env2 ⟨some 45, some 14, some 0, some 5, some 28⟩
        { GenState.init with attempts := GenState.init.attempts + 1 }).2 := by
    rw [hres]
    simp only [candidateRejected]
    left
    right; right; left
    have h3 := bounds_le_maxX_3 env2 1000000 0 45 0 14 5
    have hc : env2.cos (0 * env2.pi / 180) = 3 / 5 := rfl
    have hsn : env2.sin (0 * env2.pi / 180) = 4 / 5 := rfl
    rw [hc, hsn] at h3
    show (100 : ℚ) + 5 < (getStrokeBounds env2 1000000 0 45 0 14 5).maxX
    linarith
  exact ⟨hrej, c7_rejected_candidate_no_mutation env2 100 100 1000000 0 PaletteColor.SkyBlue
    ⟨some 45, some 14, some 0, some 5, some 28⟩ GenState.init hrej⟩
/-! ## The engineered environment: stream values and trig lookups -/

theorem envCE_pi : envCE.pi = piQ := rfl

theorem envCE_cos : envCE.cos = tableCos := rfl

theorem envCE_sin : envCE.sin = tableSin := rfl

theorem envCE_sqrt : envCE.sqrt = ratSqrt := rfl

theorem envCE_rand_lt (i : ℕ) (h : i < 480) : envCE.rand i = 1 / 2 := by
  simp only [envCE]
  rw [if_neg (by omega), if_neg (by omega)]

theorem envCE_rand_gt (i : ℕ) (h : 481 < i) : envCE.rand i = 1 / 2 := by
  simp only [envCE]
  rw [if_neg (by omega), if_neg (by omega)]

theorem envCE_rand_480 : envCE.rand 480 = tStar := by
  simp [envCE]

theorem envCE_rand_481 : envCE.rand 481 = rStar := by
  simp [envCE]

theorem envCE_uid_half : envCE.uidStr (1 / 2) = "i" := by
  simp [envCE]

theorem findTrig_0 : trigTable.find? (fun ent => ent.1 = (0 : ℚ)) = some (0, 1, 0) := by
  unfold trigTable
  rw [List.find?_cons_of_pos _ (by simp)]

theorem tableCos_0 : tableCos 0 = 1 := by
  rw [tableCos, findTrig_0]
  rfl

theorem tableSin_0 : tableSin 0 = 0 := by
  rw [tableSin, findTrig_0]
  rfl

theorem findTrig_piThird :
    trigTable.find? (fun ent => ent.1 = piQ / 3) =
      some (piQ / 3, 1 / 2, 866025404 / 1000000000) := by
  unfold trigTable
  rw [List.find?_cons_of_neg _ (by simp only [decide_eq_true_eq]; norm_num [piQ]),
    List.find?_cons_of_pos _ (by simp)]

theorem findTrig_piHalf :
    trigTable.find? (fun ent => ent.1 = piQ / 2) = some (piQ / 2, 0, 1) := by
  unfold trigTable
  rw [List.find?_cons_of_neg _ (by simp only [decide_eq_true_eq]; norm_num [piQ]),
    List.find?_cons_of_neg _ (by simp only [decide_eq_true_eq]; norm_num [piQ]),
    List.find?_cons_of_pos _ (by simp)]

theorem findTrig_2piThird :
    trigTable.find? (fun ent => ent.1 = 2 * piQ / 3) =
      some (2 * piQ / 3, -1 / 2, 866025404 / 1000000000) := by
  unfold trigTable
  rw [List.find?_cons_of_neg _ (by simp only [decide_eq_true_eq]; norm_num [piQ]),
    List.find?_cons_of_neg _ (by simp only [decide_eq_true_eq]; norm_num [piQ]),
    List.find?_cons_of_neg _ (by simp only [decide_eq_true_eq]; norm_num [piQ]),
    List.find?_cons_of_pos _ (by simp)]

theorem findTrig_pi :
    trigTable.find? (fun ent => ent.1 = piQ) = some (piQ, -1, 0) := by
  unfold trigTable
  rw [List.find?_cons_of_neg _ (by simp only [decide_eq_true_eq]; norm_num [piQ]),
    List.find?_cons_of_neg _ (by simp only [decide_eq_true_eq]; norm_num [piQ]),
    List.find?_cons_of_neg _ (by simp only [decide_eq_true_eq]; norm_num [piQ]),
    List.find?_cons_of_neg _ (by simp only [decide_eq_true_eq]; norm_num [piQ]),
    List.find?_cons_of_pos _ (by simp)]

theorem findTrig_4piThird :
    trigTable.find? (fun ent => ent.1 = 4 * piQ / 3) =
      some (4 * piQ / 3, -1 / 2, -866025404 / 1000000000) := by
  unfold trigTable
  rw [List.find?_cons_of_neg _ (by simp only [decide_eq_true_eq]; norm_num [piQ]),
    List.find?_cons_of_neg _ (by simp only [decide_eq_true_eq]; norm_num [piQ]),
    List.find?_cons_of_neg _ (by simp only [decide_eq_true_eq]; norm_num [piQ]),
    List.find?_cons_of_neg _ (by simp only [decide_eq_true_eq]; norm_num [piQ]),
    List.find?_cons_of_neg _ (by simp only [decide_eq_true_eq]; norm_num [piQ]),
    List.find?_cons_of_pos _ (by simp)]

theorem findTrig_5piThird :
    trigTable.find? (fun ent => ent.1 = 5 * piQ / 3) =
      some (5 * piQ / 3, 1 / 2, -866025404 / 1000000000) := by
  unfold trigTable
  rw [List.find?_cons_of_neg _ (by simp only [decide_eq_true_eq]; norm_num [piQ]),
    List.find?_cons_of_neg _ (by simp only [decide_eq_true_eq]; norm_num [piQ]),
    List.find?_cons_of_neg _ (by simp only [decide_eq_true_eq]; norm_num [piQ]),
    List.find?_cons_of_neg _ (by simp only [decide_eq_true_eq]; norm_num [piQ]),
    List.find?_cons_of_neg _ (by simp only [decide_eq_true_eq]; norm_num [piQ]),
    List.find?_cons_of_neg _ (by simp only [decide_eq_true_eq]; norm_num [piQ]),
    List.find?_cons_of_pos _ (by simp)]

theorem findTrig_3572 :
    trigTable.find? (fun ent => ent.1 = 35 * piQ / 72) =
      some (35 * piQ / 72, cosv, sinv) := by
  unfold trigTable
  rw [List.find?_cons_of_neg _ (by simp only [decide_eq_true_eq]; norm_num [piQ]),
    List.find?_cons_of_neg _ (by simp only [decide_eq_true_eq]; norm_num [piQ]),
    List.find?_cons_of_neg _ (by simp only [decide_eq_true_eq]; norm_num [piQ]),
    List.find?_cons_of_neg _ (by simp only [decide_eq_true_eq]; norm_num [piQ]),
    List.find?_cons_of_neg _ (by simp only [decide_eq_true_eq]; norm_num [piQ]),
    List.find?_cons_of_neg _ (by simp only [decide_eq_true_eq]; norm_num [piQ]),
    List.find?_cons_of_neg _ (by simp only [decide_eq_true_eq]; norm_num [piQ]),
    List.find?_cons_of_pos _ (by simp)]

theorem findTrig_tstar :
    trigTable.find? (fun ent => ent.1 = tStar * piQ) =
      some (tStar * piQ, cvs, vs) := by
  unfold trigTable
  rw [List.find?_cons_of_neg _ (by simp only [decide_eq_true_eq]; norm_num [piQ, tStar, sinv]),
    List.find?_cons_of_neg _ (by simp only [decide_eq_true_eq]; norm_num [piQ, tStar, sinv]),
    List.find?_cons_of_neg _ (by simp only [decide_eq_true_eq]; norm_num [piQ, tStar, sinv]),
    List.find?_cons_of_neg _ (by simp only [decide_eq_true_eq]; norm_num [piQ, tStar, sinv]),
    List.find?_cons_of_neg _ (by simp only [decide_eq_true_eq]; norm_num [piQ, tStar, sinv]),
    List.find?_cons_of_neg _ (by simp only [decide_eq_true_eq]; norm_num [piQ, tStar, sinv]),
    List.find?_cons_of_neg _ (by simp only [decide_eq_true_eq]; norm_num [piQ, tStar, sinv]),
    List.find?_cons_of_neg _ (by simp only [decide_eq_true_eq]; norm_num [piQ, tStar, sinv]),
    List.find?_cons_of_pos _ (by simp)]

theorem tableCos_piHalf : tableCos (piQ / 2) = 0 := by
  rw [tableCos, findTrig_piHalf]
  rfl

theorem tableSin_piHalf : tableSin (piQ / 2) = 1 := by
  rw [tableSin, findTrig_piHalf]
  rfl

theorem tableCos_piThird : tableCos (piQ / 3) = 1 / 2 := by
  rw [tableCos, findTrig_piThird]
  rfl

theorem tableSin_piThird : tableSin (piQ / 3) = 866025404 / 1000000000 := by
  rw [tableSin, findTrig_piThird]
  rfl

theorem tableCos_2piThird : tableCos (2 * piQ / 3) = -1 / 2 := by
  rw [tableCos, findTrig_2piThird]
  rfl

theorem tableSin_2piThird : tableSin (2 * piQ / 3) = 866025404 / 1000000000 := by
  rw [tableSin, findTrig_2piThird]
  rfl

theorem tableCos_pi : tableCos piQ = -1 := by
  rw [tableCos, findTrig_pi]
  rfl

theorem tableCos_4piThird : tableCos (4 * piQ / 3) = -1 / 2 := by
  rw [tableCos, findTrig_4piThird]
  rfl

theorem tableCos_5piThird : tableCos (5 * piQ / 3) = 1 / 2 := by
  rw [tableCos, findTrig_5piThird]
  rfl

theorem tableCos_3572 : tableCos (35 * piQ / 72) = cosv := by
  rw [tableCos, findTrig_3572]
  rfl

theorem tableSin_3572 : tableSin (35 * piQ / 72) = sinv := by
  rw [tableSin, findTrig_3572]
  rfl

theorem tableSin_tstar : tableSin (tStar * piQ) = vs := by
  rw [tableSin, findTrig_tstar]
  rfl

/-! ## Rejected-candidate combinators -/

theorem draw_fst (e : Env) (s : GenState) : (draw e s).1 = e.rand s.rng := rfl

theorem draw_snd (e : Env) (s : GenState) : (draw e s).2 = { s with rng := s.rng + 1 } := rfl

/-- Two record updates of the same state agree when their numeric
arguments do. -/
theorem genState_upd_eq (s : GenState) (r1 r2 a1 a2 : ℕ) (hr : r1 = r2) (ha : a1 = a2) :
    ({ s with rng := r1, attempts := a1 } : GenState) =
      { s with rng := r2, attempts := a2 } := by
  rw [hr, ha]

/-- An `addStroke` call with explicit length, width and angle and no
curvature whose candidate violates the canvas bounds returns the state
with one more attempt and one more consumed draw (the curvature draw). -/
theorem addStroke_reject_noCurv (e : Env) (w h x y : ℚ) (c : PaletteColor) (l wd a m : ℚ)
    (hl : l ≠ 0) (hw : wd ≠ 0) (s : GenState)
    (hb : (getStrokeBounds e x y l a wd ((e.rand s.rng - 0.5) * 10)).minX < -5 ∨
      (getStrokeBounds e x y l a wd ((e.rand s.rng - 0.5) * 10)).minY < -5 ∨
      (getStrokeBounds e x y l a wd ((e.rand s.rng - 0.5) * 10)).maxX > w + 5 ∨
      (getStrokeBounds e x y l a wd ((e.rand s.rng - 0.5) * 10)).maxY > h + 5) :
    addStroke e w h x y c ⟨some l, some wd, some a, none, some m⟩ s =
      { s with rng := s.rng + 1, attempts := s.attempts + 1 } := by
  simp only [addStroke]
  rw [resolveOpts_noCurv e l wd a m hl hw]
  exact tryAdd_rejected e w h x y c _ _ (Or.inl hb)

/-- Same, with an explicit zero curvature option (also redrawn). -/
theorem addStroke_reject_zeroCurv (e : Env) (w h x y : ℚ) (c : PaletteColor) (l wd a m : ℚ)
    (hl : l ≠ 0) (hw : wd ≠ 0) (s : GenState)
    (hb : (getStrokeBounds e x y l a wd ((e.rand s.rng - 0.5) * 10)).minX < -5 ∨
      (getStrokeBounds e x y l a wd ((e.rand s.rng - 0.5) * 10)).minY < -5 ∨
      (getStrokeBounds e x y l a wd ((e.rand s.rng - 0.5) * 10)).maxX > w + 5 ∨
      (getStrokeBounds e x y l a wd ((e.rand s.rng - 0.5) * 10)).maxY > h + 5) :
    addStroke e w h x y c ⟨some l, some wd, some a, some 0, some m⟩ s =
      { s with rng := s.rng + 1, attempts := s.attempts + 1 } := by
  simp only [addStroke]
  rw [resolveOpts_zeroCurv e l wd a m hl hw]
  exact tryAdd_rejected e w h x y c _ _ (Or.inl hb)

/-- Same, with an explicit non-zero curvature (no draw consumed). -/
theorem addStroke_reject_withCurv (e : Env) (w h x y : ℚ) (c : PaletteColor) (l wd a cv m : ℚ)
    (hl : l ≠ 0) (hw : wd ≠ 0) (hcv : cv ≠ 0) (s : GenState)
    (hb : (getStrokeBounds e x y l a wd cv).minX < -5 ∨
      (getStrokeBounds e x y l a wd cv).minY < -5 ∨
      (getStrokeBounds e x y l a wd cv).maxX > w + 5 ∨
      (getStrokeBounds e x y l a wd cv).maxY > h + 5) :
    addStroke e w h x y c ⟨some l, some wd, some a, some cv, some m⟩ s =
      { s with attempts := s.attempts + 1 } := by
  simp only [addStroke]
  rw [resolveOpts_withCurv e l wd a cv m hl hw hcv]
  exact tryAdd_rejected e w h x y c _ _ (Or.inl hb)

/-! ## Sky and table phases of the engineered run -/

/-- Any sky candidate on the 12-wide canvas is rejected: its anchor is
at `x = 6` and its far endpoint at `x = 6 + 45 > 17`. -/
theorem sky_reject (y : ℚ) (s : GenState) :
    addStroke envCE 12 640 (1 / 2 * 12) y PaletteColor.SkyBlue
      ⟨some 45, some 14, some (0 + (1 / 2 - 0.5) * 15), none, some 28⟩ s =
      { s with rng := s.rng + 1, attempts := s.attempts + 1 } := by
  apply addStroke_reject_noCurv envCE 12 640 _ _ _ 45 14 _ 28 (by norm_num) (by norm_num) s
  right; right; left
  have h1 := bounds_le_maxX_1 envCE (1 / 2 * 12) y 45 (0 + (1 / 2 - 0.5) * 15) 14
    ((envCE.rand s.rng - 0.5) * 10)
  rw [show (0 + ((1 : ℚ) / 2 - 0.5) * 15) * envCE.pi / 180 = 0 by norm_num] at h1
  rw [envCE_cos, tableCos_0] at h1
  show (12 : ℚ) + 5 < _
  linarith

/-- Any table candidate on the 12-wide canvas is rejected the same way
(`6 + 50 > 17`). -/
theorem table_reject (y : ℚ) (s : GenState) :
    addStroke envCE 12 640 (1 / 2 * 12) y PaletteColor.EarthYellow
      ⟨some 50, some 16, some (0 + (1 / 2 - 0.5) * 5), none, some 32⟩ s =
      { s with rng := s.rng + 1, attempts := s.attempts + 1 } := by
  apply addStroke_reject_noCurv envCE 12 640 _ _ _ 50 16 _ 32 (by norm_num) (by norm_num) s
  right; right; left
  have h1 := bounds_le_maxX_1 envCE (1 / 2 * 12) y 50 (0 + (1 / 2 - 0.5) * 5) 16
    ((envCE.rand s.rng - 0.5) * 10)
  rw [show (0 + ((1 : ℚ) / 2 - 0.5) * 5) * envCE.pi / 180 = 0 by norm_num] at h1
  rw [envCE_cos, tableCos_0] at h1
  show (12 : ℚ) + 5 < _
  linarith

/-- The sky loop under `envCE` with all its draws inside the constant
window: every candidate is rejected, so it only consumes `4` draws and
one attempt per iteration. -/
theorem skyLoop_CE : ∀ (fuel added : ℕ) (s : GenState), added < 18 →
    s.rng + 4 * fuel ≤ 480 →
    skyLoop envCE 12 640 (640 * 0.65) fuel added s =
      { s with rng := s.rng + 4 * fuel, attempts := s.attempts + fuel }
  | 0, added, s => by
    intro _ _
    show s = _
    rfl
  | fuel + 1, added, s => by
    intro hadd hrng
    rw [skyLoop, if_pos hadd]
    simp only [draw_fst, draw_snd]
    simp only [envCE_rand_lt s.rng (by omega : s.rng < 480),
      envCE_rand_lt (s.rng + 1) (by omega : s.rng + 1 < 480),
      envCE_rand_lt (s.rng + 1 + 1) (by omega : s.rng + 1 + 1 < 480)]
    simp only [sky_reject]
    simp only [lt_irrefl, if_false]
    exact (skyLoop_CE fuel added _ hadd (by dsimp only; omega)).trans
      (genState_upd_eq s _ _ _ _ (by dsimp only; omega) (by dsimp only; omega))

/-- The table loop under `envCE`, same accounting. -/
theorem tableLoop_CE : ∀ (fuel added : ℕ) (s : GenState), added < 12 →
    s.rng + 4 * fuel ≤ 480 →
    tableLoop envCE 12 640 (640 * 0.65) fuel added s =
      { s with rng := s.rng + 4 * fuel, attempts := s.attempts + fuel }
  | 0, added, s => by
    intro _ _
    show s = _
    rfl
  | fuel + 1, added, s => by
    intro hadd hrng
    rw [tableLoop, if_pos hadd]
    simp only [draw_fst, draw_snd]
    simp only [envCE_rand_lt s.rng (by omega : s.rng < 480),
      envCE_rand_lt (s.rng + 1) (by omega : s.rng + 1 < 480),
      envCE_rand_lt (s.rng + 1 + 1) (by omega : s.rng + 1 + 1 < 480)]
    simp only [table_reject]
    simp only [lt_irrefl, if_false]
    exact (tableLoop_CE fuel added _ hadd (by dsimp only; omega)).trans
      (genState_upd_eq s _ _ _ _ (by dsimp only; omega) (by dsimp only; omega))

/-! ## Radian lemmas and the rejection sites of the engineered run -/

theorem tableSin_pi : tableSin piQ = 0 := by
  rw [tableSin, findTrig_pi]
  rfl

theorem half_jitter (a b : ℚ) : a + ((1 : ℚ) / 2 - 0.5) * b = a := by norm_num

theorem rad_90 : (90 + ((1 : ℚ) / 2 - 0.5) * 20) * envCE.pi / 180 = piQ / 2 := by
  rw [envCE_pi, show (90 + ((1 : ℚ) / 2 - 0.5) * 20) = 90 by norm_num]
  ring

theorem rad_875 : (75 + (1 : ℚ) / 2 * 25) * envCE.pi / 180 = 35 * piQ / 72 := by
  rw [envCE_pi, show (75 + (1 : ℚ) / 2 * 25) = 175 / 2 by norm_num]
  ring

theorem rad_0 : (0 : ℚ) * envCE.pi / 180 = 0 := by
  rw [envCE_pi]
  ring

theorem rad_60 : (60 : ℚ) * envCE.pi / 180 = piQ / 3 := by
  rw [envCE_pi]
  ring

theorem rad_120 : (120 : ℚ) * envCE.pi / 180 = 2 * piQ / 3 := by
  rw [envCE_pi]
  ring

theorem rad_180 : (180 : ℚ) * envCE.pi / 180 = piQ := by
  rw [envCE_pi]
  ring

theorem rad_240 : (240 : ℚ) * envCE.pi / 180 = 4 * piQ / 3 := by
  rw [envCE_pi]
  ring

theorem rad_300 : (300 : ℚ) * envCE.pi / 180 = 5 * piQ / 3 := by
  rw [envCE_pi]
  ring

theorem rad_180c : ((1 : ℚ) / 2 * 360) * envCE.pi / 180 = piQ := by
  rw [envCE_pi, show ((1 : ℚ) / 2 * 360) = 180 by norm_num]
  ring

theorem theta_half : (1 : ℚ) / 2 * envCE.pi * 2 = piQ := by
  rw [envCE_pi]
  ring

theorem deg_j0 : (((0 : ℕ) : ℚ) / 6) * 360 = 0 := by push_cast; norm_num

theorem deg_j1 : (((1 : ℕ) : ℚ) / 6) * 360 = 60 := by push_cast; norm_num

theorem deg_j2 : (((2 : ℕ) : ℚ) / 6) * 360 = 120 := by push_cast; norm_num

theorem deg_j3 : (((3 : ℕ) : ℚ) / 6) * 360 = 180 := by push_cast; norm_num

theorem deg_j4 : (((4 : ℕ) : ℚ) / 6) * 360 = 240 := by push_cast; norm_num

theorem deg_j5 : (((5 : ℕ) : ℚ) / 6) * 360 = 300 := by push_cast; norm_num

/-- Any vase candidate on the 12-wide canvas is rejected: its anchor
is at `x = 6` (the horizontal draw is `1/2`) and the near-vertical
stroke's thickness endpoint reaches `x = 6 + 12 > 17`. -/
theorem vase_reject (CW y : ℚ) (s : GenState) :
    addStroke envCE 12 640 (12 / 2 + (1 / 2 - 0.5) * 2 * CW * 0.8) y PaletteColor.GrassGreen
      ⟨some 32, some 12, some (90 + (1 / 2 - 0.5) * 20), none, some 22⟩ s =
      { s with rng := s.rng + 1, attempts := s.attempts + 1 } := by
  apply addStroke_reject_noCurv envCE 12 640 _ _ _ 32 12 _ 22 (by norm_num) (by norm_num) s
  right; right; left
  have h1 := bounds_le_maxX_2 envCE (12 / 2 + (1 / 2 - 0.5) * 2 * CW * 0.8) y 32
    (90 + (1 / 2 - 0.5) * 20) 12 ((envCE.rand s.rng - 0.5) * 10)
  rw [rad_90, envCE_sin, tableSin_piHalf] at h1
  show (12 : ℚ) + 5 < _
  linarith

/-- A stem candidate violating the canvas bounds is rejected whatever
its redrawn curvature. -/
theorem stem_reject (cx cy : ℚ)
    (hb : ∀ cv : ℚ, (getStrokeBounds envCE cx cy 26 (75 + 1 / 2 * 25) 10 cv).minX < -5 ∨
      (getStrokeBounds envCE cx cy 26 (75 + 1 / 2 * 25) 10 cv).minY < -5 ∨
      (getStrokeBounds envCE cx cy 26 (75 + 1 / 2 * 25) 10 cv).maxX > 12 + 5 ∨
      (getStrokeBounds envCE cx cy 26 (75 + 1 / 2 * 25) 10 cv).maxY > 640 + 5)
    (s : GenState) :
    addStroke envCE 12 640 cx cy PaletteColor.GrassGreen
      ⟨some 26, some 10, some (75 + 1 / 2 * 25), none, some 20⟩ s =
      { s with rng := s.rng + 1, attempts := s.attempts + 1 } := by
  apply addStroke_reject_noCurv envCE 12 640 _ _ _ 26 10 _ 20 (by norm_num) (by norm_num) s
  exact hb _

theorem stem_hb_min0 (cx cy : ℚ) (h : cx < -5) :
    ∀ cv : ℚ, (getStrokeBounds envCE cx cy 26 (75 + 1 / 2 * 25) 10 cv).minX < -5 ∨
      (getStrokeBounds envCE cx cy 26 (75 + 1 / 2 * 25) 10 cv).minY < -5 ∨
      (getStrokeBounds envCE cx cy 26 (75 + 1 / 2 * 25) 10 cv).maxX > 12 + 5 ∨
      (getStrokeBounds envCE cx cy 26 (75 + 1 / 2 * 25) 10 cv).maxY > 640 + 5 := by
  intro cv
  left
  have h1 := bounds_minX_le_0 envCE cx cy 26 (75 + 1 / 2 * 25) 10 cv
  linarith

theorem stem_hb_max0 (cx cy : ℚ) (h : 17 < cx) :
    ∀ cv : ℚ, (getStrokeBounds envCE cx cy 26 (75 + 1 / 2 * 25) 10 cv).minX < -5 ∨
      (getStrokeBounds envCE cx cy 26 (75 + 1 / 2 * 25) 10 cv).minY < -5 ∨
      (getStrokeBounds envCE cx cy 26 (75 + 1 / 2 * 25) 10 cv).maxX > 12 + 5 ∨
      (getStrokeBounds envCE cx cy 26 (75 + 1 / 2 * 25) 10 cv).maxY > 640 + 5 := by
  intro cv
  right; right; left
  have h1 := bounds_le_maxX_0 envCE cx cy 26 (75 + 1 / 2 * 25) 10 cv
  show (12 : ℚ) + 5 < _
  linarith

theorem stem_hb_max3 (cx cy : ℚ) (h : 17 < cx + cosv * 26 + sinv * 10) :
    ∀ cv : ℚ, (getStrokeBounds envCE cx cy 26 (75 + 1 / 2 * 25) 10 cv).minX < -5 ∨
      (getStrokeBounds envCE cx cy 26 (75 + 1 / 2 * 25) 10 cv).minY < -5 ∨
      (getStrokeBounds envCE cx cy 26 (75 + 1 / 2 * 25) 10 cv).maxX > 12 + 5 ∨
      (getStrokeBounds envCE cx cy 26 (75 + 1 / 2 * 25) 10 cv).maxY > 640 + 5 := by
  intro cv
  right; right; left
  have h1 := bounds_le_maxX_3 envCE cx cy 26 (75 + 1 / 2 * 25) 10 cv
  rw [rad_875, envCE_cos, envCE_sin, tableCos_3572, tableSin_3572] at h1
  show (12 : ℚ) + 5 < _
  linarith

/-- A petal candidate violating the canvas bounds is rejected (its
curvature is the explicit 5, so no draw is consumed). -/
theorem petal_reject (px py angleDeg len : ℚ) (hlen : len ≠ 0)
    (hb : (getStrokeBounds envCE px py len angleDeg 14 5).minX < -5 ∨
      (getStrokeBounds envCE px py len angleDeg 14 5).minY < -5 ∨
      (getStrokeBounds envCE px py len angleDeg 14 5).maxX > 12 + 5 ∨
      (getStrokeBounds envCE px py len angleDeg 14 5).maxY > 640 + 5)
    (s : GenState) :
    addStroke envCE 12 640 px py PaletteColor.BrightYellow
      ⟨some len, some 14, some angleDeg, some 5, some 14⟩ s =
      { s with attempts := s.attempts + 1 } := by
  apply addStroke_reject_withCurv envCE 12 640 _ _ _ len 14 _ 5 14 hlen (by norm_num)
    (by norm_num) s
  exact hb

theorem petal_hb_max0 (px py angleDeg len : ℚ) (h : 17 < px) :
    (getStrokeBounds envCE px py len angleDeg 14 5).minX < -5 ∨
      (getStrokeBounds envCE px py len angleDeg 14 5).minY < -5 ∨
      (getStrokeBounds envCE px py len angleDeg 14 5).maxX > 12 + 5 ∨
      (getStrokeBounds envCE px py len angleDeg 14 5).maxY > 640 + 5 := by
  right; right; left
  have h1 := bounds_le_maxX_0 envCE px py len angleDeg 14 5
  show (12 : ℚ) + 5 < _
  linarith

theorem petal_hb_min0 (px py angleDeg len : ℚ) (h : px < -5) :
    (getStrokeBounds envCE px py len angleDeg 14 5).minX < -5 ∨
      (getStrokeBounds envCE px py len angleDeg 14 5).minY < -5 ∨
      (getStrokeBounds envCE px py len angleDeg 14 5).maxX > 12 + 5 ∨
      (getStrokeBounds envCE px py len angleDeg 14 5).maxY > 640 + 5 := by
  left
  have h1 := bounds_minX_le_0 envCE px py len angleDeg 14 5
  linarith

theorem petal_hb_min1 (px py angleDeg len : ℚ)
    (h : px + envCE.cos (angleDeg * envCE.pi / 180) * len < -5) :
    (getStrokeBounds envCE px py len angleDeg 14 5).minX < -5 ∨
      (getStrokeBounds envCE px py len angleDeg 14 5).minY < -5 ∨
      (getStrokeBounds envCE px py len angleDeg 14 5).maxX > 12 + 5 ∨
      (getStrokeBounds envCE px py len angleDeg 14 5).maxY > 640 + 5 := by
  left
  have h1 := bounds_minX_le_1 envCE px py len angleDeg 14 5
  linarith

/-- A flower-center dot candidate is rejected: the dot anchor sits at
`fx - 0.175 * fr` and the stroke (angle 180°) extends 14 units to the
left, beyond the margin whenever the anchor is left of `x = 9`. -/
theorem center_reject (fx fr : ℚ) (hx : fx + 1 / 2 * (fr * 0.35) * -1 < 9) (cy : ℚ)
    (s : GenState) :
    addStroke envCE 12 640 (fx + 1 / 2 * (fr * 0.35) * -1) cy PaletteColor.OchreSienna
      ⟨some 14, some 12, some (1 / 2 * 360), some 0, some 12⟩ s =
      { s with rng := s.rng + 1, attempts := s.attempts + 1 } := by
  apply addStroke_reject_zeroCurv envCE 12 640 _ _ _ 14 12 _ 12 (by norm_num) (by norm_num) s
  left
  have h1 := bounds_minX_le_1 envCE (fx + 1 / 2 * (fr * 0.35) * -1) cy 14 (1 / 2 * 360) 12
    ((envCE.rand s.rng - 0.5) * 10)
  rw [rad_180c, envCE_cos, tableCos_pi] at h1
  linarith


/-! ## Exact loop accounting for the engineered run -/

/-- Once the engineered draws are past (`481 < rng`), every further
vase candidate is rejected, so the rest of the vase loop consumes
exactly 4 draws and one attempt per iteration. -/
theorem vaseRest_CE : ∀ (fuel added : ℕ) (s : GenState), added < 10 → 481 < s.rng →
    vaseLoop envCE 12 640 (12 / 2) (640 * 0.85) (640 * 0.55) (12 * 0.15) (12 * 0.25)
      fuel added s =
      { s with rng := s.rng + 4 * fuel, attempts := s.attempts + fuel }
  | 0, added, s => by
    intro _ _
    show s = _
    rfl
  | fuel + 1, added, s => by
    intro hadd hrng
    rw [vaseLoop, if_pos hadd]
    dsimp only [draw_fst, draw_snd]
    simp only [envCE_rand_gt s.rng (by omega : 481 < s.rng),
      envCE_rand_gt (s.rng + 1) (by omega : 481 < s.rng + 1),
      envCE_rand_gt (s.rng + 1 + 1) (by omega : 481 < s.rng + 1 + 1),
      vase_reject, lt_irrefl, if_false]
    exact (vaseRest_CE fuel added _ hadd (by first | omega | (dsimp only; omega))).trans
      (genState_upd_eq s _ _ _ _ (by first | omega | (dsimp only; omega))
        (by first | omega | (dsimp only; omega)))

/-- Draws consumed by a fully rejected stem point with the given fuel. -/
def stemDraws : ℕ → ℕ
  | 0 => 0
  | 1 => 2
  | fuel + 2 => 6 + stemDraws (fuel + 1)

/-- Attempts consumed by a fully rejected stem point. -/
def stemAtt : ℕ → ℕ
  | 0 => 0
  | 1 => 1
  | fuel + 2 => 2 + stemAtt (fuel + 1)

/-- A stem point whose canonical candidate violates the canvas bounds
adds nothing for any fuel; the jittered retries land on the same spot
because the offset draws are `1/2`. -/
theorem stemRetryLoop_CE (cx cy : ℚ)
    (hb : ∀ cv : ℚ, (getStrokeBounds envCE cx cy 26 (75 + 1 / 2 * 25) 10 cv).minX < -5 ∨
      (getStrokeBounds envCE cx cy 26 (75 + 1 / 2 * 25) 10 cv).minY < -5 ∨
      (getStrokeBounds envCE cx cy 26 (75 + 1 / 2 * 25) 10 cv).maxX > 12 + 5 ∨
      (getStrokeBounds envCE cx cy 26 (75 + 1 / 2 * 25) 10 cv).maxY > 640 + 5) :
    ∀ (fuel : ℕ) (s : GenState), 481 < s.rng →
      stemRetryLoop envCE 12 640 cx cy fuel s =
        { s with rng := s.rng + stemDraws fuel, attempts := s.attempts + stemAtt fuel }
  | 0, s => by
    intro _
    rw [stemRetryLoop]
    show s = _
    rfl
  | 1, s => by
    intro hrng
    rw [stemRetryLoop]
    dsimp only [draw_fst, draw_snd]
    simp only [envCE_rand_gt s.rng (by omega : 481 < s.rng),
      stem_reject cx cy hb, lt_irrefl, if_false,
      if_neg (by norm_num : ¬(1 : ℕ) ≤ 0)]
    rw [stemRetryLoop]
    have hd : stemDraws 1 = 2 := rfl
    have ha : stemAtt 1 = 1 := rfl
    exact genState_upd_eq s _ _ _ _ (by first | omega | (dsimp only; omega))
      (by first | omega | (dsimp only; omega))
  | fuel + 2, s => by
    intro hrng
    rw [stemRetryLoop]
    dsimp only [draw_fst, draw_snd]
    simp only [envCE_rand_gt s.rng (by omega : 481 < s.rng),
      envCE_rand_gt (s.rng + 1 + 1) (by omega : 481 < s.rng + 1 + 1),
      envCE_rand_gt (s.rng + 1 + 1 + 1) (by omega : 481 < s.rng + 1 + 1 + 1),
      envCE_rand_gt (s.rng + 1 + 1 + 1 + 1) (by omega : 481 < s.rng + 1 + 1 + 1 + 1),
      stem_reject cx cy hb, half_jitter, lt_irrefl, if_false,
      if_pos (Nat.le_add_left 1 fuel)]
    have hd : stemDraws (fuel + 2) = 6 + stemDraws (fuel + 1) := rfl
    have ha : stemAtt (fuel + 2) = 2 + stemAtt (fuel + 1) := rfl
    exact (stemRetryLoop_CE cx cy hb (fuel + 1) _ (by first | omega | (dsimp only; omega))).trans
      (genState_upd_eq s _ _ _ _ (by first | omega | (dsimp only; omega))
        (by first | omega | (dsimp only; omega)))

/-- Draws consumed by a fully rejected petal with the given fuel. -/
def petalDraws : ℕ → ℕ
  | 0 => 0
  | 1 => 0
  | fuel + 2 => 2 + petalDraws (fuel + 1)

/-- Attempts consumed by a fully rejected petal. -/
def petalAtt : ℕ → ℕ
  | 0 => 0
  | 1 => 1
  | fuel + 2 => 2 + petalAtt (fuel + 1)

/-- A petal whose candidate violates the canvas bounds adds nothing,
for any retry fuel. -/
theorem petalRetryLoop_CE (px py angleDeg len : ℚ) (hlen : len ≠ 0)
    (hb : (getStrokeBounds envCE px py len angleDeg 14 5).minX < -5 ∨
      (getStrokeBounds envCE px py len angleDeg 14 5).minY < -5 ∨
      (getStrokeBounds envCE px py len angleDeg 14 5).maxX > 12 + 5 ∨
      (getStrokeBounds envCE px py len angleDeg 14 5).maxY > 640 + 5) :
    ∀ (fuel : ℕ) (s : GenState), 481 < s.rng →
      petalRetryLoop envCE 12 640 px py angleDeg len fuel s =
        { s with rng := s.rng + petalDraws fuel, attempts := s.attempts + petalAtt fuel }
  | 0, s => by
    intro _
    rw [petalRetryLoop]
    show s = _
    rfl
  | 1, s => by
    intro hrng
    rw [petalRetryLoop]
    simp only [petal_reject px py angleDeg len hlen hb, lt_irrefl, if_false,
      if_neg (by norm_num : ¬(1 : ℕ) ≤ 0)]
    rw [petalRetryLoop]
    have hd : petalDraws 1 = 0 := rfl
    have ha : petalAtt 1 = 1 := rfl
    exact genState_upd_eq s _ _ _ _ (by first | omega | (dsimp only; omega))
      (by first | omega | (dsimp only; omega))
  | fuel + 2, s => by
    intro hrng
    rw [petalRetryLoop]
    simp only [petal_reject px py angleDeg len hlen hb]
    dsimp only [draw_fst, draw_snd]
    simp only [envCE_rand_gt s.rng (by omega : 481 < s.rng),
      envCE_rand_gt (s.rng + 1) (by omega : 481 < s.rng + 1),
      half_jitter, petal_reject px py angleDeg len hlen hb, lt_irrefl, if_false,
      if_pos (Nat.le_add_left 1 fuel)]
    have hd : petalDraws (fuel + 2) = 2 + petalDraws (fuel + 1) := rfl
    have ha : petalAtt (fuel + 2) = 2 + petalAtt (fuel + 1) := rfl
    exact (petalRetryLoop_CE px py angleDeg len hlen hb (fuel + 1) _
        (by first | omega | (dsimp only; omega))).trans
      (genState_upd_eq s _ _ _ _ (by first | omega | (dsimp only; omega))
        (by first | omega | (dsimp only; omega)))

/-- A flower-center loop whose anchor is left of `x = 9` adds nothing
and consumes 4 draws and one attempt per iteration. -/
theorem centerLoop_CE (fx fy fr : ℚ) (hx : fx + 1 / 2 * (fr * 0.35) * -1 < 9) (dots : ℕ) :
    ∀ (fuel added : ℕ) (s : GenState), added < dots → 481 < s.rng →
      centerLoop envCE 12 640 fx fy fr dots fuel added s =
        { s with rng := s.rng + 4 * fuel, attempts := s.attempts + fuel }
  | 0, added, s => by
    intro _ _
    rw [centerLoop]
    show s = _
    rfl
  | fuel + 1, added, s => by
    intro hadd hrng
    rw [centerLoop, if_pos hadd]
    dsimp only [draw_fst, draw_snd]
    simp only [envCE_rand_gt s.rng (by omega : 481 < s.rng),
      envCE_rand_gt (s.rng + 1) (by omega : 481 < s.rng + 1),
      envCE_rand_gt (s.rng + 1 + 1) (by omega : 481 < s.rng + 1 + 1),
      theta_half, envCE_cos, envCE_sin, tableCos_pi, tableSin_pi, mul_zero, add_zero,
      center_reject fx fr hx, lt_irrefl, if_false]
    exact (centerLoop_CE fx fy fr hx dots fuel added _ hadd
        (by first | omega | (dsimp only; omega))).trans
      (genState_upd_eq s _ _ _ _ (by first | omega | (dsimp only; omega))
        (by first | omega | (dsimp only; omega)))

/-! ## The two accepted strokes of the 12×640 run -/

/-- `√441 = 21` for the floor-based concrete square root. -/
theorem ratSqrt_441 : ratSqrt 441 = 21 := by
  unfold ratSqrt
  rw [if_neg (by norm_num : ¬(441 : ℚ) ≤ 0)]
  have h1 : (441 : ℚ).num.toNat * (441 : ℚ).den * 4 ^ 40 = (21 * 2 ^ 40) ^ 2 := by
    rw [show (441 : ℚ).num.toNat = 441 from rfl, show (441 : ℚ).den = 1 from rfl]
    norm_num
  rw [h1, Nat.sqrt_eq']
  rw [show (441 : ℚ).den = 1 from rfl]
  push_cast
  norm_num

/-- The bounding box of the accepted vase stroke. -/
def vaseBoxE : Box :=
  { minX := 4767052031 / 1000000000, minY := 379987626886 / 1000000000,
    maxX := 16767052031 / 1000000000, maxY := 411987626886 / 1000000000 }

/-- The centerline midpoint of the accepted vase stroke. -/
def vaseCenterE : Pt :=
  { x := 4767052031 / 1000000000, y := 395987626886 / 1000000000 }

/-- The bounding box of the accepted stem stroke. -/
def stemBoxE : Box :=
  { minX := 21 / 5, minY := 36156380613 / 100000000,
    maxX := 15324586282 / 1000000000, maxY := 387975253772 / 1000000000 }

/-- The centerline midpoint of the accepted stem stroke. -/
def stemCenterE : Pt :=
  { x := 4767052031 / 1000000000, y := 374987626886 / 1000000000 }

/-- The accepted vase stroke (anchor `(4.767..., 379.987...)`, length 32,
angle 90°, width 12): the first stroke of the engineered 12×640 run. -/
def vaseStrokeE : Stroke :=
  { id := "i",
    path :=
      { x := 4767052031 / 1000000000, y := 379987626886 / 1000000000, length := 32,
        angle := 90, width := 12, curvature := 0 },
    targetColor := PaletteColor.GrassGreen, currentColor := none, zIndex := 0,
    minDist := 22, idIdx := 484 }

/-- The accepted stem stroke (anchor `(4.2, 362)`, length 26, angle
87.5°, width 10): the second stroke of the engineered 12×640 run, placed
exactly 21 units below the vase stroke's midpoint. -/
def stemStrokeE : Stroke :=
  { id := "i",
    path :=
      { x := 12 * 0.35, y := 640 * 0.5 + 42, length := 26, angle := 175 / 2,
        width := 10, curvature := 0 },
    targetColor := PaletteColor.GrassGreen, currentColor := none, zIndex := 1,
    minDist := 20, idIdx := 643 }

/-- The stem candidate's box overlaps the vase stroke's box by a ratio
of `0.28701... ≤ 0.3`, so the overlap check passes. -/
theorem overlap_stem_vase : boxesOverlap stemBoxE vaseBoxE 0.3 = false := by
  simp only [boxesOverlap, stemBoxE, vaseBoxE]
  rw [if_neg (by norm_num [min_def, max_def])]
  exact decide_eq_false (by norm_num [min_def, max_def])

theorem jsm22 : jsMinDist (some 22) = 22 := by norm_num [jsMinDist]

theorem jsm20 : jsMinDist (some 20) = 20 := by norm_num [jsMinDist]

/-- First vase-loop iteration of the engineered run: the candidate at
`x = 4.2 + 13 cos(87.5°)`, `y = 367 + 13 sin(87.5°)` with angle 90° is
accepted into an empty same-color pool. -/
theorem vase_accept (L : List Stroke) (SH : List RealisticShape) (z r a : ℕ)
    (hr : 481 < r) :
    addStroke envCE 12 640
      (12 / 2 + (rStar - 0.5) * 2 * (12 * 0.25 * vs + 12 * 0.15 * (1 - vs)) * 0.8)
      (640 * 0.85 - tStar * (640 * 0.85 - 640 * 0.55))
      PaletteColor.GrassGreen
      ⟨some 32, some 12, some (90 + (1 / 2 - 0.5) * 20), none, some 22⟩
      { strokes := L, shapes := SH, boundsByColor := fun _ => [],
        centersByColor := fun _ => [], zIndexCounter := z, rng := r, attempts := a } =
      { strokes := L ++
          [{ id := "i",
             path :=
               { x := 4767052031 / 1000000000, y := 379987626886 / 1000000000,
                 length := 32, angle := 90, width := 12, curvature := 0 },
             targetColor := PaletteColor.GrassGreen, currentColor := none, zIndex := z,
             minDist := 22, idIdx := r + 1 }],
        shapes := SH,
        boundsByColor := fun c => if c = PaletteColor.GrassGreen then [vaseBoxE] else [],
        centersByColor := fun c => if c = PaletteColor.GrassGreen then [vaseCenterE] else [],
        zIndexCounter := z + 1, rng := r + 2, attempts := a + 1 } := by
  have hX : (12 / 2 + (rStar - 0.5) * 2 * (12 * 0.25 * vs + 12 * 0.15 * (1 - vs)) * 0.8 : ℚ) =
      4767052031 / 1000000000 := by
    norm_num [rStar, vs, cosv]
  have hY : (640 * 0.85 - tStar * (640 * 0.85 - 640 * 0.55) : ℚ) =
      379987626886 / 1000000000 := by
    norm_num [tStar, sinv]
  simp only [hX, hY]
  simp only [addStroke]
  simp only [resolveOpts_noCurv envCE 32 12 (90 + (1 / 2 - 0.5) * 20) 22 (by norm_num)
    (by norm_num)]
  simp only [envCE_rand_gt r (by omega : 481 < r), jsm22]
  have hbox : getStrokeBounds envCE (4767052031 / 1000000000) (379987626886 / 1000000000)
      32 (90 + (1 / 2 - 0.5) * 20) 12 ((1 / 2 - 0.5) * 10) = vaseBoxE := by
    simp only [getStrokeBounds, rad_90, envCE_cos, envCE_sin, tableCos_piHalf,
      tableSin_piHalf, vaseBoxE]
    congr 1 <;> norm_num [min_def, max_def]
  have hcen : getStrokeCenter envCE (4767052031 / 1000000000) (379987626886 / 1000000000)
      32 (90 + (1 / 2 - 0.5) * 20) = vaseCenterE := by
    simp only [getStrokeCenter, rad_90, envCE_cos, envCE_sin, tableCos_piHalf,
      tableSin_piHalf, vaseCenterE]
    congr 1 <;> norm_num
  simp only [tryAdd]
  simp only [hbox, hcen]
  rw [if_neg (by norm_num [vaseBoxE])]
  simp only [List.any_nil, Bool.false_eq_true, if_false]
  dsimp only [draw_fst, draw_snd]
  simp only [envCE_rand_gt (r + 1) (by omega : 481 < r + 1), envCE_uid_half,
    createBrushStroke]
  simp only [List.nil_append, show (90 + ((1 : ℚ) / 2 - 0.5) * 20) = 90 by norm_num,
    show (((1 : ℚ) / 2 - 0.5) * 10) = 0 by norm_num]

/-- First stem-point attempt of the first flower: the candidate at
`(4.2, 362)` with angle 87.5° passes all three checks — its midpoint is
exactly 21 ≥ 20 from the vase stroke's, and the box-overlap ratio is
below 0.3 — and is accepted. -/
theorem stem_accept (L : List Stroke) (SH : List RealisticShape) (z r a : ℕ)
    (hr : 481 < r) :
    addStroke envCE 12 640 (12 * 0.35) (640 * 0.5 + 42) PaletteColor.GrassGreen
      ⟨some 26, some 10, some (75 + 1 / 2 * 25), none, some 20⟩
      { strokes := L, shapes := SH,
        boundsByColor := fun c => if c = PaletteColor.GrassGreen then [vaseBoxE] else [],
        centersByColor := fun c => if c = PaletteColor.GrassGreen then [vaseCenterE] else [],
        zIndexCounter := z, rng := r, attempts := a } =
      { strokes := L ++
          [{ id := "i",
             path :=
               { x := 12 * 0.35, y := 640 * 0.5 + 42, length := 26, angle := 175 / 2,
                 width := 10, curvature := 0 },
             targetColor := PaletteColor.GrassGreen, currentColor := none, zIndex := z,
             minDist := 20, idIdx := r + 1 }],
        shapes := SH,
        boundsByColor := fun c =>
          if c = PaletteColor.GrassGreen then [vaseBoxE, stemBoxE] else [],
        centersByColor := fun c =>
          if c = PaletteColor.GrassGreen then [vaseCenterE, stemCenterE] else [],
        zIndexCounter := z + 1, rng := r + 2, attempts := a + 1 } := by
  have hdist : distance envCE stemCenterE vaseCenterE = 21 := by
    norm_num [distance, envCE_sqrt, stemCenterE, vaseCenterE, ratSqrt_441]
  have hbox : getStrokeBounds envCE (12 * 0.35) (640 * 0.5 + 42) 26 (75 + 1 / 2 * 25) 10
      ((1 / 2 - 0.5) * 10) = stemBoxE := by
    simp only [getStrokeBounds, rad_875, envCE_cos, envCE_sin, tableCos_3572,
      tableSin_3572, stemBoxE]
    congr 1 <;> norm_num [cosv, sinv, min_def, max_def]
  have hcen : getStrokeCenter envCE (12 * 0.35) (640 * 0.5 + 42) 26 (75 + 1 / 2 * 25) =
      stemCenterE := by
    simp only [getStrokeCenter, rad_875, envCE_cos, envCE_sin, tableCos_3572,
      tableSin_3572, stemCenterE]
    congr 1 <;> norm_num [cosv, sinv]
  simp only [addStroke]
  simp only [resolveOpts_noCurv envCE 26 10 (75 + 1 / 2 * 25) 20 (by norm_num)
    (by norm_num)]
  simp only [envCE_rand_gt r (by omega : 481 < r), jsm20]
  simp only [tryAdd]
  simp only [hbox, hcen]
  rw [if_neg (by norm_num [stemBoxE])]
  simp only [if_true]
  simp only [List.any_cons, List.any_nil, hdist]
  simp only [decide_eq_false (by norm_num : ¬(21 : ℚ) < 20), Bool.or_false,
    Bool.false_eq_true, if_false]
  simp only [overlap_stem_vase, Bool.or_false, Bool.false_eq_true, if_false]
  dsimp only [draw_fst, draw_snd]
  simp only [envCE_rand_gt (r + 1) (by omega : 481 < r + 1), envCE_uid_half,
    createBrushStroke]
  simp only [show (75 + (1 : ℚ) / 2 * 25) = 175 / 2 by norm_num,
    show (((1 : ℚ) / 2 - 0.5) * 10) = 0 by norm_num]
  congr 1
  · funext c
    by_cases hc : c = PaletteColor.GrassGreen <;> simp [hc]
  · funext c
    by_cases hc : c = PaletteColor.GrassGreen <;> simp [hc]

/-! ## The three flower steps and the full engineered run -/

theorem stemarg0 : ((0 : ℚ) / 3) * envCE.pi = 0 := by norm_num

theorem stemarg1 : ((1 : ℚ) / 3) * envCE.pi = piQ / 3 := by
  rw [envCE_pi]
  ring

theorem stemarg2 : ((2 : ℚ) / 3) * envCE.pi = 2 * piQ / 3 := by
  rw [envCE_pi]
  ring

theorem deg0 : ((0 : ℚ) / 6) * 360 = 0 := by norm_num

theorem deg1 : ((1 : ℚ) / 6) * 360 = 60 := by norm_num

theorem deg2 : ((2 : ℚ) / 6) * 360 = 120 := by norm_num

theorem deg3 : ((3 : ℚ) / 6) * 360 = 180 := by norm_num

theorem deg4 : ((4 : ℚ) / 6) * 360 = 240 := by norm_num

theorem deg5 : ((5 : ℚ) / 6) * 360 = 300 := by norm_num

theorem pushShape_rng (sh : RealisticShape) (s : GenState) :
    (pushShape sh s).rng = s.rng := rfl

/-- Folding a strokes-preserving, rng-increasing step over a list
preserves the strokes and the rng bound. -/
theorem foldl_keep {α : Type} (l : List α) (F : GenState → α → GenState)
    (hF : ∀ a ∈ l, ∀ σ : GenState, 481 < σ.rng →
      (F σ a).strokes = σ.strokes ∧ 481 < (F σ a).rng) :
    ∀ σ : GenState, 481 < σ.rng →
      (l.foldl F σ).strokes = σ.strokes ∧ 481 < (l.foldl F σ).rng := by
  induction l with
  | nil => exact fun σ h => ⟨rfl, h⟩
  | cons a as ih =>
    intro σ hσ
    rw [List.foldl_cons]
    obtain ⟨h1, h2⟩ := hF a (List.mem_cons_self a as) σ hσ
    obtain ⟨h3, h4⟩ := ih (fun b hb => hF b (List.mem_cons_of_mem a hb)) (F σ a) h2
    exact ⟨h3.trans h1, h4⟩

/-- A fully rejected stem point preserves strokes and the rng bound. -/
theorem stem_keep (cx cy : ℚ)
    (hb : ∀ cv : ℚ, (getStrokeBounds envCE cx cy 26 (75 + 1 / 2 * 25) 10 cv).minX < -5 ∨
      (getStrokeBounds envCE cx cy 26 (75 + 1 / 2 * 25) 10 cv).minY < -5 ∨
      (getStrokeBounds envCE cx cy 26 (75 + 1 / 2 * 25) 10 cv).maxX > 12 + 5 ∨
      (getStrokeBounds envCE cx cy 26 (75 + 1 / 2 * 25) 10 cv).maxY > 640 + 5)
    (σ : GenState) (hσ : 481 < σ.rng) :
    (stemRetryLoop envCE 12 640 cx cy 3 σ).strokes = σ.strokes ∧
      481 < (stemRetryLoop envCE 12 640 cx cy 3 σ).rng := by
  rw [stemRetryLoop_CE cx cy hb 3 σ hσ]
  have hd : stemDraws 3 = 14 := rfl
  exact ⟨rfl, by dsimp only; omega⟩

/-- A fully rejected petal preserves strokes and the rng bound. -/
theorem petal_keep (px py angleDeg len : ℚ) (hlen : len ≠ 0)
    (hb : (getStrokeBounds envCE px py len angleDeg 14 5).minX < -5 ∨
      (getStrokeBounds envCE px py len angleDeg 14 5).minY < -5 ∨
      (getStrokeBounds envCE px py len angleDeg 14 5).maxX > 12 + 5 ∨
      (getStrokeBounds envCE px py len angleDeg 14 5).maxY > 640 + 5)
    (σ : GenState) (hσ : 481 < σ.rng) :
    (petalRetryLoop envCE 12 640 px py angleDeg len 3 σ).strokes = σ.strokes ∧
      481 < (petalRetryLoop envCE 12 640 px py angleDeg len 3 σ).rng := by
  rw [petalRetryLoop_CE px py angleDeg len hlen hb 3 σ hσ]
  have hd : petalDraws 3 = 4 := rfl
  exact ⟨rfl, by dsimp only; omega⟩

/-- A fully rejected center loop preserves strokes and the rng bound. -/
theorem center_keep (fx fy fr : ℚ) (hx : fx + 1 / 2 * (fr * 0.35) * -1 < 9)
    (dots fuel : ℕ) (hd : 0 < dots) (σ : GenState) (hσ : 481 < σ.rng) :
    (centerLoop envCE 12 640 fx fy fr dots fuel 0 σ).strokes = σ.strokes ∧
      481 < (centerLoop envCE 12 640 fx fy fr dots fuel 0 σ).rng := by
  rw [centerLoop_CE fx fy fr hx dots fuel 0 σ hd hσ]
  exact ⟨rfl, by dsimp only; omega⟩

/-- A flower step all of whose stem, petal and center candidates are
rejected preserves the strokes list and the rng bound. -/
theorem flowerStep_keep (vcx vty : ℚ) (idx : ℕ) (f : Flower)
    (hstem : ∀ k ∈ List.range 3, ∀ σ : GenState, 481 < σ.rng →
      (stemRetryLoop envCE 12 640
          (f.x + (vcx + (f.x - vcx) * 0.3 - f.x) * ((k : ℚ) / 3) +
            envCE.sin (((k : ℚ) / 3) * envCE.pi) * (if idx % 2 = 0 then -15 else 15))
          (f.y + f.r + (vty - (f.y + f.r)) * ((k : ℚ) / 3)) 3 σ).strokes = σ.strokes ∧
        481 < (stemRetryLoop envCE 12 640
          (f.x + (vcx + (f.x - vcx) * 0.3 - f.x) * ((k : ℚ) / 3) +
            envCE.sin (((k : ℚ) / 3) * envCE.pi) * (if idx % 2 = 0 then -15 else 15))
          (f.y + f.r + (vty - (f.y + f.r)) * ((k : ℚ) / 3)) 3 σ).rng)
    (hpetal : ∀ j ∈ List.range 6, ∀ σ : GenState, 481 < σ.rng →
      (petalRetryLoop envCE 12 640 (f.x + envCE.cos (((j : ℚ) / 6) * 360 * envCE.pi / 180) * (f.r * 0.75))
          (f.y + envCE.sin (((j : ℚ) / 6) * 360 * envCE.pi / 180) * (f.r * 0.75)) (((j : ℚ) / 6) * 360)
          (f.r * 1.1) 3
          (pushShape (petalShape f
            (f.x + envCE.cos (((j : ℚ) / 6) * 360 * envCE.pi / 180) * (f.r * 0.75))
            (f.y + envCE.sin (((j : ℚ) / 6) * 360 * envCE.pi / 180) * (f.r * 0.75))
            (((j : ℚ) / 6) * 360 * envCE.pi / 180)) σ)).strokes = σ.strokes ∧
        481 < (petalRetryLoop envCE 12 640 (f.x + envCE.cos (((j : ℚ) / 6) * 360 * envCE.pi / 180) * (f.r * 0.75))
          (f.y + envCE.sin (((j : ℚ) / 6) * 360 * envCE.pi / 180) * (f.r * 0.75)) (((j : ℚ) / 6) * 360)
          (f.r * 1.1) 3
          (pushShape (petalShape f
            (f.x + envCE.cos (((j : ℚ) / 6) * 360 * envCE.pi / 180) * (f.r * 0.75))
            (f.y + envCE.sin (((j : ℚ) / 6) * 360 * envCE.pi / 180) * (f.r * 0.75))
            (((j : ℚ) / 6) * 360 * envCE.pi / 180)) σ)).rng)
    (hcenter : ∀ σ : GenState, 481 < σ.rng →
      (centerLoop envCE 12 640 f.x f.y f.r (if idx = 0 then 4 else 3)
          ((if idx = 0 then 4 else 3) * 6) 0 σ).strokes = σ.strokes ∧
        481 < (centerLoop envCE 12 640 f.x f.y f.r (if idx = 0 then 4 else 3)
          ((if idx = 0 then 4 else 3) * 6) 0 σ).rng) :
    ∀ s : GenState, 481 < s.rng →
      (flowerStep envCE 12 640 vcx vty idx f s).strokes = s.strokes ∧
        481 < (flowerStep envCE 12 640 vcx vty idx f s).rng := by
  intro s hs
  have hs0 : 481 < (pushShape (stemShape vcx vty f) s).rng := by
    dsimp only [pushShape]
    omega
  obtain ⟨h3s, h3r⟩ := foldl_keep (List.range 3)
    (fun (s : GenState) (k : ℕ) =>
      stemRetryLoop envCE 12 640
        (f.x + (vcx + (f.x - vcx) * 0.3 - f.x) * ((k : ℚ) / 3) +
          envCE.sin (((k : ℚ) / 3) * envCE.pi) * (if idx % 2 = 0 then -15 else 15))
        (f.y + f.r + (vty - (f.y + f.r)) * ((k : ℚ) / 3)) 3 s)
    hstem (pushShape (stemShape vcx vty f) s) hs0
  obtain ⟨h6s, h6r⟩ := foldl_keep (List.range 6)
    (fun (s : GenState) (j : ℕ) =>
      petalRetryLoop envCE 12 640 (f.x + envCE.cos (((j : ℚ) / 6) * 360 * envCE.pi / 180) * (f.r * 0.75))
        (f.y + envCE.sin (((j : ℚ) / 6) * 360 * envCE.pi / 180) * (f.r * 0.75)) (((j : ℚ) / 6) * 360)
        (f.r * 1.1) 3
        (pushShape (petalShape f
          (f.x + envCE.cos (((j : ℚ) / 6) * 360 * envCE.pi / 180) * (f.r * 0.75))
          (f.y + envCE.sin (((j : ℚ) / 6) * 360 * envCE.pi / 180) * (f.r * 0.75))
          (((j : ℚ) / 6) * 360 * envCE.pi / 180)) s))
    hpetal _ h3r
  obtain ⟨hcs, hcr⟩ := hcenter
    (pushShape (centerShape idx f)
      (List.foldl
        (fun (s : GenState) (j : ℕ) =>
          petalRetryLoop envCE 12 640 (f.x + envCE.cos (((j : ℚ) / 6) * 360 * envCE.pi / 180) * (f.r * 0.75))
            (f.y + envCE.sin (((j : ℚ) / 6) * 360 * envCE.pi / 180) * (f.r * 0.75)) (((j : ℚ) / 6) * 360)
            (f.r * 1.1) 3
            (pushShape (petalShape f
              (f.x + envCE.cos (((j : ℚ) / 6) * 360 * envCE.pi / 180) * (f.r * 0.75))
              (f.y + envCE.sin (((j : ℚ) / 6) * 360 * envCE.pi / 180) * (f.r * 0.75))
              (((j : ℚ) / 6) * 360 * envCE.pi / 180)) s))
        (List.foldl
          (fun (s : GenState) (k : ℕ) =>
            stemRetryLoop envCE 12 640
              (f.x + (vcx + (f.x - vcx) * 0.3 - f.x) * ((k : ℚ) / 3) +
                envCE.sin (((k : ℚ) / 3) * envCE.pi) * (if idx % 2 = 0 then -15 else 15))
              (f.y + f.r + (vty - (f.y + f.r)) * ((k : ℚ) / 3)) 3 s)
          (pushShape (stemShape vcx vty f) s) (List.range 3))
        (List.range 6)))
    (by rw [pushShape_rng]; omega)
  simp only [flowerStep]
  exact ⟨hcs.trans (h6s.trans h3s), hcr⟩

/-- `petal_keep` through the preceding reference-shape push. -/
theorem petal_keep2 (px py angleDeg len : ℚ) (hlen : len ≠ 0)
    (hb : (getStrokeBounds envCE px py len angleDeg 14 5).minX < -5 ∨
      (getStrokeBounds envCE px py len angleDeg 14 5).minY < -5 ∨
      (getStrokeBounds envCE px py len angleDeg 14 5).maxX > 12 + 5 ∨
      (getStrokeBounds envCE px py len angleDeg 14 5).maxY > 640 + 5)
    (t : RealisticShape) (σ : GenState) (hσ : 481 < σ.rng) :
    (petalRetryLoop envCE 12 640 px py angleDeg len 3 (pushShape t σ)).strokes = σ.strokes ∧
      481 < (petalRetryLoop envCE 12 640 px py angleDeg len 3 (pushShape t σ)).rng := by
  obtain ⟨a, b⟩ := petal_keep px py angleDeg len hlen hb (pushShape t σ)
    (by rw [pushShape_rng]; omega)
  exact ⟨a, b⟩

/-- The second flower (top right) adds no stroke on the 12×640 canvas:
every stem, petal and dot candidate violates the horizontal bounds. -/
theorem flowerStep_f1 : ∀ s : GenState, 481 < s.rng →
    (flowerStep envCE 12 640 (12 / 2) (640 * 0.55) 1 ⟨12 * 0.72, 640 * 0.35, 32⟩ s).strokes =
        s.strokes ∧
      481 < (flowerStep envCE 12 640 (12 / 2) (640 * 0.55) 1 ⟨12 * 0.72, 640 * 0.35, 32⟩ s).rng := by
  apply flowerStep_keep
  · intro k hk σ hσ
    rw [List.mem_range] at hk
    dsimp only
    simp only [show ((1 : ℕ) % 2 = 0) = False from by norm_num, if_false]
    interval_cases k
    · simp only [Nat.cast_zero, zero_div, zero_mul, mul_zero, add_zero, envCE_sin,
        tableSin_0]
      exact stem_keep _ _ (stem_hb_max3 _ _ (by norm_num [cosv, sinv])) σ hσ
    · simp only [Nat.cast_one, stemarg1, envCE_sin, tableSin_piThird]
      exact stem_keep _ _ (stem_hb_max0 _ _ (by norm_num)) σ hσ
    · simp only [Nat.cast_ofNat, stemarg2, envCE_sin, tableSin_2piThird]
      exact stem_keep _ _ (stem_hb_max0 _ _ (by norm_num)) σ hσ
  · intro j hj σ hσ
    rw [List.mem_range] at hj
    dsimp only
    interval_cases j
    · simp only [Nat.cast_zero, zero_div, zero_mul, rad_0, envCE_cos, envCE_sin,
        tableCos_0, tableSin_0, deg0]
      exact petal_keep2 _ _ _ _ (by norm_num) (petal_hb_max0 _ _ _ _ (by norm_num)) _ σ hσ
    · simp only [Nat.cast_one, deg1, rad_60, envCE_cos, envCE_sin, tableCos_piThird,
        tableSin_piThird]
      exact petal_keep2 _ _ _ _ (by norm_num) (petal_hb_max0 _ _ _ _ (by norm_num)) _ σ hσ
    · simp only [Nat.cast_ofNat, deg2, rad_120, envCE_cos, envCE_sin, tableCos_2piThird,
        tableSin_2piThird]
      exact petal_keep2 _ _ _ _ (by norm_num)
        (petal_hb_min1 _ _ _ _ (by rw [rad_120, envCE_cos, tableCos_2piThird]; norm_num)) _ σ hσ
    · simp only [Nat.cast_ofNat, deg3, rad_180, envCE_cos, envCE_sin, tableCos_pi,
        tableSin_pi, mul_zero, add_zero, zero_mul]
      exact petal_keep2 _ _ _ _ (by norm_num) (petal_hb_min0 _ _ _ _ (by norm_num)) _ σ hσ
    · simp only [Nat.cast_ofNat, deg4, rad_240, envCE_cos, envCE_sin, tableCos_4piThird]
      exact petal_keep2 _ _ _ _ (by norm_num)
        (petal_hb_min1 _ _ _ _ (by rw [rad_240, envCE_cos, tableCos_4piThird]; norm_num)) _ σ hσ
    · simp only [Nat.cast_ofNat, deg5, rad_300, envCE_cos, envCE_sin, tableCos_5piThird]
      exact petal_keep2 _ _ _ _ (by norm_num) (petal_hb_max0 _ _ _ _ (by norm_num)) _ σ hσ
  · intro σ hσ
    dsimp only
    exact center_keep _ _ _ (by norm_num) _ _ (by norm_num) σ hσ

/-- The third flower (center right) adds no stroke either. -/
theorem flowerStep_f2 : ∀ s : GenState, 481 < s.rng →
    (flowerStep envCE 12 640 (12 / 2) (640 * 0.55) 2 ⟨12 * 0.58, 640 * 0.52, 28⟩ s).strokes =
        s.strokes ∧
      481 < (flowerStep envCE 12 640 (12 / 2) (640 * 0.55) 2 ⟨12 * 0.58, 640 * 0.52, 28⟩ s).rng := by
  apply flowerStep_keep
  · intro k hk σ hσ
    rw [List.mem_range] at hk
    dsimp only
    simp only [show ((2 : ℕ) % 2 = 0) = True from by norm_num, if_true]
    interval_cases k
    · simp only [Nat.cast_zero, zero_div, zero_mul, mul_zero, add_zero, envCE_sin,
        tableSin_0]
      exact stem_keep _ _ (stem_hb_max3 _ _ (by norm_num [cosv, sinv])) σ hσ
    · simp only [Nat.cast_one, stemarg1, envCE_sin, tableSin_piThird]
      exact stem_keep _ _ (stem_hb_min0 _ _ (by norm_num)) σ hσ
    · simp only [Nat.cast_ofNat, stemarg2, envCE_sin, tableSin_2piThird]
      exact stem_keep _ _ (stem_hb_min0 _ _ (by norm_num)) σ hσ
  · intro j hj σ hσ
    rw [List.mem_range] at hj
    dsimp only
    interval_cases j
    · simp only [Nat.cast_zero, zero_div, zero_mul, rad_0, envCE_cos, envCE_sin,
        tableCos_0, tableSin_0, deg0]
      exact petal_keep2 _ _ _ _ (by norm_num) (petal_hb_max0 _ _ _ _ (by norm_num)) _ σ hσ
    · simp only [Nat.cast_one, deg1, rad_60, envCE_cos, envCE_sin, tableCos_piThird,
        tableSin_piThird]
      exact petal_keep2 _ _ _ _ (by norm_num) (petal_hb_max0 _ _ _ _ (by norm_num)) _ σ hσ
    · simp only [Nat.cast_ofNat, deg2, rad_120, envCE_cos, envCE_sin, tableCos_2piThird,
        tableSin_2piThird]
      exact petal_keep2 _ _ _ _ (by norm_num)
        (petal_hb_min1 _ _ _ _ (by rw [rad_120, envCE_cos, tableCos_2piThird]; norm_num)) _ σ hσ
    · simp only [Nat.cast_ofNat, deg3, rad_180, envCE_cos, envCE_sin, tableCos_pi,
        tableSin_pi, mul_zero, add_zero, zero_mul]
      exact petal_keep2 _ _ _ _ (by norm_num) (petal_hb_min0 _ _ _ _ (by norm_num)) _ σ hσ
    · simp only [Nat.cast_ofNat, deg4, rad_240, envCE_cos, envCE_sin, tableCos_4piThird]
      exact petal_keep2 _ _ _ _ (by norm_num)
        (petal_hb_min1 _ _ _ _ (by rw [rad_240, envCE_cos, tableCos_4piThird]; norm_num)) _ σ hσ
    · simp only [Nat.cast_ofNat, deg5, rad_300, envCE_cos, envCE_sin, tableCos_5piThird]
      exact petal_keep2 _ _ _ _ (by norm_num) (petal_hb_max0 _ _ _ _ (by norm_num)) _ σ hσ
  · intro σ hσ
    dsimp only
    exact center_keep _ _ _ (by norm_num) _ _ (by norm_num) σ hσ

/-- Folding where the first element accepts a stroke and the rest
reject: the final strokes list is the one after the acceptance. -/
theorem foldl_keep_cons {α : Type} (a : α) (l : List α) (F : GenState → α → GenState)
    (σ : GenState) (M : List Stroke)
    (h0 : (F σ a).strokes = M ∧ 481 < (F σ a).rng)
    (hF : ∀ b ∈ l, ∀ τ : GenState, 481 < τ.rng →
      (F τ b).strokes = τ.strokes ∧ 481 < (F τ b).rng) :
    ((a :: l).foldl F σ).strokes = M ∧ 481 < ((a :: l).foldl F σ).rng := by
  rw [List.foldl_cons]
  obtain ⟨h3, h4⟩ := foldl_keep l F hF (F σ a) h0.2
  exact ⟨h3.trans h0.1, h4⟩

/-- The first stem point of the first flower accepts immediately, so
its retry loop returns right after the acceptance. -/
theorem stem_accept_loop (L : List Stroke) (SH : List RealisticShape) (z r a : ℕ)
    (hr : 481 < r) :
    (stemRetryLoop envCE 12 640 (12 * 0.35) (640 * 0.5 + 42) 3
        { strokes := L, shapes := SH,
          boundsByColor := fun c => if c = PaletteColor.GrassGreen then [vaseBoxE] else [],
          centersByColor := fun c => if c = PaletteColor.GrassGreen then [vaseCenterE] else [],
          zIndexCounter := z, rng := r, attempts := a }).strokes =
      (L ++
        [{ id := "i",
           path :=
             { x := 12 * 0.35, y := 640 * 0.5 + 42, length := 26, angle := 175 / 2,
               width := 10, curvature := 0 },
           targetColor := PaletteColor.GrassGreen, currentColor := none, zIndex := z,
           minDist := 20, idIdx := r + 1 + 1 }]) ∧
      481 < (stemRetryLoop envCE 12 640 (12 * 0.35) (640 * 0.5 + 42) 3
        { strokes := L, shapes := SH,
          boundsByColor := fun c => if c = PaletteColor.GrassGreen then [vaseBoxE] else [],
          centersByColor := fun c => if c = PaletteColor.GrassGreen then [vaseCenterE] else [],
          zIndexCounter := z, rng := r, attempts := a }).rng := by
  rw [stemRetryLoop]
  dsimp only [draw_fst, draw_snd]
  simp only [envCE_rand_gt r (by omega : 481 < r)]
  simp only [stem_accept L SH z (r + 1) a (by omega : 481 < r + 1)]
  simp only [List.length_append, List.length_singleton]
  simp only [if_pos (lt_add_one L.length)]
  exact ⟨trivial, by omega⟩


/-- The second and third stem points of the first flower are rejected. -/
theorem f0_stems_rest : ∀ b ∈ [1, 2], ∀ τ : GenState, 481 < τ.rng →
    (((fun (s : GenState) (k : ℕ) =>
      stemRetryLoop envCE 12 640
        (12 * 0.35 + (12 / 2 + (12 * 0.35 - 12 / 2) * 0.3 - 12 * 0.35) * ((k : ℚ) / 3) +
          envCE.sin (((k : ℚ) / 3) * envCE.pi) * -15)
        (640 * 0.5 + 42 + (640 * 0.55 - (640 * 0.5 + 42)) * ((k : ℚ) / 3)) 3 s) τ b).strokes = τ.strokes ∧
      481 < ((fun (s : GenState) (k : ℕ) =>
      stemRetryLoop envCE 12 640
        (12 * 0.35 + (12 / 2 + (12 * 0.35 - 12 / 2) * 0.3 - 12 * 0.35) * ((k : ℚ) / 3) +
          envCE.sin (((k : ℚ) / 3) * envCE.pi) * -15)
        (640 * 0.5 + 42 + (640 * 0.55 - (640 * 0.5 + 42)) * ((k : ℚ) / 3)) 3 s) τ b).rng) := by
  intro b hb τ hτ
  fin_cases hb
  · dsimp only
    simp only [Nat.cast_one, stemarg1, envCE_sin, tableSin_piThird]
    exact stem_keep _ _ (stem_hb_min0 _ _ (by norm_num)) τ hτ
  · dsimp only
    simp only [Nat.cast_ofNat, stemarg2, envCE_sin, tableSin_2piThird]
    exact stem_keep _ _ (stem_hb_min0 _ _ (by norm_num)) τ hτ

/-- All six petals of the first flower are rejected. -/
theorem f0_petals : ∀ j ∈ List.range 6, ∀ σ : GenState, 481 < σ.rng →
    (((fun (s : GenState) (j : ℕ) =>
      petalRetryLoop envCE 12 640
        (12 * 0.35 + envCE.cos (((j : ℚ) / 6) * 360 * envCE.pi / 180) * (42 * 0.75))
        (640 * 0.5 + envCE.sin (((j : ℚ) / 6) * 360 * envCE.pi / 180) * (42 * 0.75))
        (((j : ℚ) / 6) * 360) (42 * 1.1) 3
        (pushShape (petalShape ⟨12 * 0.35, 640 * 0.5, 42⟩
          (12 * 0.35 + envCE.cos (((j : ℚ) / 6) * 360 * envCE.pi / 180) * (42 * 0.75))
          (640 * 0.5 + envCE.sin (((j : ℚ) / 6) * 360 * envCE.pi / 180) * (42 * 0.75))
          (((j : ℚ) / 6) * 360 * envCE.pi / 180)) s)) σ j).strokes = σ.strokes ∧
      481 < ((fun (s : GenState) (j : ℕ) =>
      petalRetryLoop envCE 12 640
        (12 * 0.35 + envCE.cos (((j : ℚ) / 6) * 360 * envCE.pi / 180) * (42 * 0.75))
        (640 * 0.5 + envCE.sin (((j : ℚ) / 6) * 360 * envCE.pi / 180) * (42 * 0.75))
        (((j : ℚ) / 6) * 360) (42 * 1.1) 3
        (pushShape (petalShape ⟨12 * 0.35, 640 * 0.5, 42⟩
          (12 * 0.35 + envCE.cos (((j : ℚ) / 6) * 360 * envCE.pi / 180) * (42 * 0.75))
          (640 * 0.5 + envCE.sin (((j : ℚ) / 6) * 360 * envCE.pi / 180) * (42 * 0.75))
          (((j : ℚ) / 6) * 360 * envCE.pi / 180)) s)) σ j).rng) := by
  intro j hj σ hσ
  rw [List.mem_range] at hj
  dsimp only
  interval_cases j
  · simp only [Nat.cast_zero, zero_div, zero_mul, rad_0, envCE_cos, envCE_sin,
      tableCos_0, tableSin_0, deg0]
    exact petal_keep2 _ _ _ _ (by norm_num) (petal_hb_max0 _ _ _ _ (by norm_num)) _ σ hσ
  · simp only [Nat.cast_one, deg1, rad_60, envCE_cos, envCE_sin, tableCos_piThird,
      tableSin_piThird]
    exact petal_keep2 _ _ _ _ (by norm_num) (petal_hb_max0 _ _ _ _ (by norm_num)) _ σ hσ
  · simp only [Nat.cast_ofNat, deg2, rad_120, envCE_cos, envCE_sin, tableCos_2piThird,
      tableSin_2piThird]
    exact petal_keep2 _ _ _ _ (by norm_num) (petal_hb_min0 _ _ _ _ (by norm_num)) _ σ hσ
  · simp only [Nat.cast_ofNat, deg3, rad_180, envCE_cos, envCE_sin, tableCos_pi,
      tableSin_pi, mul_zero, add_zero, zero_mul]
    exact petal_keep2 _ _ _ _ (by norm_num) (petal_hb_min0 _ _ _ _ (by norm_num)) _ σ hσ
  · simp only [Nat.cast_ofNat, deg4, rad_240, envCE_cos, envCE_sin, tableCos_4piThird]
    exact petal_keep2 _ _ _ _ (by norm_num) (petal_hb_min0 _ _ _ _ (by norm_num)) _ σ hσ
  · simp only [Nat.cast_ofNat, deg5, rad_300, envCE_cos, envCE_sin, tableCos_5piThird]
    exact petal_keep2 _ _ _ _ (by norm_num) (petal_hb_max0 _ _ _ _ (by norm_num)) _ σ hσ

/-- The first flower's step on the engineered run: the first stem point
is accepted (the second accepted stroke overall), and every other
candidate of the flower is rejected. -/
theorem flowerStep_f0 (L : List Stroke) (SH : List RealisticShape) (z r a : ℕ)
    (hr : 481 < r) :
    (flowerStep envCE 12 640 (12 / 2) (640 * 0.55) 0 ⟨12 * 0.35, 640 * 0.5, 42⟩
        { strokes := L, shapes := SH,
          boundsByColor := fun c => if c = PaletteColor.GrassGreen then [vaseBoxE] else [],
          centersByColor := fun c => if c = PaletteColor.GrassGreen then [vaseCenterE] else [],
          zIndexCounter := z, rng := r, attempts := a }).strokes =
      (L ++
        [{ id := "i",
           path :=
             { x := 12 * 0.35, y := 640 * 0.5 + 42, length := 26, angle := 175 / 2,
               width := 10, curvature := 0 },
           targetColor := PaletteColor.GrassGreen, currentColor := none, zIndex := z,
           minDist := 20, idIdx := r + 1 + 1 }]) ∧
      481 < (flowerStep envCE 12 640 (12 / 2) (640 * 0.55) 0 ⟨12 * 0.35, 640 * 0.5, 42⟩
        { strokes := L, shapes := SH,
          boundsByColor := fun c => if c = PaletteColor.GrassGreen then [vaseBoxE] else [],
          centersByColor := fun c => if c = PaletteColor.GrassGreen then [vaseCenterE] else [],
          zIndexCounter := z, rng := r, attempts := a }).rng := by
  have hstem0 : ((fun (s : GenState) (k : ℕ) =>
      stemRetryLoop envCE 12 640
        (12 * 0.35 + (12 / 2 + (12 * 0.35 - 12 / 2) * 0.3 - 12 * 0.35) * ((k : ℚ) / 3) +
          envCE.sin (((k : ℚ) / 3) * envCE.pi) * -15)
        (640 * 0.5 + 42 + (640 * 0.55 - (640 * 0.5 + 42)) * ((k : ℚ) / 3)) 3 s)
      (pushShape (stemShape (12 / 2) (640 * 0.55) ⟨12 * 0.35, 640 * 0.5, 42⟩)
        { strokes := L, shapes := SH,
          boundsByColor := fun c => if c = PaletteColor.GrassGreen then [vaseBoxE] else [],
          centersByColor := fun c => if c = PaletteColor.GrassGreen then [vaseCenterE] else [],
          zIndexCounter := z, rng := r, attempts := a }) 0).strokes =
      (L ++
        [{ id := "i",
           path :=
             { x := 12 * 0.35, y := 640 * 0.5 + 42, length := 26, angle := 175 / 2,
               width := 10, curvature := 0 },
           targetColor := PaletteColor.GrassGreen, currentColor := none, zIndex := z,
           minDist := 20, idIdx := r + 1 + 1 }]) ∧
      481 < ((fun (s : GenState) (k : ℕ) =>
      stemRetryLoop envCE 12 640
        (12 * 0.35 + (12 / 2 + (12 * 0.35 - 12 / 2) * 0.3 - 12 * 0.35) * ((k : ℚ) / 3) +
          envCE.sin (((k : ℚ) / 3) * envCE.pi) * -15)
        (640 * 0.5 + 42 + (640 * 0.55 - (640 * 0.5 + 42)) * ((k : ℚ) / 3)) 3 s)
      (pushShape (stemShape (12 / 2) (640 * 0.55) ⟨12 * 0.35, 640 * 0.5, 42⟩)
        { strokes := L, shapes := SH,
          boundsByColor := fun c => if c = PaletteColor.GrassGreen then [vaseBoxE] else [],
          centersByColor := fun c => if c = PaletteColor.GrassGreen then [vaseCenterE] else [],
          zIndexCounter := z, rng := r, attempts := a }) 0).rng := by
    dsimp only
    simp only [Nat.cast_zero, zero_div, zero_mul, mul_zero, add_zero,
      envCE_sin, tableSin_0]
    simp only [pushShape]
    exact stem_accept_loop L _ z r a hr
  have hstems := foldl_keep_cons 0 [1, 2]
    (fun (s : GenState) (k : ℕ) =>
      stemRetryLoop envCE 12 640
        (12 * 0.35 + (12 / 2 + (12 * 0.35 - 12 / 2) * 0.3 - 12 * 0.35) * ((k : ℚ) / 3) +
          envCE.sin (((k : ℚ) / 3) * envCE.pi) * -15)
        (640 * 0.5 + 42 + (640 * 0.55 - (640 * 0.5 + 42)) * ((k : ℚ) / 3)) 3 s)
    (pushShape (stemShape (12 / 2) (640 * 0.55) ⟨12 * 0.35, 640 * 0.5, 42⟩)
      { strokes := L, shapes := SH,
        boundsByColor := fun c => if c = PaletteColor.GrassGreen then [vaseBoxE] else [],
        centersByColor := fun c => if c = PaletteColor.GrassGreen then [vaseCenterE] else [],
        zIndexCounter := z, rng := r, attempts := a })
    (L ++
      [{ id := "i",
         path :=
           { x := 12 * 0.35, y := 640 * 0.5 + 42, length := 26, angle := 175 / 2,
             width := 10, curvature := 0 },
         targetColor := PaletteColor.GrassGreen, currentColor := none, zIndex := z,
         minDist := 20, idIdx := r + 1 + 1 }])
    hstem0
    f0_stems_rest
  obtain ⟨hps, hpr⟩ := foldl_keep (List.range 6)
    (fun (s : GenState) (j : ℕ) =>
      petalRetryLoop envCE 12 640
        (12 * 0.35 + envCE.cos (((j : ℚ) / 6) * 360 * envCE.pi / 180) * (42 * 0.75))
        (640 * 0.5 + envCE.sin (((j : ℚ) / 6) * 360 * envCE.pi / 180) * (42 * 0.75))
        (((j : ℚ) / 6) * 360) (42 * 1.1) 3
        (pushShape (petalShape ⟨12 * 0.35, 640 * 0.5, 42⟩
          (12 * 0.35 + envCE.cos (((j : ℚ) / 6) * 360 * envCE.pi / 180) * (42 * 0.75))
          (640 * 0.5 + envCE.sin (((j : ℚ) / 6) * 360 * envCE.pi / 180) * (42 * 0.75))
          (((j : ℚ) / 6) * 360 * envCE.pi / 180)) s))
    f0_petals
    _ hstems.2
  obtain ⟨hcs, hcr⟩ := center_keep (12 * 0.35) (640 * 0.5) 42 (by norm_num)
    4 (4 * 6) (by norm_num)
    (pushShape (centerShape 0 ⟨12 * 0.35, 640 * 0.5, 42⟩)
      (List.foldl
        (fun (s : GenState) (j : ℕ) =>
          petalRetryLoop envCE 12 640
            (12 * 0.35 + envCE.cos (((j : ℚ) / 6) * 360 * envCE.pi / 180) * (42 * 0.75))
            (640 * 0.5 + envCE.sin (((j : ℚ) / 6) * 360 * envCE.pi / 180) * (42 * 0.75))
            (((j : ℚ) / 6) * 360) (42 * 1.1) 3
            (pushShape (petalShape ⟨12 * 0.35, 640 * 0.5, 42⟩
              (12 * 0.35 + envCE.cos (((j : ℚ) / 6) * 360 * envCE.pi / 180) * (42 * 0.75))
              (640 * 0.5 + envCE.sin (((j : ℚ) / 6) * 360 * envCE.pi / 180) * (42 * 0.75))
              (((j : ℚ) / 6) * 360 * envCE.pi / 180)) s))
        (List.foldl
          (fun (s : GenState) (k : ℕ) =>
            stemRetryLoop envCE 12 640
              (12 * 0.35 + (12 / 2 + (12 * 0.35 - 12 / 2) * 0.3 - 12 * 0.35) * ((k : ℚ) / 3) +
                envCE.sin (((k : ℚ) / 3) * envCE.pi) * -15)
              (640 * 0.5 + 42 + (640 * 0.55 - (640 * 0.5 + 42)) * ((k : ℚ) / 3)) 3 s)
          (pushShape (stemShape (12 / 2) (640 * 0.55) ⟨12 * 0.35, 640 * 0.5, 42⟩)
            { strokes := L, shapes := SH,
              boundsByColor := fun c => if c = PaletteColor.GrassGreen then [vaseBoxE] else [],
              centersByColor := fun c =>
                if c = PaletteColor.GrassGreen then [vaseCenterE] else [],
              zIndexCounter := z, rng := r, attempts := a }) [0, 1, 2])
        (List.range 6)))
    (by rw [pushShape_rng]; omega)
  simp only [flowerStep]
  simp only [show List.range 3 = [0, 1, 2] from rfl, if_true]
  refine ⟨?_, hcr⟩
  rw [hcs, pushShape_strokes, hps, hstems.1]

/-- The vase loop of the engineered 12×640 run: the first candidate is
accepted (the vase stroke), and the remaining 39 attempts are all
rejected at the right canvas edge. -/
theorem vasePhase_CE :
    vaseLoop envCE 12 640 (12 / 2) (640 * 0.85) (640 * 0.55) (12 * 0.15) (12 * 0.25) (10 * 4) 0
      { strokes := [],
        shapes := [skyShape 12 (640 * 0.65), tableShape 12 640 (640 * 0.65),
          vaseShape (12 / 2) (640 * 0.85) (640 * 0.55) (12 * 0.15) (12 * 0.25) (12 * 0.18)],
        boundsByColor := fun _ => [], centersByColor := fun _ => [], zIndexCounter := 0,
        rng := 480, attempts := 120 } =
      { strokes := [vaseStrokeE],
        shapes := [skyShape 12 (640 * 0.65), tableShape 12 640 (640 * 0.65),
          vaseShape (12 / 2) (640 * 0.85) (640 * 0.55) (12 * 0.15) (12 * 0.25) (12 * 0.18)],
        boundsByColor := fun c => if c = PaletteColor.GrassGreen then [vaseBoxE] else [],
        centersByColor := fun c => if c = PaletteColor.GrassGreen then [vaseCenterE] else [],
        zIndexCounter := 1, rng := 641, attempts := 160 } := by
  rw [vaseLoop]
  rw [if_pos (by norm_num : (0 : ℕ) < 10)]
  dsimp only [draw_fst, draw_snd]
  simp only [envCE_rand_480, show (480 : ℕ) + 1 = 481 from rfl,
    show (481 : ℕ) + 1 = 482 from rfl, show (482 : ℕ) + 1 = 483 from rfl, envCE_rand_481,
    envCE_rand_gt 482 (by norm_num)]
  simp only [envCE_sin, envCE_pi, tableSin_tstar]
  simp only [List.length_nil]
  rw [vase_accept []
    [skyShape 12 (640 * 0.65), tableShape 12 640 (640 * 0.65),
      vaseShape (12 / 2) (640 * 0.85) (640 * 0.55) (12 * 0.15) (12 * 0.25) (12 * 0.18)]
    0 483 120 (by norm_num)]
  simp only [List.nil_append, List.length_cons, List.length_nil]
  rw [if_pos (by norm_num : 0 < 0 + 1)]
  rw [vaseRest_CE 39 (0 + 1) _ (by norm_num) (by norm_num)]
  rfl

/-- Unfold a left fold over a three-element list. -/
theorem foldl3 {α : Type} (F : GenState → α → GenState) (s : GenState) (a b c : α) :
    List.foldl F s [a, b, c] = F (F (F s a) b) c := rfl

/-- The strokes list of the engineered 12×640 run: exactly the vase
stroke followed by the stem stroke. -/
theorem genRun_CE_strokes : (genRun envCE 12 640).strokes = [vaseStrokeE, stemStrokeE] := by
  have h1 : skyLoop envCE 12 640 (640 * 0.65) (18 * 4) 0
      (pushShape (skyShape 12 (640 * 0.65)) GenState.init) =
      { strokes := [], shapes := [skyShape 12 (640 * 0.65)], boundsByColor := fun _ => [],
        centersByColor := fun _ => [], zIndexCounter := 0, rng := 288, attempts := 72 } :=
    (skyLoop_CE (18 * 4) 0 _ (by norm_num) (by decide)).trans rfl
  have h2 : tableLoop envCE 12 640 (640 * 0.65) (12 * 4) 0
      (pushShape (tableShape 12 640 (640 * 0.65))
        { strokes := [], shapes := [skyShape 12 (640 * 0.65)], boundsByColor := fun _ => [],
          centersByColor := fun _ => [], zIndexCounter := 0, rng := 288, attempts := 72 }) =
      { strokes := [], shapes := [skyShape 12 (640 * 0.65), tableShape 12 640 (640 * 0.65)],
        boundsByColor := fun _ => [], centersByColor := fun _ => [], zIndexCounter := 0,
        rng := 480, attempts := 120 } :=
    (tableLoop_CE (12 * 4) 0 _ (by norm_num) (by decide)).trans rfl
  have h3 : pushShape
      (vaseShape (12 / 2) (640 * 0.85) (640 * 0.55) (12 * 0.15) (12 * 0.25) (12 * 0.18))
      { strokes := [], shapes := [skyShape 12 (640 * 0.65), tableShape 12 640 (640 * 0.65)],
        boundsByColor := fun _ => [], centersByColor := fun _ => [], zIndexCounter := 0,
        rng := 480, attempts := 120 } =
      { strokes := [],
        shapes := [skyShape 12 (640 * 0.65), tableShape 12 640 (640 * 0.65),
          vaseShape (12 / 2) (640 * 0.85) (640 * 0.55) (12 * 0.15) (12 * 0.25) (12 * 0.18)],
        boundsByColor := fun _ => [], centersByColor := fun _ => [], zIndexCounter := 0,
        rng := 480, attempts := 120 } := rfl
  simp only [genRun]
  rw [h1, h2, h3, vasePhase_CE]
  rw [show List.enum [(⟨12 * 0.35, 640 * 0.5, 42⟩ : Flower), ⟨12 * 0.72, 640 * 0.35, 32⟩,
      ⟨12 * 0.58, 640 * 0.52, 28⟩] =
    [(0, (⟨12 * 0.35, 640 * 0.5, 42⟩ : Flower)), (1, ⟨12 * 0.72, 640 * 0.35, 32⟩),
      (2, ⟨12 * 0.58, 640 * 0.52, 28⟩)] from rfl]
  rw [foldl3]
  dsimp only
  obtain ⟨hA, hAr⟩ := flowerStep_f0 [vaseStrokeE]
    [skyShape 12 (640 * 0.65), tableShape 12 640 (640 * 0.65),
      vaseShape (12 / 2) (640 * 0.85) (640 * 0.55) (12 * 0.15) (12 * 0.25) (12 * 0.18)]
    1 641 160 (by norm_num)
  obtain ⟨hB, hBr⟩ := flowerStep_f1 _ hAr
  obtain ⟨hC, hCr⟩ := flowerStep_f2 _ hBr
  rw [hC, hB, hA]
  norm_num [stemStrokeE]

/-- The accepted vase stroke's centerline midpoint is `vaseCenterE`. -/
theorem center_vaseStrokeE : strokeCenterOf envCE vaseStrokeE = vaseCenterE := by
  simp only [strokeCenterOf, vaseStrokeE, getStrokeCenter,
    show (90 : ℚ) * envCE.pi / 180 = piQ / 2 from by rw [envCE_pi]; ring,
    envCE_cos, envCE_sin, tableCos_piHalf, tableSin_piHalf, vaseCenterE]
  congr 1 <;> norm_num

/-- The accepted stem stroke's centerline midpoint is `stemCenterE`. -/
theorem center_stemStrokeE : strokeCenterOf envCE stemStrokeE = stemCenterE := by
  simp only [strokeCenterOf, stemStrokeE, getStrokeCenter,
    show (175 / 2 : ℚ) * envCE.pi / 180 = 35 * piQ / 72 from by rw [envCE_pi]; ring,
    envCE_cos, envCE_sin, tableCos_3572, tableSin_3572, stemCenterE]
  congr 1 <;> norm_num [cosv, sinv]

/-- C2 counterexample.  The literal reading of the spacing guarantee —
each same-color pair is separated by at least EACH of the two strokes'
configured region minimum distances — is false: in the engineered
12×640 run the vase stroke (configured minimum distance 22) and the
stem stroke (configured minimum distance 20) are exactly 21 apart,
because the acceptance test only checks the candidate's own minimum
distance against earlier strokes. -/
theorem c2_counterexample_vase_stem :
    ¬ ((generateSunflowersData envCE 12 640).strokes.Pairwise fun a b =>
        a.targetColor = b.targetColor →
          (max a.minDist b.minDist) ^ 2 ≤
            sqDist (strokeCenterOf envCE a) (strokeCenterOf envCE b)) := by
  intro h
  rw [generate_strokes, genRun_CE_strokes, List.pairwise_cons] at h
  have hR := h.1 stemStrokeE (by simp) rfl
  rw [center_vaseStrokeE, center_stemStrokeE] at hR
  norm_num [vaseStrokeE, stemStrokeE, vaseCenterE, stemCenterE, sqDist, max_def] at hR

/-- C4 counterexample.  Id uniqueness fails for a random stream that
repeats a value: in the engineered 12×640 run both accepted strokes
draw `1/2` for their id, so both ids are the same string. -/
theorem c4_counterexample_id_collision :
    ¬ (((generateSunflowersData envCE 12 640).strokes.Pairwise fun a b =>
          a.zIndex < b.zIndex) ∧
        (generateSunflowersData envCE 12 640).strokes.Pairwise fun a b => a.id ≠ b.id) := by
  intro h
  have h2 := h.2
  rw [generate_strokes, genRun_CE_strokes, List.pairwise_cons] at h2
  exact h2.1 stemStrokeE (by simp) rfl
